import Mathlib

/-!
# Mesh-Destruction-OpenGL-Demo: the GPU particle store

A shallow embedding of `ParticleSystem.cpp`, `model.cpp`, the uniform setters
of `Shader.cpp`, `Mesh::Draw`, and of `main.cpp` the start-up that builds the
particle store and the render loop.

* In the model of the particle store `float` values are elements of an ordered
  field `α` (exact arithmetic); the square root used by `glm::normalize` is a
  parameter of the platform.
* `randomf`, `glm::normalize` and the direction loop are also modelled in the
  `float` arithmetic of the compiled code (`binary32`, `randomf32`,
  `normalize32`, `directionLoop32`): there every conversion and operation
  rounds, and `normalize` divides by zero at the zero vector.
* `unsigned int` values are natural numbers, reduced modulo `2 ^ 32` where the
  source computes with them.
* OpenGL is a command trace: every call the source makes is appended to
  `World.gl.trace` with its arguments.  The data stores of the five particle
  buffers are kept in `World.store`; a cell that was never written is `none`.
* The outcome of each `glMapBufferRange` (a pointer or `NULL`) and the outputs
  of `rand()` are chosen by the environment and are inputs of the model.
* A read outside a `std::vector` (undefined behaviour in the source) makes the
  model return `none`.
* `RAND_MAX`, `FLT_MAX` and the square root come from the C and C++ libraries,
  not from these sources; they are parameters.
* Of `Model` only what decides the vertex pool, the vertex count and the
  material colours is embedded; texture loading and the OpenGL objects of
  `Mesh::setupMesh` are left out.
-/

namespace MeshDestruction

set_option linter.dupNamespace false

/-! ## glm vectors -/

/-- The type `glm::vec2`. -/
structure Vec2 (α : Type) where
  x : α
  y : α
deriving DecidableEq

/-- The type `glm::vec3` (also used with the colour names r, g, b). -/
structure Vec3 (α : Type) where
  x : α
  y : α
  z : α
deriving DecidableEq

/-- The type `glm::vec4` (also used with the colour names r, g, b, a). -/
structure Vec4 (α : Type) where
  x : α
  y : α
  z : α
  w : α
deriving DecidableEq

/-- The type `glm::mat4`, as four columns. -/
abbrev Mat4 (α : Type) := Fin 4 → Vec4 α

/-- Constants of the C and C++ implementation that the sources use but do not define. -/
structure Platform (α : Type) where
  /-- The constant `RAND_MAX` of `<cstdlib>`. -/
  RAND_MAX : Nat
  /-- The square root behind `glm::inversesqrt`. -/
  sqrt : α → α

/-- The function `glm::dot` on `vec4`. -/
def dot [Field α] (a b : Vec4 α) : α :=
  a.x * b.x + a.y * b.y + a.z * b.z + a.w * b.w

/-- The function `glm::inversesqrt`: `1 / sqrt x`. -/
def inversesqrt [Field α] (P : Platform α) (x : α) : α :=
  1 / P.sqrt x

/-- The function `glm::normalize` on `vec4`: `v * inversesqrt(dot(v, v))`. -/
def normalize [Field α] (P : Platform α) (v : Vec4 α) : Vec4 α :=
  let s := inversesqrt P (dot v v)
  { x := v.x * s, y := v.y * s, z := v.z * s, w := v.w * s }

/-- The function `glm::length` on `vec4`: `sqrt(dot(v, v))`. -/
def length [Field α] (P : Platform α) (v : Vec4 α) : α :=
  P.sqrt (dot v v)

/-! ## rand() -/

/-- The generator behind `rand()`: the values its successive calls return, and
the number of calls made so far. -/
structure RandState where
  outputs : Nat → Nat
  calls : Nat

/-- One call of `rand()`. -/
def rand (g : RandState) : Nat × RandState :=
  (g.outputs g.calls, { g with calls := g.calls + 1 })

/-- `ParticleSystem::randomf(min, max)` (ParticleSystem.cpp 162-168). -/
def ParticleSystem.randomf [LinearOrderedField α] (P : Platform α) (min max : α)
    (g : RandState) : α × RandState :=
  if max < min then (0, g)
  else
    let (r, g1) := rand g
    let n : α := (r : α) / (P.RAND_MAX : α)
    let range : α := max - min
    (n * range + min, g1)

/-! ## unsigned int -/

/-- Reduction to `unsigned int` (32 bits). -/
def toUInt32 (n : Int) : Nat :=
  (n % 2 ^ 32).toNat

/-- Conversion of an `unsigned int` to `GLsizei` (a signed 32-bit integer). -/
def toGLsizei (n : Nat) : Int :=
  if n % 2 ^ 32 < 2 ^ 31 then ((n % 2 ^ 32 : Nat) : Int) else ((n % 2 ^ 32 : Nat) : Int) - 2 ^ 32

/-- The number of work-groups computed in `ParticleSystem::update`
(ParticleSystem.cpp 148): `(maxParticles + 128 - 1) / 128` in `unsigned int`. -/
def dispatchGroups (maxParticles : Nat) : Nat :=
  toUInt32 ((toUInt32 ((maxParticles : Int) + 128) : Int) - 1) / 128

/-! ## The mesh model (mesh.h, model.h, model.cpp) -/

/-- The struct `Vertex` of mesh.h. -/
structure Vertex (α : Type) where
  Position : Vec3 α
  Normal : Vec3 α
  TexCoords : Vec2 α

/-- The struct `Material` of mesh.h. -/
structure Material (α : Type) where
  ambient : Vec3 α
  diffuse : Vec3 α
  specular : Vec3 α
  shininess : α

/-- The struct `Texture` of mesh.h. -/
structure Texture where
  id : Nat
  type : String
  path : String

/-- The data members of class `Mesh` that the sources here read. The buffer
objects made by `setupMesh` are not represented. `textures` and `VAO` are read
by `Mesh::Draw` only; a mesh written without them has no texture and the vertex
array object 0, which is also what `Model.processMesh` below returns, since
texture loading and `setupMesh` are not embedded. -/
structure Mesh (α : Type) where
  vertices : List (Vertex α)
  indices : List Nat
  material : Material α
  textures : List Texture := []
  VAO : Nat := 0

/-- An Assimp material: each property is present or absent. -/
structure aiMaterial (α : Type) where
  COLOR_AMBIENT : Option (Vec3 α)
  COLOR_DIFFUSE : Option (Vec3 α)
  COLOR_SPECULAR : Option (Vec3 α)
  SHININESS : Option α

/-- An Assimp mesh. `mNumVertices` is the length of `mVertices`; `mNormals` is
empty when the mesh has no normals, `mTextureCoords0` is `none` when the first
texture-coordinate channel is a null pointer. -/
structure aiMesh (α : Type) where
  mVertices : List (Vec3 α)
  mNormals : List (Vec3 α)
  mTextureCoords0 : Option (List (Vec3 α))
  mFaces : List (List Nat)
  mMaterialIndex : Nat

/-- The field `mNumVertices` of an Assimp mesh. -/
def aiMesh.mNumVertices (m : aiMesh α) : Nat :=
  m.mVertices.length

/-- An Assimp node: indices into the meshes of the scene, and child nodes. -/
inductive aiNode where
  | mk (mMeshes : List Nat) (mChildren : List aiNode)

/-- An Assimp scene that `Importer::ReadFile` returned complete. -/
structure aiScene (α : Type) where
  mRootNode : aiNode
  mMeshes : List (aiMesh α)
  mMaterials : List (aiMaterial α)

/-- The data members of class `Model` (model.h) that the sources here use. -/
structure Model (α : Type) where
  totalVertices : Nat
  modelCenter : Vec3 α
  meshes : List (Mesh α)
  minBounds : Vec3 α
  maxBounds : Vec3 α

/-- The function `glm::min` on `vec3`: component-wise. -/
def vmin [LinearOrder α] (a b : Vec3 α) : Vec3 α :=
  { x := min a.x b.x, y := min a.y b.y, z := min a.z b.z }

/-- The function `glm::max` on `vec3`: component-wise. -/
def vmax [LinearOrder α] (a b : Vec3 α) : Vec3 α :=
  { x := max a.x b.x, y := max a.y b.y, z := max a.z b.z }

/-- The member `aiMaterial::Get` for a colour key: on success the property
overwrites `color`, otherwise `color` keeps its value. -/
def aiMaterial.Get (prop : Option β) (color : β) : β :=
  match prop with
  | some c => c
  | none => color

/-- The texture coordinates of vertex `k` (model.cpp 93-100): those of the first
channel if the mesh has one, else (0, 0). -/
def Model.texCoords [Zero α] (mesh : aiMesh α) (k : Nat) : Option (Vec2 α) :=
  match mesh.mTextureCoords0 with
  | some tc => (tc[k]?).map fun t => { x := t.x, y := t.y }
  | none => some { x := 0, y := 0 }

/-- The vertex loop of `Model::processMesh` (model.cpp 75-103), iterations
`0 .. k-1`, on the state (minBounds, maxBounds, vertices). -/
def Model.processVertices [LinearOrder α] [Zero α] (mesh : aiMesh α) :
    Nat → Vec3 α × Vec3 α × List (Vertex α) → Option (Vec3 α × Vec3 α × List (Vertex α))
  | 0, s => some s
  | k + 1, s => do
    let (minB, maxB, vertices) ← Model.processVertices mesh k s
    let p ← mesh.mVertices[k]?
    let nrm ← mesh.mNormals[k]?
    let tex ← Model.texCoords mesh k
    some (vmin minB p, vmax maxB p,
      vertices ++ [{ Position := p, Normal := nrm, TexCoords := tex }])

/-- `Model::processMesh` (model.cpp 66-150) without the texture loading: it
adds `mNumVertices` to `totalVertices` in `unsigned int`, widens the bounds and
returns the new `Mesh`. -/
def Model.processMesh [LinearOrder α] [Zero α] (mesh : aiMesh α) (scene : aiScene α)
    (self : Model α) : Option (Mesh α × Model α) := do
  let totalVertices := (self.totalVertices + mesh.mNumVertices) % 2 ^ 32
  let (minB, maxB, vertices) ←
    Model.processVertices mesh mesh.mNumVertices (self.minBounds, self.maxBounds, [])
  let indices := mesh.mFaces.flatten
  let material ← scene.mMaterials[mesh.mMaterialIndex]?
  let color0 : Vec3 α := { x := 0, y := 0, z := 0 }
  let color1 := aiMaterial.Get material.COLOR_AMBIENT color0
  let color2 := aiMaterial.Get material.COLOR_DIFFUSE color1
  let color3 := aiMaterial.Get material.COLOR_SPECULAR color2
  let mat : Material α :=
    { ambient := color1, diffuse := color2, specular := color3,
      shininess := aiMaterial.Get material.SHININESS 0 }
  some ({ vertices := vertices, indices := indices, material := mat },
    { self with totalVertices := totalVertices, minBounds := minB, maxBounds := maxB })

/-- The first loop of `Model::processNode` (model.cpp 47-51): the meshes of one node. -/
def Model.processNodeMeshes [LinearOrder α] [Zero α] (scene : aiScene α) :
    List Nat → Model α → Option (Model α)
  | [], self => some self
  | idx :: rest, self => do
    let mesh ← scene.mMeshes[idx]?
    let (m, self1) ← Model.processMesh mesh scene self
    Model.processNodeMeshes scene rest { self1 with meshes := self1.meshes ++ [m] }

mutual
/-- `Model::processNode` (model.cpp 44-58). -/
def Model.processNode [LinearOrder α] [Zero α] (scene : aiScene α) :
    aiNode → Model α → Option (Model α)
  | .mk mMeshes mChildren, self => do
    let self1 ← Model.processNodeMeshes scene mMeshes self
    Model.processChildren scene mChildren self1
/-- The second loop of `Model::processNode` (model.cpp 54-57): the children. -/
def Model.processChildren [LinearOrder α] [Zero α] (scene : aiScene α) :
    List aiNode → Model α → Option (Model α)
  | [], self => some self
  | c :: cs, self => do
    let self1 ← Model.processNode scene c self
    Model.processChildren scene cs self1
end

/-- `Model::loadModel` (model.cpp 20-36); `scene` is `none` when the importer
failed, and then the function returns at once. -/
def Model.loadModel [LinearOrderedField α] (scene : Option (aiScene α)) (self : Model α) :
    Option (Model α) :=
  match scene with
  | none => some self
  | some sc => do
    let self1 ← Model.processNode sc sc.mRootNode self
    some { self1 with modelCenter :=
      { x := (self1.minBounds.x + self1.maxBounds.x) * (1 / 2),
        y := (self1.minBounds.y + self1.maxBounds.y) * (1 / 2),
        z := (self1.minBounds.z + self1.maxBounds.z) * (1 / 2) } }

/-- The constructor `Model::Model` (model.cpp 3-9). It sets the bounds and calls
`loadModel`; `meshes` starts empty. The members `totalVertices` and
`modelCenter` have no initialiser: `garbageTotal` and `garbageCenter` are the
indeterminate values they hold when the constructor starts. -/
def Model.Model [LinearOrderedField α] (FLT_MAX : α) (garbageTotal : Nat)
    (garbageCenter : Vec3 α) (scene : Option (aiScene α)) : Option (Model α) :=
  Model.loadModel scene
    { totalVertices := garbageTotal % 2 ^ 32
      modelCenter := garbageCenter
      meshes := []
      minBounds := { x := FLT_MAX, y := FLT_MAX, z := FLT_MAX }
      maxBounds := { x := -FLT_MAX, y := -FLT_MAX, z := -FLT_MAX } }

/-! ## OpenGL as a command trace -/

/-- The buffer binding targets that the particle system uses. -/
inductive Target where
  | SHADER_STORAGE_BUFFER
  | ARRAY_BUFFER
deriving DecidableEq

/-- The OpenGL calls made by `ParticleSystem` and `Shader`, with their
arguments. A uniform location `glGetUniformLocation(ID, name)` is recorded as
the pair of `ID` and `name`. `MapBufferRange` also records whether a pointer
(true) or `NULL` (false) came back. Arguments that are the same constant at
every call site are left out: the null data pointer and `GL_STATIC_DRAW` of
`glBufferData`; the count 1 and `GL_FALSE` of the uniform calls; the type
`GL_UNSIGNED_INT` and the null offset of `glDrawElements`; the target
`GL_TEXTURE_2D` of `glBindTexture`. -/
inductive GLCmd (α : Type) where
  | GenBuffers (name : Nat)
  | BindBuffer (target : Target) (buffer : Nat)
  | BufferData (target : Target) (size : Nat)
  | MapBufferRange (target : Target) (offset length access : Nat) (mapped : Bool)
  | UnmapBuffer (target : Target)
  | BindBufferBase (target : Target) (index buffer : Nat)
  | GenVertexArrays (name : Nat)
  | BindVertexArray (array : Nat)
  | VertexAttribPointer (index size type : Nat) (normalized : Bool) (stride pointer : Nat)
  | EnableVertexAttribArray (index : Nat)
  | UseProgram (program : Nat)
  | Uniform1f (program : Nat) (name : String) (v : α)
  | Uniform3fv (program : Nat) (name : String) (v : Vec3 α)
  | UniformMatrix4fv (program : Nat) (name : String) (m : Mat4 α)
  | DispatchCompute (x y z : Nat)
  | MemoryBarrier (barriers : Nat)
  | PointSize (size : α)
  | DrawArrays (mode : Nat) (first count : Int)
  | Enable (cap : Nat)
  | ClearColor (red green blue alpha : α)
  | Clear (mask : Nat)
  | Uniform1i (program : Nat) (name : String) (v : Int)
  | Uniform3f (program : Nat) (name : String) (x y z : α)
  | ActiveTexture (texture : Nat)
  | BindTexture (texture : Nat)
  | DrawElements (mode : Nat) (count : Int)

/-- The constant `GL_FLOAT`. -/
def GL_FLOAT : Nat := 0x1406

/-- The constant `GL_MAP_WRITE_BIT`. -/
def GL_MAP_WRITE_BIT : Nat := 0x0002

/-- The constant `GL_MAP_INVALIDATE_BUFFER_BIT`. -/
def GL_MAP_INVALIDATE_BUFFER_BIT : Nat := 0x0008

/-- The constant `GL_SHADER_STORAGE_BARRIER_BIT`. -/
def GL_SHADER_STORAGE_BARRIER_BIT : Nat := 0x2000

/-- The constant `GL_POINTS`. -/
def GL_POINTS : Nat := 0x0000

/-- The OpenGL context: the calls issued so far, and the next object name that
`glGenBuffers` or `glGenVertexArrays` hands out (a name never used before). -/
structure GLContext (α : Type) where
  trace : List (GLCmd α)
  nextName : Nat

/-- The class `Shader`: the program object. -/
structure Shader where
  ID : Nat

/-- The data stores of the five particle buffers. `glBufferData` with a null
data pointer leaves every cell undefined (`none`); a store through the mapped
pointer makes cell `i` defined. -/
structure Store (α : Type) where
  position : List (Option (Vec4 α))
  direction : List (Option (Vec4 α))
  speed : List (Option α)
  color : List (Option (Vec4 α))
  active : List (Option Int)

/-- The data members of class `ParticleSystem` (ParticleSystem.h). A mapped
pointer is `none` for `NULL` and otherwise the name of the buffer it maps. -/
structure ParticleSystem (α : Type) where
  maxParticles : Nat
  VAO : Nat
  pos_ssbo : Nat
  dir_ssbo : Nat
  speed_ssbo : Nat
  color_ssbo : Nat
  active_ssbo : Nat
  pos_array : Option Nat
  dir_array : Option Nat
  color_array : Option Nat
  speed_array : Option Nat
  active_array : Option Nat
  vfShader : Shader
  cShader : Shader
  model : Model α
  verticesTotal : List (Vec3 α)

/-- What `glMapBufferRange` returns for each of the five buffers: true for a
pointer, false for `NULL`. -/
structure MapOutcomes where
  pos : Bool
  dir : Bool
  speed : Bool
  color : Bool
  active : Bool

/-- The particle system object with everything it acts on. -/
structure World (α : Type) where
  self : ParticleSystem α
  gl : GLContext α
  rng : RandState
  store : Store α

/-- Issue one OpenGL call. -/
def World.emit (c : GLCmd α) (w : World α) : World α :=
  { w with gl := { w.gl with trace := w.gl.trace ++ [c] } }

/-- The call `glGenBuffers(1, &b)`: a fresh name. -/
def glGenBuffers (w : World α) : Nat × World α :=
  (w.gl.nextName,
    { w with gl := { trace := w.gl.trace ++ [.GenBuffers w.gl.nextName],
                     nextName := w.gl.nextName + 1 } })

/-- The call `glGenVertexArrays(1, &a)`: a fresh name. -/
def glGenVertexArrays (w : World α) : Nat × World α :=
  (w.gl.nextName,
    { w with gl := { trace := w.gl.trace ++ [.GenVertexArrays w.gl.nextName],
                     nextName := w.gl.nextName + 1 } })

/-- A counted loop `for (unsigned int i = 0; i < n; i++) body`: the iterations
`0 .. n-1` in order; a failing iteration ends the run. -/
def forRange (n : Nat) (body : Nat → σ → Option σ) (s : σ) : Option σ :=
  match n with
  | 0 => some s
  | k + 1 => (forRange k body s).bind (body k)

/-- Size in bytes of `count` elements of `elem` bytes, computed in `size_t`
(64 bits). -/
def byteSize (count elem : Nat) : Nat :=
  (count * elem) % 2 ^ 64

/-- The range-for loops of ParticleSystem.cpp 32-36: every vertex position of
every mesh is pushed onto `verticesTotal`. -/
def gatherVertices (meshes : List (Mesh α)) (verticesTotal : List (Vec3 α)) : List (Vec3 α) :=
  meshes.foldl
    (fun acc mesh => mesh.vertices.foldl (fun acc vertex => acc ++ [vertex.Position]) acc)
    verticesTotal

/-! ## ParticleSystem::init -/

/-- ParticleSystem.cpp 40-43: the body of the position loop; the read of
`verticesTotal[i]` fails outside the vector. -/
def ParticleSystem.seedPosition [One α] (i : Nat) (w : World α) : Option (World α) := do
  let v ← w.self.verticesTotal[i]?
  some { w with store := { w.store with
    position := w.store.position.set i (some { x := v.x, y := v.y, z := v.z, w := 1 }) } }

/-- ParticleSystem.cpp 23-46: the position buffer. -/
def ParticleSystem.initPositions [One α] (o : MapOutcomes) (w0 : World α) : Option (World α) := do
  let n := w0.self.maxParticles
  let bufMask := GL_MAP_WRITE_BIT ||| GL_MAP_INVALIDATE_BUFFER_BIT
  let (b, w1) := glGenBuffers w0
  let w2 : World α := { w1 with self := { w1.self with pos_ssbo := b } }
  let w3 := w2.emit (.BindBuffer .SHADER_STORAGE_BUFFER b)
  let w4 : World α :=
    { w3.emit (.BufferData .SHADER_STORAGE_BUFFER (byteSize n 16)) with
      store := { w3.store with position := List.replicate n none } }
  let w5 : World α :=
    { w4.emit (.MapBufferRange .SHADER_STORAGE_BUFFER 0 (byteSize n 16) bufMask o.pos) with
      self := { w4.self with pos_array := if o.pos then some b else none } }
  let w6 ←
    if w5.self.pos_array ≠ none then
      let w : World α :=
        { w5 with self := { w5.self with
            verticesTotal := gatherVertices w5.self.model.meshes w5.self.verticesTotal } }
      forRange n ParticleSystem.seedPosition w
    else some w5
  some (w6.emit (.UnmapBuffer .SHADER_STORAGE_BUFFER))

/-- ParticleSystem.cpp 58-63: the body of the direction loop. -/
def ParticleSystem.seedDirection [LinearOrderedField α] (P : Platform α) (i : Nat)
    (w : World α) : World α :=
  let (x, g1) := ParticleSystem.randomf P (-1) 1 w.rng
  let (y, g2) := ParticleSystem.randomf P (-1) 1 g1
  let (z, g3) := ParticleSystem.randomf P (-1) 0 g2
  let v : Vec4 α := { x := x, y := y, z := z, w := 0 }
  { w with rng := g3,
           store := { w.store with direction := w.store.direction.set i (some (normalize P v)) } }

/-- ParticleSystem.cpp 49-66: the direction buffer. -/
def ParticleSystem.initDirections [LinearOrderedField α] (P : Platform α) (o : MapOutcomes)
    (w0 : World α) : Option (World α) := do
  let n := w0.self.maxParticles
  let bufMask := GL_MAP_WRITE_BIT ||| GL_MAP_INVALIDATE_BUFFER_BIT
  let (b, w1) := glGenBuffers w0
  let w2 : World α := { w1 with self := { w1.self with dir_ssbo := b } }
  let w3 := w2.emit (.BindBuffer .SHADER_STORAGE_BUFFER b)
  let w4 : World α :=
    { w3.emit (.BufferData .SHADER_STORAGE_BUFFER (byteSize n 16)) with
      store := { w3.store with direction := List.replicate n none } }
  let w5 : World α :=
    { w4.emit (.MapBufferRange .SHADER_STORAGE_BUFFER 0 (byteSize n 16) bufMask o.dir) with
      self := { w4.self with dir_array := if o.dir then some b else none } }
  let w6 ←
    if w5.self.dir_array ≠ none then
      forRange n (fun i w => some (ParticleSystem.seedDirection P i w)) w5
    else some w5
  some (w6.emit (.UnmapBuffer .SHADER_STORAGE_BUFFER))

/-- ParticleSystem.cpp 77: the body of the speed loop. -/
def ParticleSystem.seedSpeed [LinearOrderedField α] (P : Platform α) (i : Nat)
    (w : World α) : World α :=
  let (v, g1) := ParticleSystem.randomf P (-5) (-1) w.rng
  { w with rng := g1, store := { w.store with speed := w.store.speed.set i (some v) } }

/-- ParticleSystem.cpp 69-79: the speed buffer. -/
def ParticleSystem.initSpeeds [LinearOrderedField α] (P : Platform α) (o : MapOutcomes)
    (w0 : World α) : Option (World α) := do
  let n := w0.self.maxParticles
  let bufMask := GL_MAP_WRITE_BIT ||| GL_MAP_INVALIDATE_BUFFER_BIT
  let (b, w1) := glGenBuffers w0
  let w2 : World α := { w1 with self := { w1.self with speed_ssbo := b } }
  let w3 := w2.emit (.BindBuffer .SHADER_STORAGE_BUFFER b)
  let w4 : World α :=
    { w3.emit (.BufferData .SHADER_STORAGE_BUFFER (byteSize n 4)) with
      store := { w3.store with speed := List.replicate n none } }
  let w5 : World α :=
    { w4.emit (.MapBufferRange .SHADER_STORAGE_BUFFER 0 (byteSize n 4) bufMask o.speed) with
      self := { w4.self with speed_array := if o.speed then some b else none } }
  let w6 ←
    if w5.self.speed_array ≠ none then
      forRange n (fun i w => some (ParticleSystem.seedSpeed P i w)) w5
    else some w5
  some (w6.emit (.UnmapBuffer .SHADER_STORAGE_BUFFER))

/-- ParticleSystem.cpp 91-94: the body of the colour loop; the read of
`model.meshes[0]` fails when the model has no mesh. -/
def ParticleSystem.seedColor [One α] (i : Nat) (w : World α) : Option (World α) := do
  let mesh0 ← w.self.model.meshes[0]?
  some { w with store := { w.store with
    color := w.store.color.set i
      (some { x := mesh0.material.diffuse.x, y := mesh0.material.diffuse.y,
              z := mesh0.material.diffuse.z, w := 1 }) } }

/-- ParticleSystem.cpp 82-97: the colour buffer. -/
def ParticleSystem.initColors [One α] (o : MapOutcomes) (w0 : World α) : Option (World α) := do
  let n := w0.self.maxParticles
  let bufMask := GL_MAP_WRITE_BIT ||| GL_MAP_INVALIDATE_BUFFER_BIT
  let (b, w1) := glGenBuffers w0
  let w2 : World α := { w1 with self := { w1.self with color_ssbo := b } }
  let w3 := w2.emit (.BindBuffer .SHADER_STORAGE_BUFFER b)
  let w4 : World α :=
    { w3.emit (.BufferData .SHADER_STORAGE_BUFFER (byteSize n 16)) with
      store := { w3.store with color := List.replicate n none } }
  let w5 : World α :=
    { w4.emit (.MapBufferRange .SHADER_STORAGE_BUFFER 0 (byteSize n 16) bufMask o.color) with
      self := { w4.self with color_array := if o.color then some b else none } }
  let w6 ←
    if w5.self.color_array ≠ none then
      forRange n ParticleSystem.seedColor w5
    else some w5
  some (w6.emit (.UnmapBuffer .SHADER_STORAGE_BUFFER))

/-- ParticleSystem.cpp 109: the body of the loop over the active flags. -/
def ParticleSystem.seedActive (i : Nat) (w : World α) : World α :=
  { w with store := { w.store with active := w.store.active.set i (some 0) } }

/-- ParticleSystem.cpp 100-111: the buffer of active flags. -/
def ParticleSystem.initActive (o : MapOutcomes) (w0 : World α) : Option (World α) := do
  let n := w0.self.maxParticles
  let bufMask := GL_MAP_WRITE_BIT ||| GL_MAP_INVALIDATE_BUFFER_BIT
  let (b, w1) := glGenBuffers w0
  let w2 : World α := { w1 with self := { w1.self with active_ssbo := b } }
  let w3 := w2.emit (.BindBuffer .SHADER_STORAGE_BUFFER b)
  let w4 : World α :=
    { w3.emit (.BufferData .SHADER_STORAGE_BUFFER (byteSize n 4)) with
      store := { w3.store with active := List.replicate n none } }
  let w5 : World α :=
    { w4.emit (.MapBufferRange .SHADER_STORAGE_BUFFER 0 (byteSize n 4) bufMask o.active) with
      self := { w4.self with active_array := if o.active then some b else none } }
  let w6 ←
    if w5.self.active_array ≠ none then
      forRange n (fun i w => some (ParticleSystem.seedActive i w)) w5
    else some w5
  some (w6.emit (.UnmapBuffer .SHADER_STORAGE_BUFFER))

/-- ParticleSystem.cpp 115-139: the binding points and the vertex array object. -/
def ParticleSystem.initBindings (w0 : World α) : World α :=
  let w1 := w0.emit (.BindBufferBase .SHADER_STORAGE_BUFFER 4 w0.self.pos_ssbo)
  let w2 := w1.emit (.BindBufferBase .SHADER_STORAGE_BUFFER 5 w0.self.dir_ssbo)
  let w3 := w2.emit (.BindBufferBase .SHADER_STORAGE_BUFFER 6 w0.self.color_ssbo)
  let w4 := w3.emit (.BindBufferBase .SHADER_STORAGE_BUFFER 7 w0.self.speed_ssbo)
  let w5 := w4.emit (.BindBufferBase .SHADER_STORAGE_BUFFER 8 w0.self.active_ssbo)
  let (a, w6) := glGenVertexArrays w5
  let w7 : World α := { w6 with self := { w6.self with VAO := a } }
  let w8 := w7.emit (.BindVertexArray a)
  let w9 := w8.emit (.BindBuffer .ARRAY_BUFFER w8.self.pos_ssbo)
  let w10 := w9.emit (.VertexAttribPointer 0 4 GL_FLOAT false 0 0)
  let w11 := w10.emit (.BindBuffer .ARRAY_BUFFER w10.self.color_ssbo)
  let w12 := w11.emit (.VertexAttribPointer 1 4 GL_FLOAT false 0 0)
  let w13 := w12.emit (.EnableVertexAttribArray 0)
  w13.emit (.EnableVertexAttribArray 1)

/-- `ParticleSystem::init` (ParticleSystem.cpp 17-140). -/
def ParticleSystem.init [LinearOrderedField α] (P : Platform α) (o : MapOutcomes)
    (w : World α) : Option (World α) := do
  let w1 ← ParticleSystem.initPositions o w
  let w2 ← ParticleSystem.initDirections P o w1
  let w3 ← ParticleSystem.initSpeeds P o w2
  let w4 ← ParticleSystem.initColors o w3
  let w5 ← ParticleSystem.initActive o w4
  some (ParticleSystem.initBindings w5)

/-- The constructor `ParticleSystem::ParticleSystem` (ParticleSystem.cpp 3-15):
null pointers, zero names, then `init()`. The members `active_ssbo` and
`active_array` get no value in the constructor; `init` assigns them before any
use. `gl` and `rng` are the OpenGL context and the generator at the call. -/
def ParticleSystem.ParticleSystem [LinearOrderedField α] (P : Platform α) (o : MapOutcomes)
    (vfShader cShader : Shader) (model : Model α) (maxParticles : Nat)
    (gl : GLContext α) (rng : RandState) : Option (World α) :=
  ParticleSystem.init P o
    { self :=
        { maxParticles := maxParticles, VAO := 0,
          pos_ssbo := 0, dir_ssbo := 0, speed_ssbo := 0, color_ssbo := 0, active_ssbo := 0,
          pos_array := none, dir_array := none, color_array := none, speed_array := none,
          active_array := none,
          vfShader := vfShader, cShader := cShader, model := model, verticesTotal := [] },
      gl := gl, rng := rng,
      store := { position := [], direction := [], speed := [], color := [], active := [] } }

/-! ## ParticleSystem::update and ParticleSystem::draw -/

/-- `ParticleSystem::update` (ParticleSystem.cpp 142-150). -/
def ParticleSystem.update (deltaTime : α) (w : World α) : World α :=
  let w1 := w.emit (.UseProgram w.self.cShader.ID)
  let w2 := w1.emit (.Uniform1f w.self.cShader.ID "deltaTime" deltaTime)
  let w3 := w2.emit (.Uniform3fv w.self.cShader.ID "modelCenter" w.self.model.modelCenter)
  let w4 := w3.emit (.DispatchCompute (dispatchGroups w.self.maxParticles) 1 1)
  w4.emit (.MemoryBarrier GL_SHADER_STORAGE_BARRIER_BIT)

/-- `ParticleSystem::draw` (ParticleSystem.cpp 152-160). -/
def ParticleSystem.draw (particle_size : α) (projection view : Mat4 α) (w : World α) : World α :=
  let w1 := w.emit (.UseProgram w.self.vfShader.ID)
  let w2 := w1.emit (.BindVertexArray w.self.VAO)
  let w3 := w2.emit (.UniformMatrix4fv w.self.vfShader.ID "proj" projection)
  let w4 := w3.emit (.UniformMatrix4fv w.self.vfShader.ID "view" view)
  let w5 := w4.emit (.PointSize particle_size)
  w5.emit (.DrawArrays GL_POINTS 0 (toGLsizei w.self.maxParticles))

/-! ## The source vertex pool, in the words of the specification -/

/-- The source vertex pool: the vertex positions of all meshes, concatenated in
mesh order and, within each mesh, in vertex order. -/
def sourcePool (model : Model α) : List (Vec3 α) :=
  model.meshes.flatMap fun mesh => mesh.vertices.map fun vertex => vertex.Position

/-! ## main: building the store (main.cpp 77-80) -/

/-- The lines of `main` that load the model and construct the particle system
with capacity `brickWallModel.totalVertices` (main.cpp 77-80). -/
def main.particleSystem [LinearOrderedField α] (P : Platform α) (o : MapOutcomes) (FLT_MAX : α)
    (garbageTotal : Nat) (garbageCenter : Vec3 α) (scene : Option (aiScene α))
    (particleShader cShader : Shader) (gl : GLContext α) (rng : RandState) :
    Option (Model α × World α) := do
  let brickWallModel ← Model.Model FLT_MAX garbageTotal garbageCenter scene
  let particleSystem ← ParticleSystem.ParticleSystem P o particleShader cShader brickWallModel
    brickWallModel.totalVertices gl rng
  some (brickWallModel, particleSystem)

/-! ## Closed forms used in the statements -/

/-- The cells `0 .. k-1` overwritten in order with the values `g 0 .. g (k-1)`. -/
def writeAll (g : Nat → Option β) : Nat → List (Option β) → List (Option β)
  | 0, cells => cells
  | k + 1, cells => (writeAll g k cells).set k (g k)

/-- The value `randomf(min, max)` returns when its call of `rand()` returns `r`. -/
def ParticleSystem.randomfValue [LinearOrderedField α] (P : Platform α) (min max : α)
    (r : Nat) : α :=
  (ParticleSystem.randomf P min max { outputs := fun _ => r, calls := 0 }).1

/-- The vector `v` of ParticleSystem.cpp 58-62, before normalisation, when the
three calls of `rand()` return `r1`, `r2`, `r3`. -/
def ParticleSystem.rawDirection [LinearOrderedField α] (P : Platform α) (r1 r2 r3 : Nat) :
    Vec4 α :=
  { x := ParticleSystem.randomfValue P (-1) 1 r1
    y := ParticleSystem.randomfValue P (-1) 1 r2
    z := ParticleSystem.randomfValue P (-1) 0 r3
    w := 0 }

/-- The number of `rand()` calls the direction loop makes. -/
def dirCalls (o : MapOutcomes) (n : Nat) : Nat :=
  if o.dir then 3 * n else 0

/-- The OpenGL context after one buffer has been generated, bound, sized,
mapped (with the given outcome) and unmapped: five calls and one new name. -/
def mapPhase (gl : GLContext α) (size : Nat) (mapped : Bool) : GLContext α :=
  { trace := gl.trace ++
      [ .GenBuffers gl.nextName,
        .BindBuffer .SHADER_STORAGE_BUFFER gl.nextName,
        .BufferData .SHADER_STORAGE_BUFFER size,
        .MapBufferRange .SHADER_STORAGE_BUFFER 0 size
          (GL_MAP_WRITE_BIT ||| GL_MAP_INVALIDATE_BUFFER_BIT) mapped,
        .UnmapBuffer .SHADER_STORAGE_BUFFER ]
    nextName := gl.nextName + 1 }

/-- The calls of ParticleSystem.cpp 115-139 when the five buffers have the
names `N .. N+4` and the vertex array object gets the name `N+5`. -/
def bindingTrace (N : Nat) : List (GLCmd α) :=
  [ .BindBufferBase .SHADER_STORAGE_BUFFER 4 N,
    .BindBufferBase .SHADER_STORAGE_BUFFER 5 (N + 1),
    .BindBufferBase .SHADER_STORAGE_BUFFER 6 (N + 3),
    .BindBufferBase .SHADER_STORAGE_BUFFER 7 (N + 2),
    .BindBufferBase .SHADER_STORAGE_BUFFER 8 (N + 4),
    .GenVertexArrays (N + 5),
    .BindVertexArray (N + 5),
    .BindBuffer .ARRAY_BUFFER N,
    .VertexAttribPointer 0 4 GL_FLOAT false 0 0,
    .BindBuffer .ARRAY_BUFFER (N + 3),
    .VertexAttribPointer 1 4 GL_FLOAT false 0 0,
    .EnableVertexAttribArray 0,
    .EnableVertexAttribArray 1 ]

/-- The OpenGL context after `init`: five buffer phases in the order position,
direction, speed, colour, active, then the binding calls. -/
def initContext (gl : GLContext α) (n : Nat) (o : MapOutcomes) : GLContext α :=
  let g5 := mapPhase (mapPhase (mapPhase (mapPhase (mapPhase gl
    (byteSize n 16) o.pos) (byteSize n 16) o.dir) (byteSize n 4) o.speed)
    (byteSize n 16) o.color) (byteSize n 4) o.active
  { trace := g5.trace ++ bindingTrace gl.nextName, nextName := g5.nextName + 1 }

/-- A mapping event of one buffer: a `glMapBufferRange` with its outcome, or a
`glUnmapBuffer`. -/
inductive MapEvent where
  | map (mapped : Bool)
  | unmap
deriving DecidableEq

/-- The map and unmap calls of a command sequence that act on buffer `b`: those
issued on `GL_SHADER_STORAGE_BUFFER` while `b` is the buffer bound to that
target. `bound` is the buffer bound when the sequence starts; `glBindBuffer`
and `glBindBufferBase` on the target change the binding. -/
def mapEvents (b : Nat) : Nat → List (GLCmd α) → List MapEvent
  | _, [] => []
  | _, .BindBuffer .SHADER_STORAGE_BUFFER b1 :: rest => mapEvents b b1 rest
  | _, .BindBufferBase .SHADER_STORAGE_BUFFER _ b1 :: rest => mapEvents b b1 rest
  | bound, .MapBufferRange .SHADER_STORAGE_BUFFER _ _ _ mapped :: rest =>
    (if bound = b then [MapEvent.map mapped] else []) ++ mapEvents b bound rest
  | bound, .UnmapBuffer .SHADER_STORAGE_BUFFER :: rest =>
    (if bound = b then [MapEvent.unmap] else []) ++ mapEvents b bound rest
  | bound, _ :: rest => mapEvents b bound rest

/-- The calls `init` issues on a context `gl` with capacity `n`: what
`initContext` appends to the trace. -/
def initCommands (gl : GLContext α) (n : Nat) (o : MapOutcomes) : List (GLCmd α) :=
  (initContext { trace := [], nextName := gl.nextName } n o).trace

/-! ## A small scene for the worked instances -/

/-- A mesh with the single vertex (1, 2, 3) and the grey diffuse colour (1/2, 1/2, 1/2). -/
def demoMeshA (α : Type) [LinearOrderedField α] : Mesh α :=
  { vertices := [{ Position := ⟨1, 2, 3⟩, Normal := ⟨0, 0, 1⟩, TexCoords := ⟨0, 0⟩ }]
    indices := []
    material := { ambient := ⟨0, 0, 0⟩, diffuse := ⟨1 / 2, 1 / 2, 1 / 2⟩,
                  specular := ⟨0, 0, 0⟩, shininess := 0 } }

/-- A mesh with the vertices (4, 5, 6) and (7, 8, 9) and the red diffuse colour (1, 0, 0). -/
def demoMeshB (α : Type) [LinearOrderedField α] : Mesh α :=
  { vertices := [{ Position := ⟨4, 5, 6⟩, Normal := ⟨0, 0, 1⟩, TexCoords := ⟨0, 0⟩ },
                 { Position := ⟨7, 8, 9⟩, Normal := ⟨0, 0, 1⟩, TexCoords := ⟨0, 0⟩ }]
    indices := []
    material := { ambient := ⟨0, 0, 0⟩, diffuse := ⟨1, 0, 0⟩,
                  specular := ⟨0, 0, 0⟩, shininess := 0 } }

/-- A model with the two meshes above: three vertices in all. -/
def demoModel (α : Type) [LinearOrderedField α] : Model α :=
  { totalVertices := 3
    modelCenter := ⟨4, 5, 6⟩
    meshes := [demoMeshA α, demoMeshB α]
    minBounds := ⟨1, 2, 3⟩
    maxBounds := ⟨7, 8, 9⟩ }

/-- Every mapping succeeds. -/
def allMapped : MapOutcomes :=
  { pos := true, dir := true, speed := true, color := true, active := true }

/-- An OpenGL context with no call issued yet. -/
def freshContext (α : Type) : GLContext α :=
  { trace := [], nextName := 1 }

/-- A generator whose every call of `rand()` returns `r`. -/
def constantRand (r : Nat) : RandState :=
  { outputs := fun _ => r, calls := 0 }

/-- No mapping succeeds. -/
def noneMapped : MapOutcomes :=
  { pos := false, dir := false, speed := false, color := false, active := false }

/-- A particle system of capacity `n` over the demo model, in the state the
constructor leaves when it starts from names 1 to 6 and no mapping succeeds;
the trace is emptied so that only later calls show. -/
def demoWorld (α : Type) [LinearOrderedField α] (n : Nat) : World α :=
  { self :=
      { maxParticles := n, VAO := 6,
        pos_ssbo := 1, dir_ssbo := 2, speed_ssbo := 3, color_ssbo := 4, active_ssbo := 5,
        pos_array := none, dir_array := none, color_array := none, speed_array := none,
        active_array := none,
        vfShader := ⟨1⟩, cShader := ⟨2⟩, model := demoModel α, verticesTotal := [] }
    gl := { trace := [], nextName := 7 }
    rng := constantRand 5
    store := { position := List.replicate n none, direction := List.replicate n none,
               speed := List.replicate n none, color := List.replicate n none,
               active := List.replicate n none } }

/-- Whether a call publishes a uniform. -/
def GLCmd.isUniform : GLCmd α → Bool
  | .Uniform1f _ _ _ => true
  | .Uniform3fv _ _ _ => true
  | .UniformMatrix4fv _ _ _ => true
  | _ => false

/-- Whether a call is a draw call. -/
def GLCmd.isDraw : GLCmd α → Bool
  | .DrawArrays _ _ _ => true
  | _ => false

/-- The calls one `update(deltaTime)` issues. -/
def updateCommands (deltaTime : α) (w : World α) : List (GLCmd α) :=
  [ .UseProgram w.self.cShader.ID,
    .Uniform1f w.self.cShader.ID "deltaTime" deltaTime,
    .Uniform3fv w.self.cShader.ID "modelCenter" w.self.model.modelCenter,
    .DispatchCompute (dispatchGroups w.self.maxParticles) 1 1,
    .MemoryBarrier GL_SHADER_STORAGE_BARRIER_BIT ]

/-- A platform over the real numbers with the given `RAND_MAX`. -/
def realPlatform (RAND_MAX : Nat) (sqrt : ℝ → ℝ) : Platform ℝ :=
  { RAND_MAX := RAND_MAX, sqrt := sqrt }

/-- An Assimp scene with one triangle: a root node with one mesh of three
vertices, one face, and a material that has only a diffuse colour. -/
def triangleScene (α : Type) [LinearOrderedField α] : aiScene α :=
  { mRootNode := .mk [0] []
    mMeshes :=
      [{ mVertices := [⟨0, 0, 0⟩, ⟨1, 0, 0⟩, ⟨0, 1, 0⟩]
         mNormals := [⟨0, 0, 1⟩, ⟨0, 0, 1⟩, ⟨0, 0, 1⟩]
         mTextureCoords0 := none
         mFaces := [[0, 1, 2]]
         mMaterialIndex := 0 }]
    mMaterials :=
      [{ COLOR_AMBIENT := none, COLOR_DIFFUSE := some ⟨1 / 2, 1 / 2, 1 / 2⟩,
         COLOR_SPECULAR := none, SHININESS := none }] }

/-- The largest finite `float`. -/
def FLT_MAX (α : Type) [LinearOrderedField α] : α :=
  340282346638528859811704183484516925440

/-- The relation between `totalVertices` and the source pool that
`processMesh` maintains when the member started at the value `g`: the member is
`g` plus the length of the pool, in `unsigned int`. -/
def totalTracksPool (g : Nat) (self : Model α) : Prop :=
  self.totalVertices = (g + (sourcePool self).length) % 2 ^ 32

/-- The size argument of a `glBufferData` call, and `none` for any other call. -/
def GLCmd.bufferDataSize : GLCmd α → Option Nat
  | .BufferData _ size => some size
  | _ => none

/-- The length argument of a `glMapBufferRange` call, and `none` for any other call. -/
def GLCmd.mapLength : GLCmd α → Option Nat
  | .MapBufferRange _ _ length _ _ => some length
  | _ => none

/-- The state of one generic vertex attribute of a vertex array object: whether
it is enabled, its component count and type, and the buffer it is sourced from. -/
structure VertexAttrib where
  enabled : Bool
  size : Nat
  type : Nat
  buffer : Nat
deriving DecidableEq

/-- The part of the OpenGL state that the binding calls act on: the buffer bound
to `GL_SHADER_STORAGE_BUFFER`, the buffers bound to its indexed binding points,
the buffer bound to `GL_ARRAY_BUFFER`, the bound vertex array object, and the
attributes of every vertex array object. -/
structure GLBindings where
  shaderStorage : Nat
  shaderStorageIndexed : Nat → Nat
  arrayBuffer : Nat
  vertexArray : Nat
  attrib : Nat → Nat → VertexAttrib

/-- The effect of one call on the bindings. `glBindBufferBase` binds both the
indexed point and the generic target; `glVertexAttribPointer` records, for the
bound vertex array object, the format and the buffer bound to
`GL_ARRAY_BUFFER` at the call. -/
def GLBindings.apply (g : GLBindings) : GLCmd α → GLBindings
  | .BindBuffer .SHADER_STORAGE_BUFFER b => { g with shaderStorage := b }
  | .BindBuffer .ARRAY_BUFFER b => { g with arrayBuffer := b }
  | .BindBufferBase .SHADER_STORAGE_BUFFER index b =>
    { g with shaderStorage := b
             shaderStorageIndexed := fun k => if k = index then b else g.shaderStorageIndexed k }
  | .BindVertexArray a => { g with vertexArray := a }
  | .VertexAttribPointer index size type _ _ _ =>
    { g with attrib := fun a k =>
        if a = g.vertexArray ∧ k = index then
          { enabled := (g.attrib a k).enabled, size := size, type := type,
            buffer := g.arrayBuffer }
        else g.attrib a k }
  | .EnableVertexAttribArray index =>
    { g with attrib := fun a k =>
        if a = g.vertexArray ∧ k = index then { g.attrib a k with enabled := true }
        else g.attrib a k }
  | _ => g

/-- The name a `glGenBuffers` call returned, and `none` for any other call. -/
def GLCmd.generatedBuffer : GLCmd α → Option Nat
  | .GenBuffers name => some name
  | _ => none

/-- The bindings of a context in which nothing is bound and every attribute is
in its initial state (disabled, 4 components, `GL_FLOAT`, no buffer). -/
def initialBindings : GLBindings :=
  { shaderStorage := 0
    shaderStorageIndexed := fun _ => 0
    arrayBuffer := 0
    vertexArray := 0
    attrib := fun _ _ => { enabled := false, size := 4, type := GL_FLOAT, buffer := 0 } }

/-! ## Shader, Mesh::Draw and Model::Draw (Shader.cpp, mesh.cpp, model.cpp) -/

/-- The constant `GL_DEPTH_TEST`. -/
def GL_DEPTH_TEST : Nat := 0x0B71

/-- The constant `GL_MULTISAMPLE`. -/
def GL_MULTISAMPLE : Nat := 0x809D

/-- The constant `GL_COLOR_BUFFER_BIT`. -/
def GL_COLOR_BUFFER_BIT : Nat := 0x4000

/-- The constant `GL_DEPTH_BUFFER_BIT`. -/
def GL_DEPTH_BUFFER_BIT : Nat := 0x0100

/-- The constant `GL_TEXTURE0`. -/
def GL_TEXTURE0 : Nat := 0x84C0

/-- The constant `GL_TRIANGLES`. -/
def GL_TRIANGLES : Nat := 0x0004

/-- `Shader::use` (Shader.cpp). -/
def Shader.use (sh : Shader) (w : World α) : World α :=
  w.emit (.UseProgram sh.ID)

/-- `Shader::setBool` (Shader.cpp): the value is passed as `(int)value`. -/
def Shader.setBool (sh : Shader) (name : String) (value : Bool) (w : World α) : World α :=
  w.emit (.Uniform1i sh.ID name (if value then 1 else 0))

/-- `Shader::setInt` (Shader.cpp). -/
def Shader.setInt (sh : Shader) (name : String) (value : Int) (w : World α) : World α :=
  w.emit (.Uniform1i sh.ID name value)

/-- `Shader::setFloat` (Shader.cpp). -/
def Shader.setFloat (sh : Shader) (name : String) (value : α) (w : World α) : World α :=
  w.emit (.Uniform1f sh.ID name value)

/-- `Shader::setMat4` (Shader.cpp). -/
def Shader.setMat4 (sh : Shader) (name : String) (value : Mat4 α) (w : World α) : World α :=
  w.emit (.UniformMatrix4fv sh.ID name value)

/-- `Shader::setVec3` with a vector argument (Shader.cpp). -/
def Shader.setVec3 (sh : Shader) (name : String) (value : Vec3 α) (w : World α) : World α :=
  w.emit (.Uniform3fv sh.ID name value)

/-- `Shader::setVec3` with three float arguments (Shader.cpp). -/
def Shader.setVec3f (sh : Shader) (name : String) (x y z : α) (w : World α) : World α :=
  w.emit (.Uniform3f sh.ID name x y z)

/-- The local variables of the texture loop of `Mesh::Draw`. -/
structure TextureLoop (α : Type) where
  diffuseNr : Nat
  specularNr : Nat
  hasDiffuse : Bool
  hasSpecular : Bool
  world : World α

/-- One iteration of the texture loop of `Mesh::Draw` (mesh.cpp 16-37), for the
texture at index `i`. -/
def Mesh.drawTexture [NatCast α] (shader : Shader) (i : Nat) (tex : Texture)
    (t : TextureLoop α) : TextureLoop α :=
  let w1 := t.world.emit (.ActiveTexture (GL_TEXTURE0 + i))
  let name := tex.type
  let t1 : TextureLoop α :=
    if name = "texture_diffuse" then
      { t with diffuseNr := t.diffuseNr + 1, hasDiffuse := true }
    else if name = "texture_specular" then
      { t with specularNr := t.specularNr + 1, hasSpecular := true }
    else t
  let number : String :=
    if name = "texture_diffuse" then toString t.diffuseNr
    else if name = "texture_specular" then toString t.specularNr
    else ""
  let w2 := shader.setFloat ("material." ++ name ++ number) (i : α) w1
  let w3 := w2.emit (.BindTexture tex.id)
  { t1 with world := w3 }

/-- The texture loop of `Mesh::Draw` over the textures from index `i` on. -/
def Mesh.drawTextures [NatCast α] (shader : Shader) :
    List Texture → Nat → TextureLoop α → TextureLoop α
  | [], _, t => t
  | tex :: rest, i, t => Mesh.drawTextures shader rest (i + 1) (Mesh.drawTexture shader i tex t)

/-- `Mesh::Draw` (mesh.cpp 9-52). -/
def Mesh.Draw [NatCast α] (shader : Shader) (mesh : Mesh α) (w : World α) : World α :=
  let t := Mesh.drawTextures shader mesh.textures 0
    { diffuseNr := 1, specularNr := 1, hasDiffuse := false, hasSpecular := false, world := w }
  let w1 := t.world.emit (.ActiveTexture GL_TEXTURE0)
  let w2 := shader.setVec3 "material.ambient" mesh.material.ambient w1
  let w3 := shader.setVec3 "material.diffuse" mesh.material.diffuse w2
  let w4 := shader.setVec3 "material.specular" mesh.material.specular w3
  let w5 := shader.setFloat "material.shininess" mesh.material.shininess w4
  let w6 := shader.setBool "hasDiffuseTex" t.hasDiffuse w5
  let w7 := shader.setBool "hasSpecularTex" t.hasSpecular w6
  let w8 := w7.emit (.BindVertexArray mesh.VAO)
  let w9 := w8.emit (.DrawElements GL_TRIANGLES (toGLsizei mesh.indices.length))
  w9.emit (.BindVertexArray 0)

/-- `Model::Draw` (model.cpp 11-18): every mesh in order, then the uniform
"modelCenter". -/
def Model.Draw [NatCast α] (shader : Shader) (model : MeshDestruction.Model α)
    (w : World α) : World α :=
  shader.setVec3 "modelCenter" model.modelCenter
    (model.meshes.foldl (fun w mesh => Mesh.Draw shader mesh w) w)

/-! ## glm matrices used by main -/

/-- The constructor `glm::mat4(1.0f)`: the identity, as four columns. -/
def mat4Identity [Zero α] [One α] : Mat4 α := fun j =>
  if j = 0 then ⟨1, 0, 0, 0⟩
  else if j = 1 then ⟨0, 1, 0, 0⟩
  else if j = 2 then ⟨0, 0, 1, 0⟩
  else ⟨0, 0, 0, 1⟩

/-- A column times a scalar. -/
def Vec4.scale [Mul α] (v : Vec4 α) (k : α) : Vec4 α :=
  { x := v.x * k, y := v.y * k, z := v.z * k, w := v.w * k }

/-- The sum of two columns. -/
def Vec4.add [Add α] (a b : Vec4 α) : Vec4 α :=
  { x := a.x + b.x, y := a.y + b.y, z := a.z + b.z, w := a.w + b.w }

/-- The function `glm::translate(m, v)`: the last column becomes
`m[0] * v.x + m[1] * v.y + m[2] * v.z + m[3]`. -/
def translate [Add α] [Mul α] (m : Mat4 α) (v : Vec3 α) : Mat4 α := fun j =>
  if j = 3 then
    (((m 0).scale v.x).add ((m 1).scale v.y)).add (((m 2).scale v.z).add (m 3))
  else m j

/-- The function `glm::scale(m, v)`: the first three columns are scaled. -/
def scale [Mul α] (m : Mat4 α) (v : Vec3 α) : Mat4 α := fun j =>
  if j = 0 then (m 0).scale v.x
  else if j = 1 then (m 1).scale v.y
  else if j = 2 then (m 2).scale v.z
  else m 3

/-! ## main (main.cpp) -/

/-- The call `std::srand(seed)`: the sequence of the library for that seed
(an `unsigned int`), from its start. `randSequence` is the generator of the C
library, which the sources do not define. -/
def srand (randSequence : Nat → Nat → Nat) (seed : Nat) : RandState :=
  { outputs := randSequence (seed % 2 ^ 32), calls := 0 }

/-- The state of the generator when the program starts: the C standard makes
`rand()` before any `srand` behave as after `srand(1)`. -/
def defaultRand (randSequence : Nat → Nat → Nat) : RandState :=
  srand randSequence 1

/-- The lines of `main` from the model to the seeding of the generator
(main.cpp 77-87): load the model, construct the particle system, enable depth
testing and multisampling, then `std::srand(std::time(nullptr))`. `time` is the
value of `std::time(nullptr)`. -/
def main.startup [LinearOrderedField α] (P : Platform α) (o : MapOutcomes) (FLT_MAX : α)
    (garbageTotal : Nat) (garbageCenter : Vec3 α) (scene : Option (aiScene α))
    (particleShader cShader : Shader) (gl : GLContext α)
    (randSequence : Nat → Nat → Nat) (time : Nat) : Option (Model α × World α) := do
  let (brickWallModel, particleSystem) ←
    main.particleSystem P o FLT_MAX garbageTotal garbageCenter scene particleShader cShader gl
      (defaultRand randSequence)
  let w1 := particleSystem.emit (.Enable GL_DEPTH_TEST)
  let w2 := w1.emit (.Enable GL_MULTISAMPLE)
  some (brickWallModel, { w2 with rng := srand randSequence time })

/-- The input tracker: the globals of main.cpp 55-57. -/
structure InputTracker where
  buttonPressCounter : Int
  wasPressed : Bool
  inputThresholdReached : Bool
deriving DecidableEq

/-- The state of the render loop: the input tracker and the objects the loop
uses. `particleSystem` holds the particle system together with the OpenGL
context; the model `brickWallModel` is the one the particle system refers to,
`particleSystem.self.model`. -/
structure MainState (α : Type) where
  input : InputTracker
  vgfShader : Shader
  particleSystem : World α

/-- What one iteration of the render loop takes from outside: the elapsed time,
whether the left mouse button is down when `processInput` samples it, and the
camera position and the two matrices as they are after `processInput`. -/
structure FrameInput (α : Type) where
  deltaTime : α
  leftButtonPressed : Bool
  cameraPos : Vec3 α
  projection : Mat4 α
  view : Mat4 α

/-- The input tracker when the program starts (main.cpp 55-57). -/
def InputTracker.initial : InputTracker :=
  { buttonPressCounter := 0, wasPressed := false, inputThresholdReached := false }

/-- The state when the render loop starts. -/
def main.initial (vgfShader : Shader) (particleSystem : World α) : MainState α :=
  { input := InputTracker.initial, vgfShader := vgfShader, particleSystem := particleSystem }

/-- The check of main.cpp 101. -/
def main.thresholdCheck (t : InputTracker) : InputTracker :=
  if t.buttonPressCounter > 4 then { t with inputThresholdReached := true } else t

/-- The left-mouse-button part of `processInput` (main.cpp 246-250); the keys
and the camera are not represented. -/
def processInput (isPressed : Bool) (t : InputTracker) : InputTracker :=
  let counter :=
    if !isPressed && t.wasPressed && !t.inputThresholdReached then t.buttonPressCounter + 1
    else t.buttonPressCounter
  { t with buttonPressCounter := counter, wasPressed := isPressed }

/-- The input part of one iteration: the threshold check, then `processInput`
(main.cpp 101-104). -/
def main.inputStep (isPressed : Bool) (t : InputTracker) : InputTracker :=
  processInput isPressed (main.thresholdCheck t)

/-- The input tracker after the iterations with the given button samples. -/
def main.inputLoop (samples : List Bool) (t : InputTracker) : InputTracker :=
  samples.foldl (fun t isPressed => main.inputStep isPressed t) t

/-- The branch of main.cpp 117-136: the vertex, geometry and fragment shaders
draw the model. -/
def main.meshPath [LinearOrderedField α] (inp : FrameInput α) (s : MainState α)
    (w : World α) : World α :=
  let w1 := s.vgfShader.use w
  let w2 := s.vgfShader.setInt "implosionCounter" s.input.buttonPressCounter w1
  let w3 := s.vgfShader.setVec3 "cameraPos" inp.cameraPos w2
  let w4 := s.vgfShader.setVec3f "dirLight.direction" (-(1 / 10)) (-(2 / 10)) (-(9 / 10)) w3
  let w5 := s.vgfShader.setVec3f "dirLight.ambient" (33 / 100) (33 / 100) (33 / 100) w4
  let w6 := s.vgfShader.setVec3f "dirLight.diffuse" 1 1 1 w5
  let w7 := s.vgfShader.setVec3f "dirLight.specular" 1 (6 / 10) (3 / 10) w6
  let model : Mat4 α := scale (translate mat4Identity ⟨0, 0, 0⟩) ⟨1, 1, 1⟩
  let w8 := s.vgfShader.setMat4 "model" model w7
  Model.Draw s.vgfShader w8.self.model w8

/-- The branch of main.cpp 139-143: one `update`, then one `draw`. -/
def main.particlePath [LinearOrderedField α] (inp : FrameInput α) (w : World α) : World α :=
  ParticleSystem.draw 2 inp.projection inp.view (ParticleSystem.update inp.deltaTime w)

/-- The calls of main.cpp 107-114 that precede the branch: clear, then the two
matrices of the mesh shader. -/
def main.clearAndCamera [LinearOrderedField α] (inp : FrameInput α) (s : MainState α) :
    World α :=
  let w1 := s.particleSystem.emit (.ClearColor (5 / 100) (5 / 100) (5 / 100) 1)
  let w2 := w1.emit (.Clear (GL_COLOR_BUFFER_BIT ||| GL_DEPTH_BUFFER_BIT))
  let w3 := s.vgfShader.setMat4 "projection" inp.projection w2
  s.vgfShader.setMat4 "view" inp.view w3

/-- The rendering part of one iteration (main.cpp 107-143). -/
def main.render [LinearOrderedField α] (inp : FrameInput α) (s : MainState α) : MainState α :=
  if !s.input.inputThresholdReached then
    { s with particleSystem := main.meshPath inp s (main.clearAndCamera inp s) }
  else
    { s with particleSystem := main.particlePath inp (main.clearAndCamera inp s) }

/-- One iteration of the render loop (main.cpp 92-147): the threshold check,
`processInput`, then the rendering. The frame-rate bookkeeping and the calls of
GLFW are not represented. -/
def main.frame [LinearOrderedField α] (inp : FrameInput α) (s : MainState α) : MainState α :=
  main.render inp { s with input := main.inputStep inp.leftButtonPressed s.input }

/-- The render loop over the iterations that take place before the window
closes. -/
def main.loop [LinearOrderedField α] (inputs : List (FrameInput α)) (s : MainState α) :
    MainState α :=
  inputs.foldl (fun s inp => main.frame inp s) s

/-- A frame input with the given button sample and time step, the camera at the
origin and zero matrices. -/
def demoFrame (α : Type) [LinearOrderedField α] (pressed : Bool) : FrameInput α :=
  { deltaTime := 1 / 60, leftButtonPressed := pressed, cameraPos := ⟨0, 0, 3⟩,
    projection := fun _ => ⟨0, 0, 0, 0⟩, view := fun _ => ⟨0, 0, 0, 0⟩ }

/-- The frames of `k` clicks: for each click, one frame with the button down
and one with the button up. -/
def demoClicks (α : Type) [LinearOrderedField α] (k : Nat) : List (FrameInput α) :=
  (List.replicate k [demoFrame α true, demoFrame α false]).flatten

/-- The calls one `draw(particle_size, projection, view)` issues. -/
def drawCommands (particle_size : α) (projection view : Mat4 α) (w : World α) :
    List (GLCmd α) :=
  [ .UseProgram w.self.vfShader.ID,
    .BindVertexArray w.self.VAO,
    .UniformMatrix4fv w.self.vfShader.ID "proj" projection,
    .UniformMatrix4fv w.self.vfShader.ID "view" view,
    .PointSize particle_size,
    .DrawArrays GL_POINTS 0 (toGLsizei w.self.maxParticles) ]

/-- The calls that precede the branch in every frame (main.cpp 107-114). -/
def clearCommands [LinearOrderedField α] (inp : FrameInput α) (vgfShader : Shader) :
    List (GLCmd α) :=
  [ .ClearColor (5 / 100) (5 / 100) (5 / 100) 1,
    .Clear (GL_COLOR_BUFFER_BIT ||| GL_DEPTH_BUFFER_BIT),
    .UniformMatrix4fv vgfShader.ID "projection" inp.projection,
    .UniformMatrix4fv vgfShader.ID "view" inp.view ]

/-- A stand-in for the generator of the C library: output `k` for seed `seed` is
`(seed * 1103515245 + k * 12345) % 32768`. -/
def demoRandSequence (seed k : Nat) : Nat :=
  (seed * 1103515245 + k * 12345) % 32768

/-- The scan for the storage hazard of a command sequence. `pending` says
whether a compute dispatch has been issued with no shader-storage barrier after
it. A dispatch sets it, a `glMemoryBarrier` whose bits include
`GL_SHADER_STORAGE_BARRIER_BIT` clears it, and a `glDrawArrays` issued while it
is set is a violation (`none`). Otherwise the result is the final `pending`. -/
def storageScan : Bool → List (GLCmd α) → Option Bool
  | pending, [] => some pending
  | _, .DispatchCompute _ _ _ :: rest => storageScan true rest
  | pending, .MemoryBarrier bits :: rest =>
    storageScan (if bits &&& GL_SHADER_STORAGE_BARRIER_BIT ≠ 0 then false else pending) rest
  | pending, .DrawArrays _ _ _ :: rest => if pending then none else storageScan pending rest
  | pending, _ :: rest => storageScan pending rest

/-- Whether a call is a compute dispatch. -/
def GLCmd.isDispatch : GLCmd α → Bool
  | .DispatchCompute _ _ _ => true
  | _ => false

/-- Whether a call is a memory barrier. -/
def GLCmd.isBarrier : GLCmd α → Bool
  | .MemoryBarrier _ => true
  | _ => false

/-- Whether a call is an indexed draw (the draw of `Mesh::Draw`). -/
def GLCmd.isDrawElements : GLCmd α → Bool
  | .DrawElements _ _ => true
  | _ => false

/-- Whether a call takes no part in the storage hazard: it is neither a
dispatch, nor a memory barrier, nor a `glDrawArrays`. -/
def GLCmd.isNeutral (c : GLCmd α) : Bool :=
  !c.isDispatch && !c.isBarrier && !c.isDraw

/-! ## The direction loop in `float` arithmetic

The source computes `randomf` and `glm::normalize` in the type `float` (IEEE
binary32): the conversions `(float)rand()` and `(float)RAND_MAX` and every
operation round the exact result to the nearest number with a significand of
24 bits, a tie going to the even significand.  Here a `float` is the rational
number it denotes and `binary32` is that rounding.  The exponent range is not
bounded in `binary32` (no overflow and no underflow); for a `RAND_MAX` that
fits an `int` the numbers that the loop modelled below computes are 0 or lie
between `2 ^ (-50)` and `2 ^ 32` in magnitude, far inside the range of the
format.  A division by zero gives an infinity and `0 * infinity` gives a NaN;
a result with such a component is `none`.

The definitions of the sections above compute `randomf` and `normalize` without
rounding; the ones below round as the compiled code does. -/

/-- Rounding of a rational to the nearest integer, a tie going to the even
neighbour. -/
def roundHalfEven (q : ℚ) : ℤ :=
  if q - (⌊q⌋ : ℚ) < 1 / 2 then ⌊q⌋
  else if 1 / 2 < q - (⌊q⌋ : ℚ) then ⌊q⌋ + 1
  else if ⌊q⌋ % 2 = 0 then ⌊q⌋ else ⌊q⌋ + 1

/-- Rounding of a non-negative rational `x` to a significand of 24 bits: with
`2 ^ e ≤ x < 2 ^ (e + 1)`, the nearest multiple of `2 ^ (e - 23)`. -/
def binary32Pos (x : ℚ) : ℚ :=
  (roundHalfEven (x / 2 ^ (Int.log 2 x - 23)) : ℚ) * 2 ^ (Int.log 2 x - 23)

/-- The `float` nearest to the rational `x` (round to nearest, ties to even). -/
def binary32 (x : ℚ) : ℚ :=
  if 0 ≤ x then binary32Pos x else -binary32Pos (-x)

/-- `ParticleSystem::randomf(min, max)` (ParticleSystem.cpp 162-168) in `float`
arithmetic: `(float)rand()`, `(float)RAND_MAX`, the quotient, the difference,
the product and the sum are each rounded.  `min` and `max` are floats, and
`RAND_MAX` is positive, as in every C library. -/
def ParticleSystem.randomf32 (RAND_MAX : Nat) (min max : ℚ) (g : RandState) : ℚ × RandState :=
  if max < min then (0, g)
  else
    let (r, g1) := rand g
    let n : ℚ := binary32 (binary32 (r : ℚ) / binary32 (RAND_MAX : ℚ))
    let range : ℚ := binary32 (max - min)
    (binary32 (binary32 (n * range) + min), g1)

/-- The function `glm::dot` on `vec4` in `float` arithmetic: the four products,
then `(x + y) + (z + w)`. -/
def dot32 (a b : Vec4 ℚ) : ℚ :=
  binary32 (binary32 (binary32 (a.x * b.x) + binary32 (a.y * b.y))
    + binary32 (binary32 (a.z * b.z) + binary32 (a.w * b.w)))

/-- The function `glm::inversesqrt` in `float` arithmetic: `1 / sqrt x`, with
the square root of the C++ library as a parameter.  Where `sqrt x` is 0 the
quotient is infinite: `none`. -/
def inversesqrt32 (sqrt : ℚ → ℚ) (x : ℚ) : Option ℚ :=
  if sqrt x = 0 then none else some (binary32 (1 / sqrt x))

/-- The function `glm::normalize` on `vec4` in `float` arithmetic:
`v * inversesqrt(dot(v, v))`.  When `inversesqrt` is infinite every component of
the product is infinite or NaN: `none`. -/
def normalize32 (sqrt : ℚ → ℚ) (v : Vec4 ℚ) : Option (Vec4 ℚ) :=
  (inversesqrt32 sqrt (dot32 v v)).map fun s =>
    { x := binary32 (v.x * s), y := binary32 (v.y * s), z := binary32 (v.z * s),
      w := binary32 (v.w * s) }

/-- ParticleSystem.cpp 58-62: the vector `v` that one iteration of the direction
loop builds from three calls of `randomf`, and the generator after them. -/
def ParticleSystem.directionSample32 (RAND_MAX : Nat) (g : RandState) : Vec4 ℚ × RandState :=
  let (x, g1) := ParticleSystem.randomf32 RAND_MAX (-1) 1 g
  let (y, g2) := ParticleSystem.randomf32 RAND_MAX (-1) 1 g1
  let (z, g3) := ParticleSystem.randomf32 RAND_MAX (-1) 0 g2
  ({ x := x, y := y, z := z, w := 0 }, g3)

/-- ParticleSystem.cpp 56-64: the direction loop over a mapped buffer of
`maxParticles` cells, started with the generator in state `g`.  Entry `i` of
the result is what iteration `i` stores in `dir_array[i]`: `normalize(v)`. -/
def ParticleSystem.directionLoop32 (RAND_MAX : Nat) (sqrt : ℚ → ℚ) :
    Nat → RandState → List (Option (Vec4 ℚ))
  | 0, _ => []
  | maxParticles + 1, g =>
    normalize32 sqrt (ParticleSystem.directionSample32 RAND_MAX g).1
      :: ParticleSystem.directionLoop32 RAND_MAX sqrt maxParticles
          (ParticleSystem.directionSample32 RAND_MAX g).2

/-- A square root for the worked instances:
`floor (sqrt (x.num * x.den * 4 ^ 64)) / (x.den * 2 ^ 64)`, a lower
approximation of the root of `x`, rounded to `float`.  It is 0 at 0 and
positive at every positive argument. -/
def sqrt32 (x : ℚ) : ℚ :=
  binary32 ((Nat.sqrt (x.num.toNat * x.den * 4 ^ 64) : ℚ) / ((x.den : ℚ) * 2 ^ 64))

/-- A generator that returns `2 ^ 30`, `2 ^ 30`, `2 ^ 31 - 1` over and over. -/
def glibcZeroDirection : RandState :=
  { outputs := fun k => if k % 3 = 2 then 2147483647 else 1073741824, calls := 0 }

/-- A generator that returns `2 ^ 23`, `2 ^ 23`, `2 ^ 24 + 1` over and over. -/
def tieZeroDirection : RandState :=
  { outputs := fun k => if k % 3 = 2 then 16777217 else 8388608, calls := 0 }

/-! ## Theorems -/

theorem writeAll_length (g : Nat → Option β) (k : Nat) (cells : List (Option β)) :
    (writeAll g k cells).length = cells.length := by
  induction k with
  | zero => rfl
  | succ k ih => simp [writeAll, ih]

theorem writeAll_getElem? (g : Nat → Option β) (k : Nat) (cells : List (Option β)) (i : Nat) :
    (writeAll g k cells)[i]? =
      if i < k ∧ i < cells.length then some (g i) else cells[i]? := by
  induction k with
  | zero => simp [writeAll]
  | succ k ih =>
    simp only [writeAll, List.getElem?_set, writeAll_length, ih]
    by_cases hik : k = i
    · subst hik
      by_cases hl : k < cells.length
      · simp [hl]
      · have hge : cells.length ≤ k := by omega
        simp [hl, hge]
    · have : (i < k + 1) ↔ (i < k) := by omega
      simp [hik, this]

theorem writeAll_replicate_getElem? (g : Nat → Option β) (n i : Nat) (hi : i < n) :
    (writeAll g n (List.replicate n none))[i]? = some (g i) := by
  simp [writeAll_getElem?, hi]

theorem gatherVertices_eq (meshes : List (Mesh α)) (acc : List (Vec3 α)) :
    gatherVertices meshes acc
      = acc ++ meshes.flatMap fun mesh => mesh.vertices.map fun vertex => vertex.Position := by
  have inner : ∀ (vs : List (Vertex α)) (acc : List (Vec3 α)),
      vs.foldl (fun acc vertex => acc ++ [vertex.Position]) acc
        = acc ++ vs.map fun vertex => vertex.Position := by
    intro vs
    induction vs with
    | nil => intro acc; simp
    | cons v vs ih => intro acc; simp [List.foldl_cons, ih]
  unfold gatherVertices
  induction meshes generalizing acc with
  | nil => simp
  | cons m ms ih =>
    rw [List.foldl_cons, ih, inner]
    simp [List.flatMap_cons]

theorem forRange_positions [One α] (w : World α) (k : Nat) (hk : k ≤ w.self.verticesTotal.length) :
    forRange k ParticleSystem.seedPosition w
      = some { w with store := { w.store with
          position := writeAll
            (fun i => (w.self.verticesTotal[i]?).map fun v => { x := v.x, y := v.y, z := v.z, w := 1 })
            k w.store.position } } := by
  induction k with
  | zero => rfl
  | succ k ih =>
    have hlt : k < w.self.verticesTotal.length := by omega
    rw [forRange, ih (by omega)]
    simp [ParticleSystem.seedPosition, writeAll, List.getElem?_eq_getElem hlt]

theorem randomf_of_not_lt [LinearOrderedField α] (P : Platform α) (min max : α)
    (h : ¬ max < min) (g : RandState) :
    ParticleSystem.randomf P min max g
      = ((g.outputs g.calls : α) / (P.RAND_MAX : α) * (max - min) + min,
          { outputs := g.outputs, calls := g.calls + 1 }) := by
  simp [ParticleSystem.randomf, rand, h]

theorem randomfValue_of_not_lt [LinearOrderedField α] (P : Platform α) (min max : α)
    (h : ¬ max < min) (r : Nat) :
    ParticleSystem.randomfValue P min max r = (r : α) / (P.RAND_MAX : α) * (max - min) + min := by
  simp [ParticleSystem.randomfValue, randomf_of_not_lt P min max h]

theorem seedDirection_eq [LinearOrderedField α] (P : Platform α) (i : Nat) (w : World α) :
    ParticleSystem.seedDirection P i w
      = { w with
          rng := { outputs := w.rng.outputs, calls := w.rng.calls + 3 },
          store := { w.store with
            direction := w.store.direction.set i
              (some (normalize P (ParticleSystem.rawDirection P (w.rng.outputs w.rng.calls)
                (w.rng.outputs (w.rng.calls + 1)) (w.rng.outputs (w.rng.calls + 2))))) } } := by
  have h1 : ¬ ((1 : α) < -1) := by norm_num
  have h0 : ¬ ((0 : α) < -1) := by norm_num
  simp [ParticleSystem.seedDirection, ParticleSystem.rawDirection, randomf_of_not_lt P _ _ h1,
    randomf_of_not_lt P _ _ h0, randomfValue_of_not_lt P _ _ h1, randomfValue_of_not_lt P _ _ h0]

theorem forRange_directions [LinearOrderedField α] (P : Platform α) (w : World α) (k : Nat) :
    forRange k (fun i w => some (ParticleSystem.seedDirection P i w)) w
      = some { w with
          rng := { outputs := w.rng.outputs, calls := w.rng.calls + 3 * k },
          store := { w.store with
            direction := writeAll
              (fun i => some (normalize P (ParticleSystem.rawDirection P
                (w.rng.outputs (w.rng.calls + 3 * i)) (w.rng.outputs (w.rng.calls + 3 * i + 1))
                (w.rng.outputs (w.rng.calls + 3 * i + 2)))))
              k w.store.direction } } := by
  induction k with
  | zero => rfl
  | succ k ih =>
    rw [forRange, ih]
    simp [seedDirection_eq, writeAll, Nat.mul_succ, Nat.add_assoc]

theorem seedSpeed_eq [LinearOrderedField α] (P : Platform α) (i : Nat) (w : World α) :
    ParticleSystem.seedSpeed P i w
      = { w with
          rng := { outputs := w.rng.outputs, calls := w.rng.calls + 1 },
          store := { w.store with
            speed := w.store.speed.set i
              (some (ParticleSystem.randomfValue P (-5) (-1) (w.rng.outputs w.rng.calls))) } } := by
  have h : ¬ ((-1 : α) < -5) := by norm_num
  simp [ParticleSystem.seedSpeed, randomf_of_not_lt P _ _ h, randomfValue_of_not_lt P _ _ h]

theorem forRange_speeds [LinearOrderedField α] (P : Platform α) (w : World α) (k : Nat) :
    forRange k (fun i w => some (ParticleSystem.seedSpeed P i w)) w
      = some { w with
          rng := { outputs := w.rng.outputs, calls := w.rng.calls + k },
          store := { w.store with
            speed := writeAll
              (fun i => some (ParticleSystem.randomfValue P (-5) (-1)
                (w.rng.outputs (w.rng.calls + i))))
              k w.store.speed } } := by
  induction k with
  | zero => rfl
  | succ k ih =>
    rw [forRange, ih]
    simp [seedSpeed_eq, writeAll, Nat.add_assoc]

theorem forRange_colors [One α] (w : World α) (k : Nat)
    (h0 : 0 < k → w.self.model.meshes ≠ []) :
    forRange k ParticleSystem.seedColor w
      = some { w with store := { w.store with
          color := writeAll
            (fun _ => (w.self.model.meshes[0]?).map fun mesh0 =>
              { x := mesh0.material.diffuse.x, y := mesh0.material.diffuse.y,
                z := mesh0.material.diffuse.z, w := 1 })
            k w.store.color } } := by
  induction k with
  | zero => rfl
  | succ k ih =>
    have hne : w.self.model.meshes ≠ [] := h0 (Nat.succ_pos k)
    obtain ⟨m, ms, hm⟩ := List.exists_cons_of_ne_nil hne
    rw [forRange, ih (fun _ => hne)]
    simp [ParticleSystem.seedColor, writeAll, hm]

theorem forRange_active (w : World α) (k : Nat) :
    forRange k (fun i w => some (ParticleSystem.seedActive i w)) w
      = some { w with store := { w.store with
          active := writeAll (fun _ => some 0) k w.store.active } } := by
  induction k with
  | zero => rfl
  | succ k ih =>
    rw [forRange, ih]
    simp [ParticleSystem.seedActive, writeAll]

theorem initPositions_eq [One α] (o : MapOutcomes) (w0 : World α)
    (h : o.pos = true → w0.self.maxParticles
      ≤ (gatherVertices w0.self.model.meshes w0.self.verticesTotal).length) :
    ParticleSystem.initPositions o w0 = some
      { self := { w0.self with
          pos_ssbo := w0.gl.nextName
          pos_array := if o.pos then some w0.gl.nextName else none
          verticesTotal :=
            if o.pos then gatherVertices w0.self.model.meshes w0.self.verticesTotal
            else w0.self.verticesTotal }
        gl := mapPhase w0.gl (byteSize w0.self.maxParticles 16) o.pos
        rng := w0.rng
        store := { w0.store with
          position :=
            if o.pos then
              writeAll (fun i =>
                  ((gatherVertices w0.self.model.meshes w0.self.verticesTotal)[i]?).map
                    fun v => { x := v.x, y := v.y, z := v.z, w := 1 })
                w0.self.maxParticles (List.replicate w0.self.maxParticles none)
            else List.replicate w0.self.maxParticles none } } := by
  cases hp : o.pos with
  | false => simp [ParticleSystem.initPositions, glGenBuffers, World.emit, hp, mapPhase]
  | true =>
    simp only [ParticleSystem.initPositions, glGenBuffers, World.emit, hp]
    simp only [if_true, ne_eq, reduceCtorEq, not_false_eq_true, Option.pure_def,
      Option.bind_eq_bind]
    rw [forRange_positions _ _ (h hp)]
    simp [mapPhase]

theorem initDirections_eq [LinearOrderedField α] (P : Platform α) (o : MapOutcomes)
    (w0 : World α) :
    ParticleSystem.initDirections P o w0 = some
      { self := { w0.self with
          dir_ssbo := w0.gl.nextName
          dir_array := if o.dir then some w0.gl.nextName else none }
        gl := mapPhase w0.gl (byteSize w0.self.maxParticles 16) o.dir
        rng := { outputs := w0.rng.outputs,
                 calls := w0.rng.calls + dirCalls o w0.self.maxParticles }
        store := { w0.store with
          direction :=
            if o.dir then
              writeAll (fun i => some (normalize P (ParticleSystem.rawDirection P
                  (w0.rng.outputs (w0.rng.calls + 3 * i))
                  (w0.rng.outputs (w0.rng.calls + 3 * i + 1))
                  (w0.rng.outputs (w0.rng.calls + 3 * i + 2)))))
                w0.self.maxParticles (List.replicate w0.self.maxParticles none)
            else List.replicate w0.self.maxParticles none } } := by
  cases hp : o.dir with
  | false =>
    simp [ParticleSystem.initDirections, glGenBuffers, World.emit, hp, mapPhase, dirCalls]
  | true =>
    simp only [ParticleSystem.initDirections, glGenBuffers, World.emit, hp]
    simp only [if_true, ne_eq, reduceCtorEq, not_false_eq_true, Option.pure_def,
      Option.bind_eq_bind]
    rw [forRange_directions]
    simp [mapPhase, dirCalls, hp]

theorem initSpeeds_eq [LinearOrderedField α] (P : Platform α) (o : MapOutcomes)
    (w0 : World α) :
    ParticleSystem.initSpeeds P o w0 = some
      { self := { w0.self with
          speed_ssbo := w0.gl.nextName
          speed_array := if o.speed then some w0.gl.nextName else none }
        gl := mapPhase w0.gl (byteSize w0.self.maxParticles 4) o.speed
        rng := { outputs := w0.rng.outputs,
                 calls := w0.rng.calls + if o.speed then w0.self.maxParticles else 0 }
        store := { w0.store with
          speed :=
            if o.speed then
              writeAll (fun i => some (ParticleSystem.randomfValue P (-5) (-1)
                  (w0.rng.outputs (w0.rng.calls + i))))
                w0.self.maxParticles (List.replicate w0.self.maxParticles none)
            else List.replicate w0.self.maxParticles none } } := by
  cases hp : o.speed with
  | false => simp [ParticleSystem.initSpeeds, glGenBuffers, World.emit, hp, mapPhase]
  | true =>
    simp only [ParticleSystem.initSpeeds, glGenBuffers, World.emit, hp]
    simp only [if_true, ne_eq, reduceCtorEq, not_false_eq_true, Option.pure_def,
      Option.bind_eq_bind]
    rw [forRange_speeds]
    simp [mapPhase]

theorem initColors_eq [One α] (o : MapOutcomes) (w0 : World α)
    (h : o.color = true → 0 < w0.self.maxParticles → w0.self.model.meshes ≠ []) :
    ParticleSystem.initColors o w0 = some
      { self := { w0.self with
          color_ssbo := w0.gl.nextName
          color_array := if o.color then some w0.gl.nextName else none }
        gl := mapPhase w0.gl (byteSize w0.self.maxParticles 16) o.color
        rng := w0.rng
        store := { w0.store with
          color :=
            if o.color then
              writeAll (fun _ => (w0.self.model.meshes[0]?).map fun mesh0 =>
                  { x := mesh0.material.diffuse.x, y := mesh0.material.diffuse.y,
                    z := mesh0.material.diffuse.z, w := 1 })
                w0.self.maxParticles (List.replicate w0.self.maxParticles none)
            else List.replicate w0.self.maxParticles none } } := by
  cases hp : o.color with
  | false => simp [ParticleSystem.initColors, glGenBuffers, World.emit, hp, mapPhase]
  | true =>
    simp only [ParticleSystem.initColors, glGenBuffers, World.emit, hp]
    simp only [if_true, ne_eq, reduceCtorEq, not_false_eq_true, Option.pure_def,
      Option.bind_eq_bind]
    rw [forRange_colors]
    · simp [mapPhase]
    · exact h hp

theorem initActive_eq (o : MapOutcomes) (w0 : World α) :
    ParticleSystem.initActive o w0 = some
      { self := { w0.self with
          active_ssbo := w0.gl.nextName
          active_array := if o.active then some w0.gl.nextName else none }
        gl := mapPhase w0.gl (byteSize w0.self.maxParticles 4) o.active
        rng := w0.rng
        store := { w0.store with
          active :=
            if o.active then
              writeAll (fun _ => some 0)
                w0.self.maxParticles (List.replicate w0.self.maxParticles none)
            else List.replicate w0.self.maxParticles none } } := by
  cases hp : o.active with
  | false => simp [ParticleSystem.initActive, glGenBuffers, World.emit, hp, mapPhase]
  | true =>
    simp only [ParticleSystem.initActive, glGenBuffers, World.emit, hp]
    simp only [if_true, ne_eq, reduceCtorEq, not_false_eq_true, Option.pure_def,
      Option.bind_eq_bind]
    rw [forRange_active]
    simp [mapPhase]

/-- The state `init` returns, field by field, when no read leaves its vector:
the pool has `maxParticles` entries if the position mapping succeeded, and the
model has a mesh if the colour mapping succeeded and there is a particle. -/
theorem init_spec [LinearOrderedField α] (P : Platform α) (o : MapOutcomes) (w0 : World α)
    (hpos : o.pos = true → w0.self.maxParticles
      ≤ (gatherVertices w0.self.model.meshes w0.self.verticesTotal).length)
    (hcol : o.color = true → 0 < w0.self.maxParticles → w0.self.model.meshes ≠ []) :
    ∃ w, ParticleSystem.init P o w0 = some w
      ∧ w.self.maxParticles = w0.self.maxParticles
      ∧ w.self.model = w0.self.model
      ∧ w.self.vfShader = w0.self.vfShader
      ∧ w.self.cShader = w0.self.cShader
      ∧ (w.self.pos_ssbo = w0.gl.nextName ∧ w.self.dir_ssbo = w0.gl.nextName + 1
          ∧ w.self.speed_ssbo = w0.gl.nextName + 2 ∧ w.self.color_ssbo = w0.gl.nextName + 3
          ∧ w.self.active_ssbo = w0.gl.nextName + 4 ∧ w.self.VAO = w0.gl.nextName + 5)
      ∧ w.gl = initContext w0.gl w0.self.maxParticles o
      ∧ w.rng = { outputs := w0.rng.outputs,
                  calls := w0.rng.calls + dirCalls o w0.self.maxParticles
                    + if o.speed then w0.self.maxParticles else 0 }
      ∧ w.store.position =
          (if o.pos then
            writeAll (fun i =>
                ((gatherVertices w0.self.model.meshes w0.self.verticesTotal)[i]?).map
                  fun v => { x := v.x, y := v.y, z := v.z, w := 1 })
              w0.self.maxParticles (List.replicate w0.self.maxParticles none)
          else List.replicate w0.self.maxParticles none)
      ∧ w.store.direction =
          (if o.dir then
            writeAll (fun i => some (normalize P (ParticleSystem.rawDirection P
                (w0.rng.outputs (w0.rng.calls + 3 * i))
                (w0.rng.outputs (w0.rng.calls + 3 * i + 1))
                (w0.rng.outputs (w0.rng.calls + 3 * i + 2)))))
              w0.self.maxParticles (List.replicate w0.self.maxParticles none)
          else List.replicate w0.self.maxParticles none)
      ∧ w.store.speed =
          (if o.speed then
            writeAll (fun i => some (ParticleSystem.randomfValue P (-5) (-1)
                (w0.rng.outputs (w0.rng.calls + dirCalls o w0.self.maxParticles + i))))
              w0.self.maxParticles (List.replicate w0.self.maxParticles none)
          else List.replicate w0.self.maxParticles none)
      ∧ w.store.color =
          (if o.color then
            writeAll (fun _ => (w0.self.model.meshes[0]?).map fun mesh0 =>
                { x := mesh0.material.diffuse.x, y := mesh0.material.diffuse.y,
                  z := mesh0.material.diffuse.z, w := 1 })
              w0.self.maxParticles (List.replicate w0.self.maxParticles none)
          else List.replicate w0.self.maxParticles none)
      ∧ w.store.active =
          (if o.active then
            writeAll (fun _ => some 0)
              w0.self.maxParticles (List.replicate w0.self.maxParticles none)
          else List.replicate w0.self.maxParticles none) := by
  unfold ParticleSystem.init
  rw [initPositions_eq o w0 hpos]
  simp only [Option.pure_def, Option.bind_eq_bind, Option.some_bind]
  rw [initDirections_eq, Option.some_bind, initSpeeds_eq, Option.some_bind, initColors_eq,
    Option.some_bind, initActive_eq, Option.some_bind]
  · refine ⟨_, rfl, ?_⟩
    simp [ParticleSystem.initBindings, glGenVertexArrays, World.emit, initContext, mapPhase,
      bindingTrace, Nat.add_assoc]
  · exact hcol

theorem sourcePool_ne_nil_of_pos (model : Model α) (n : Nat) (hn : 0 < n)
    (hcap : n ≤ (sourcePool model).length) : model.meshes ≠ [] := by
  intro h
  simp [sourcePool, h] at hcap
  omega

/-- The state the constructor returns, field by field, when no read leaves its
vector. -/
theorem construct_spec [LinearOrderedField α] (P : Platform α) (o : MapOutcomes)
    (vf cs : Shader) (model : Model α) (n : Nat) (gl : GLContext α) (rng : RandState)
    (hpos : o.pos = true → n ≤ (sourcePool model).length)
    (hcol : o.color = true → 0 < n → model.meshes ≠ []) :
    ∃ w, ParticleSystem.ParticleSystem P o vf cs model n gl rng = some w
      ∧ w.self.maxParticles = n
      ∧ w.self.model = model
      ∧ w.self.vfShader = vf
      ∧ w.self.cShader = cs
      ∧ (w.self.pos_ssbo = gl.nextName ∧ w.self.dir_ssbo = gl.nextName + 1
          ∧ w.self.speed_ssbo = gl.nextName + 2 ∧ w.self.color_ssbo = gl.nextName + 3
          ∧ w.self.active_ssbo = gl.nextName + 4 ∧ w.self.VAO = gl.nextName + 5)
      ∧ w.gl = initContext gl n o
      ∧ w.rng = { outputs := rng.outputs,
                  calls := rng.calls + dirCalls o n + if o.speed then n else 0 }
      ∧ w.store.position =
          (if o.pos then
            writeAll (fun i =>
                ((sourcePool model)[i]?).map fun v => { x := v.x, y := v.y, z := v.z, w := 1 })
              n (List.replicate n none)
          else List.replicate n none)
      ∧ w.store.direction =
          (if o.dir then
            writeAll (fun i => some (normalize P (ParticleSystem.rawDirection P
                (rng.outputs (rng.calls + 3 * i)) (rng.outputs (rng.calls + 3 * i + 1))
                (rng.outputs (rng.calls + 3 * i + 2)))))
              n (List.replicate n none)
          else List.replicate n none)
      ∧ w.store.speed =
          (if o.speed then
            writeAll (fun i => some (ParticleSystem.randomfValue P (-5) (-1)
                (rng.outputs (rng.calls + dirCalls o n + i))))
              n (List.replicate n none)
          else List.replicate n none)
      ∧ w.store.color =
          (if o.color then
            writeAll (fun _ => (model.meshes[0]?).map fun mesh0 =>
                { x := mesh0.material.diffuse.x, y := mesh0.material.diffuse.y,
                  z := mesh0.material.diffuse.z, w := 1 })
              n (List.replicate n none)
          else List.replicate n none)
      ∧ w.store.active =
          (if o.active then writeAll (fun _ => some 0) n (List.replicate n none)
          else List.replicate n none) := by
  have hg : gatherVertices model.meshes [] = sourcePool model := by
    rw [gatherVertices_eq]; simp [sourcePool]
  have h := init_spec P o
    { self :=
        { maxParticles := n, VAO := 0,
          pos_ssbo := 0, dir_ssbo := 0, speed_ssbo := 0, color_ssbo := 0, active_ssbo := 0,
          pos_array := none, dir_array := none, color_array := none, speed_array := none,
          active_array := none,
          vfShader := vf, cShader := cs, model := model, verticesTotal := [] },
      gl := gl, rng := rng,
      store := { position := [], direction := [], speed := [], color := [], active := [] } }
    (by simpa [hg] using hpos) (by simpa using hcol)
  simpa [ParticleSystem.ParticleSystem, hg] using h

/-- C1. For every model and every capacity not above the length of the source
pool (the vertex positions of the meshes, in mesh order and then vertex order),
the `init()` run by the constructor with a successful position mapping returns, and for
every `i < maxParticles` cell `i` of the position buffer holds
`(p.x, p.y, p.z, 1)` with `p` the `i`-th entry of the pool. -/
theorem init_position_eq_sourcePool [LinearOrderedField α] (P : Platform α) (o : MapOutcomes)
    (vf cs : Shader) (model : Model α) (maxParticles : Nat) (gl : GLContext α)
    (rng : RandState) (hcap : maxParticles ≤ (sourcePool model).length)
    (hmap : o.pos = true) :
    ∃ w, ParticleSystem.ParticleSystem P o vf cs model maxParticles gl rng = some w
      ∧ ∀ i, i < maxParticles →
          ∃ p, (sourcePool model)[i]? = some p
            ∧ w.store.position[i]? = some (some { x := p.x, y := p.y, z := p.z, w := 1 }) := by
  obtain ⟨w, hw, -, -, -, -, -, -, -, hposn, -⟩ :=
    construct_spec P o vf cs model maxParticles gl rng (fun _ => hcap)
      (fun _ hn => sourcePool_ne_nil_of_pos model maxParticles hn hcap)
  refine ⟨w, hw, fun i hi => ?_⟩
  have hlt : i < (sourcePool model).length := by omega
  refine ⟨(sourcePool model)[i], List.getElem?_eq_getElem hlt, ?_⟩
  rw [hposn, hmap, if_pos rfl, writeAll_replicate_getElem? _ _ _ hi,
    List.getElem?_eq_getElem hlt]
  rfl

/-- C1 at the demo model with capacity 3: the three cells are the three
vertices of the two meshes, in order. -/
theorem init_position_eq_sourcePool_witness :
    3 ≤ (sourcePool (demoModel ℝ)).length ∧ allMapped.pos = true
      ∧ ∃ w, ParticleSystem.ParticleSystem (realPlatform 32767 Real.sqrt) allMapped ⟨1⟩ ⟨2⟩
            (demoModel ℝ) 3 (freshContext ℝ) (constantRand 5) = some w
          ∧ ∀ i, i < 3 →
            ∃ p, (sourcePool (demoModel ℝ))[i]? = some p
              ∧ w.store.position[i]? = some (some { x := p.x, y := p.y, z := p.z, w := 1 }) :=
  ⟨by simp [sourcePool, demoModel, demoMeshA, demoMeshB], rfl,
    init_position_eq_sourcePool (realPlatform 32767 Real.sqrt) allMapped ⟨1⟩ ⟨2⟩ (demoModel ℝ) 3
      (freshContext ℝ) (constantRand 5)
      (by simp [sourcePool, demoModel, demoMeshA, demoMeshB]) rfl⟩

theorem forRange_positions_none [One α] (w : World α) (k : Nat)
    (hk : w.self.verticesTotal.length < k) :
    forRange k ParticleSystem.seedPosition w = none := by
  induction k with
  | zero => omega
  | succ k ih =>
    rw [forRange]
    by_cases hlt : w.self.verticesTotal.length < k
    · rw [ih hlt]; rfl
    · have hle : k ≤ w.self.verticesTotal.length := by omega
      have hge : w.self.verticesTotal.length ≤ k := by omega
      rw [forRange_positions w k hle]
      simp [ParticleSystem.seedPosition, List.getElem?_eq_none hge]

theorem forRange_colors_none [One α] (w : World α) (k : Nat) (hk : 0 < k)
    (h0 : w.self.model.meshes = []) :
    forRange k ParticleSystem.seedColor w = none := by
  induction k with
  | zero => omega
  | succ k ih =>
    rw [forRange]
    by_cases hpos : 0 < k
    · rw [ih hpos]; rfl
    · have hz : k = 0 := by omega
      subst hz
      simp [forRange, ParticleSystem.seedColor, h0]

theorem initPositions_none [One α] (o : MapOutcomes) (w0 : World α) (hp : o.pos = true)
    (h : (gatherVertices w0.self.model.meshes w0.self.verticesTotal).length
      < w0.self.maxParticles) :
    ParticleSystem.initPositions o w0 = none := by
  simp only [ParticleSystem.initPositions, glGenBuffers, World.emit, hp]
  simp only [if_true, ne_eq, reduceCtorEq, not_false_eq_true, Option.pure_def,
    Option.bind_eq_bind]
  rw [forRange_positions_none]
  · rfl
  · exact h

theorem initColors_none [One α] (o : MapOutcomes) (w0 : World α) (hp : o.color = true)
    (hn : 0 < w0.self.maxParticles) (h : w0.self.model.meshes = []) :
    ParticleSystem.initColors o w0 = none := by
  simp only [ParticleSystem.initColors, glGenBuffers, World.emit, hp]
  simp only [if_true, ne_eq, reduceCtorEq, not_false_eq_true, Option.pure_def,
    Option.bind_eq_bind]
  rw [forRange_colors_none]
  · rfl
  · exact hn
  · exact h

/-- The constructor returns exactly when no read leaves its vector. -/
theorem construct_isSome_iff [LinearOrderedField α] (P : Platform α) (o : MapOutcomes)
    (vf cs : Shader) (model : Model α) (n : Nat) (gl : GLContext α) (rng : RandState) :
    (ParticleSystem.ParticleSystem P o vf cs model n gl rng).isSome = true
      ↔ (o.pos = true → n ≤ (sourcePool model).length)
        ∧ (o.color = true → 0 < n → model.meshes ≠ []) := by
  have hg : gatherVertices model.meshes [] = sourcePool model := by
    rw [gatherVertices_eq]; simp [sourcePool]
  constructor
  · intro h
    by_contra hne
    have hnone : ParticleSystem.ParticleSystem P o vf cs model n gl rng = none := by
      by_cases hpos : o.pos = true → n ≤ (sourcePool model).length
      · have hcol : ¬ (o.color = true → 0 < n → model.meshes ≠ []) := fun hc => hne ⟨hpos, hc⟩
        push_neg at hcol
        obtain ⟨hc, hn, hm⟩ := hcol
        unfold ParticleSystem.ParticleSystem ParticleSystem.init
        rw [initPositions_eq _ _ (by simpa [hg] using hpos)]
        simp only [Option.pure_def, Option.bind_eq_bind, Option.some_bind]
        rw [initDirections_eq, Option.some_bind, initSpeeds_eq, Option.some_bind,
          initColors_none _ _ hc (by simpa using hn) (by simpa using hm)]
        rfl
      · push_neg at hpos
        obtain ⟨hp, hlt⟩ := hpos
        unfold ParticleSystem.ParticleSystem ParticleSystem.init
        rw [initPositions_none _ _ hp (by simpa [hg] using hlt)]
        rfl
    rw [hnone] at h
    simp at h
  · rintro ⟨hpos, hcol⟩
    obtain ⟨w, hw, -⟩ := construct_spec P o vf cs model n gl rng hpos hcol
    simp [hw]

/-- C5. If the source pool has at least `maxParticles` entries, the `init()`
run by the constructor makes no out-of-range read whatever the five mapping
outcomes: it
returns, every `verticesTotal[i]` with `i < maxParticles` is inside the pool,
and `model.meshes[0]` exists whenever `maxParticles > 0`. -/
theorem init_reads_in_range [LinearOrderedField α] (P : Platform α) (o : MapOutcomes)
    (vf cs : Shader) (model : Model α) (maxParticles : Nat) (gl : GLContext α)
    (rng : RandState) (hcap : maxParticles ≤ (sourcePool model).length) :
    (ParticleSystem.ParticleSystem P o vf cs model maxParticles gl rng).isSome = true
      ∧ (∀ i, i < maxParticles → ((sourcePool model)[i]?).isSome = true)
      ∧ (0 < maxParticles → (model.meshes[0]?).isSome = true) := by
  refine ⟨?_, fun i hi => ?_, fun hn => ?_⟩
  · exact (construct_isSome_iff P o vf cs model maxParticles gl rng).mpr
      ⟨fun _ => hcap, fun _ hn => sourcePool_ne_nil_of_pos model maxParticles hn hcap⟩
  · have hlt : i < (sourcePool model).length := by omega
    simp [List.getElem?_eq_getElem hlt]
  · have hne := sourcePool_ne_nil_of_pos model maxParticles hn hcap
    obtain ⟨m, ms, hm⟩ := List.exists_cons_of_ne_nil hne
    simp [hm]

/-- C5 at the demo model with capacity 3, the position mapping failing. -/
theorem init_reads_in_range_witness :
    3 ≤ (sourcePool (demoModel ℝ)).length
      ∧ (ParticleSystem.ParticleSystem (realPlatform 32767 Real.sqrt)
            { allMapped with pos := false } ⟨1⟩ ⟨2⟩
            (demoModel ℝ) 3 (freshContext ℝ) (constantRand 5)).isSome = true
      ∧ (∀ i, i < 3 → ((sourcePool (demoModel ℝ))[i]?).isSome = true)
      ∧ (0 < 3 → ((demoModel ℝ).meshes[0]?).isSome = true) :=
  ⟨by simp [sourcePool, demoModel, demoMeshA, demoMeshB],
    init_reads_in_range (realPlatform 32767 Real.sqrt) { allMapped with pos := false } ⟨1⟩ ⟨2⟩
      (demoModel ℝ) 3 (freshContext ℝ) (constantRand 5)
      (by simp [sourcePool, demoModel, demoMeshA, demoMeshB])⟩

theorem initContext_trace (gl : GLContext α) (n : Nat) (o : MapOutcomes) :
    (initContext gl n o).trace = gl.trace ++ initCommands gl n o := by
  simp [initContext, initCommands, mapPhase]

theorem mapEvents_initCommands (gl : GLContext α) (n : Nat) (o : MapOutcomes) (bound : Nat) :
    mapEvents gl.nextName bound (initCommands gl n o) = [.map o.pos, .unmap]
      ∧ mapEvents (gl.nextName + 1) bound (initCommands gl n o) = [.map o.dir, .unmap]
      ∧ mapEvents (gl.nextName + 2) bound (initCommands gl n o) = [.map o.speed, .unmap]
      ∧ mapEvents (gl.nextName + 3) bound (initCommands gl n o) = [.map o.color, .unmap]
      ∧ mapEvents (gl.nextName + 4) bound (initCommands gl n o) = [.map o.active, .unmap] := by
  simp [initCommands, initContext, mapPhase, bindingTrace, mapEvents, Nat.add_assoc]

/-- C9. Take any combination of the five mapping outcomes for which no read
leaves its vector (the pool has `maxParticles` entries if the position mapping
succeeds; the model has a mesh if the colour mapping succeeds and there is a
particle). Then the `init()` run by the constructor returns; a buffer whose mapping
returned `NULL` has no cell written (its store is as `glBufferData` left it);
among the calls issued by `init`, each of the five buffers receives exactly one
map followed by exactly one unmap, whatever the outcome; and the position,
colour and active arrays whose own mapping succeeded are seeded in full,
whatever happened to the other mappings. -/
theorem init_mapping_failure [LinearOrderedField α] (P : Platform α) (o : MapOutcomes)
    (vf cs : Shader) (model : Model α) (maxParticles : Nat) (gl : GLContext α)
    (rng : RandState)
    (hpos : o.pos = true → maxParticles ≤ (sourcePool model).length)
    (hcol : o.color = true → 0 < maxParticles → model.meshes ≠ []) :
    ∃ w, ParticleSystem.ParticleSystem P o vf cs model maxParticles gl rng = some w
      ∧ (o.pos = false → w.store.position = List.replicate maxParticles none)
      ∧ (o.dir = false → w.store.direction = List.replicate maxParticles none)
      ∧ (o.speed = false → w.store.speed = List.replicate maxParticles none)
      ∧ (o.color = false → w.store.color = List.replicate maxParticles none)
      ∧ (o.active = false → w.store.active = List.replicate maxParticles none)
      ∧ (∀ bound,
          mapEvents w.self.pos_ssbo bound (w.gl.trace.drop gl.trace.length)
              = [.map o.pos, .unmap]
          ∧ mapEvents w.self.dir_ssbo bound (w.gl.trace.drop gl.trace.length)
              = [.map o.dir, .unmap]
          ∧ mapEvents w.self.speed_ssbo bound (w.gl.trace.drop gl.trace.length)
              = [.map o.speed, .unmap]
          ∧ mapEvents w.self.color_ssbo bound (w.gl.trace.drop gl.trace.length)
              = [.map o.color, .unmap]
          ∧ mapEvents w.self.active_ssbo bound (w.gl.trace.drop gl.trace.length)
              = [.map o.active, .unmap])
      ∧ (o.pos = true → ∀ i, i < maxParticles →
          ∃ p, (sourcePool model)[i]? = some p
            ∧ w.store.position[i]? = some (some { x := p.x, y := p.y, z := p.z, w := 1 }))
      ∧ (o.color = true → ∀ i, i < maxParticles →
          ∃ mesh0, model.meshes[0]? = some mesh0
            ∧ w.store.color[i]? = some (some
                { x := mesh0.material.diffuse.x, y := mesh0.material.diffuse.y,
                  z := mesh0.material.diffuse.z, w := 1 }))
      ∧ (o.active = true → ∀ i, i < maxParticles → w.store.active[i]? = some (some 0)) := by
  obtain ⟨w, hw, -, -, -, -, ⟨hb1, hb2, hb3, hb4, hb5, -⟩, hgl, -, hposn, hdir, hspd, hcolr,
      hact⟩ :=
    construct_spec P o vf cs model maxParticles gl rng hpos hcol
  refine ⟨w, hw, ?_, ?_, ?_, ?_, ?_, ?_, ?_, ?_, ?_⟩
  · intro h; simp [hposn, h]
  · intro h; simp [hdir, h]
  · intro h; simp [hspd, h]
  · intro h; simp [hcolr, h]
  · intro h; simp [hact, h]
  · intro bound
    rw [hgl, initContext_trace, List.drop_left, hb1, hb2, hb3, hb4, hb5]
    exact mapEvents_initCommands gl maxParticles o bound
  · intro h i hi
    have hlt : i < (sourcePool model).length := by have := hpos h; omega
    refine ⟨(sourcePool model)[i], List.getElem?_eq_getElem hlt, ?_⟩
    rw [hposn, h, if_pos rfl, writeAll_replicate_getElem? _ _ _ hi,
      List.getElem?_eq_getElem hlt]
    rfl
  · intro h i hi
    have hne := hcol h (by omega)
    obtain ⟨m, ms, hm⟩ := List.exists_cons_of_ne_nil hne
    refine ⟨m, by simp [hm], ?_⟩
    rw [hcolr, h, if_pos rfl, writeAll_replicate_getElem? _ _ _ hi]
    simp [hm]
  · intro h i hi
    rw [hact, h, if_pos rfl, writeAll_replicate_getElem? _ _ _ hi]

/-- C10. For every model whose first mesh is `mesh0`, with a successful colour
mapping (and the pool long enough when the position mapping also succeeds, so
that `init()` returns), every colour cell `i < maxParticles` holds
`(d.r, d.g, d.b, 1)` with `d` the diffuse colour of `mesh0`; hence all cells
below `maxParticles` are equal, whatever the other meshes are. -/
theorem init_color_first_mesh [LinearOrderedField α] (P : Platform α) (o : MapOutcomes)
    (vf cs : Shader) (model : Model α) (maxParticles : Nat) (gl : GLContext α)
    (rng : RandState) (mesh0 : Mesh α) (others : List (Mesh α))
    (hmesh : model.meshes = mesh0 :: others) (hmap : o.color = true)
    (hcap : o.pos = true → maxParticles ≤ (sourcePool model).length) :
    ∃ w, ParticleSystem.ParticleSystem P o vf cs model maxParticles gl rng = some w
      ∧ (∀ i, i < maxParticles →
          w.store.color[i]? = some (some
            { x := mesh0.material.diffuse.x, y := mesh0.material.diffuse.y,
              z := mesh0.material.diffuse.z, w := 1 }))
      ∧ (∀ i j, i < maxParticles → j < maxParticles →
          w.store.color[i]? = w.store.color[j]?) := by
  obtain ⟨w, hw, -, -, -, -, -, -, -, -, -, -, hcol, -⟩ :=
    construct_spec P o vf cs model maxParticles gl rng hcap (fun _ _ => by simp [hmesh])
  have hcell : ∀ i, i < maxParticles →
      w.store.color[i]? = some (some
        { x := mesh0.material.diffuse.x, y := mesh0.material.diffuse.y,
          z := mesh0.material.diffuse.z, w := 1 }) := by
    intro i hi
    rw [hcol, hmap, if_pos rfl, writeAll_replicate_getElem? _ _ _ hi]
    simp [hmesh]
  exact ⟨w, hw, hcell, fun i j hi hj => by rw [hcell i hi, hcell j hj]⟩

/-- C9 at the demo model with capacity 5, above the three vertices of the
pool, when the position, direction and speed mappings fail: `init()` returns,
the three buffers stay unwritten, the active flags are seeded, and the position
and direction buffers each see one map and one unmap. -/
theorem init_mapping_failure_witness :
    ((({ allMapped with pos := false, dir := false, speed := false } : MapOutcomes).pos = true
          → 5 ≤ (sourcePool (demoModel ℝ)).length)
        ∧ (({ allMapped with pos := false, dir := false, speed := false } : MapOutcomes).color
              = true → 0 < 5 → (demoModel ℝ).meshes ≠ []))
      ∧ ∃ w, ParticleSystem.ParticleSystem (realPlatform 32767 Real.sqrt)
            { allMapped with pos := false, dir := false, speed := false } ⟨1⟩ ⟨2⟩
            (demoModel ℝ) 5 (freshContext ℝ) (constantRand 5) = some w
          ∧ w.store.position = List.replicate 5 none
          ∧ w.store.direction = List.replicate 5 none
          ∧ w.store.speed = List.replicate 5 none
          ∧ (∀ i, i < 5 → w.store.active[i]? = some (some 0))
          ∧ mapEvents w.self.pos_ssbo 0 w.gl.trace = [.map false, .unmap]
          ∧ mapEvents w.self.dir_ssbo 0 w.gl.trace = [.map false, .unmap] := by
  have hpos : ({ allMapped with pos := false, dir := false, speed := false } : MapOutcomes).pos
      = true → 5 ≤ (sourcePool (demoModel ℝ)).length := by
    intro h
    simp at h
  have hcol : ({ allMapped with pos := false, dir := false, speed := false } : MapOutcomes).color
      = true → 0 < 5 → (demoModel ℝ).meshes ≠ [] := by
    intro _ _
    simp [demoModel]
  obtain ⟨w, hw, hp, hd, hs, -, -, hev, -, -, hact⟩ :=
    init_mapping_failure (realPlatform 32767 Real.sqrt)
      { allMapped with pos := false, dir := false, speed := false } ⟨1⟩ ⟨2⟩
      (demoModel ℝ) 5 (freshContext ℝ) (constantRand 5) hpos hcol
  refine ⟨⟨hpos, hcol⟩, w, hw, hp rfl, hd rfl, hs rfl, hact rfl, ?_, ?_⟩
  · simpa [freshContext] using (hev 0).1
  · simpa [freshContext] using (hev 0).2.1

/-- C10 at the demo model with capacity 3: the second mesh is red, yet the
three colours are the grey of the first mesh. -/
theorem init_color_first_mesh_witness :
    (demoModel ℝ).meshes = demoMeshA ℝ :: [demoMeshB ℝ] ∧ allMapped.color = true
      ∧ (allMapped.pos = true → 3 ≤ (sourcePool (demoModel ℝ)).length)
      ∧ ∃ w, ParticleSystem.ParticleSystem (realPlatform 32767 Real.sqrt) allMapped ⟨1⟩ ⟨2⟩
            (demoModel ℝ) 3 (freshContext ℝ) (constantRand 5) = some w
          ∧ (∀ i, i < 3 →
              w.store.color[i]? = some (some
                { x := (demoMeshA ℝ).material.diffuse.x, y := (demoMeshA ℝ).material.diffuse.y,
                  z := (demoMeshA ℝ).material.diffuse.z, w := 1 }))
          ∧ (∀ i j, i < 3 → j < 3 → w.store.color[i]? = w.store.color[j]?) :=
  ⟨rfl, rfl, fun _ => by simp [sourcePool, demoModel, demoMeshA, demoMeshB],
    init_color_first_mesh (realPlatform 32767 Real.sqrt) allMapped ⟨1⟩ ⟨2⟩ (demoModel ℝ) 3
      (freshContext ℝ) (constantRand 5) (demoMeshA ℝ) [demoMeshB ℝ] rfl rfl
      (fun _ => by simp [sourcePool, demoModel, demoMeshA, demoMeshB])⟩

theorem dispatchGroups_eq (n : Nat) (h : n ≤ 2 ^ 32 - 128) :
    dispatchGroups n = (n + 127) / 128 := by
  unfold dispatchGroups toUInt32
  norm_num at h
  omega

theorem ceil_div_128 (n : Nat) : (n + 127) / 128 = ⌈(n : ℚ) / 128⌉₊ := by
  apply le_antisymm
  · rcases Nat.eq_zero_or_pos ((n + 127) / 128) with h0 | hpos
    · rw [h0]; exact Nat.zero_le _
    · have h1 : (n + 127) / 128 - 1 < ⌈(n : ℚ) / 128⌉₊ := by
        rw [Nat.lt_ceil, lt_div_iff₀ (by norm_num)]
        have : ((n + 127) / 128 - 1) * 128 < n := by omega
        exact_mod_cast this
      omega
  · rw [Nat.ceil_le, div_le_iff₀ (by norm_num)]
    have : n ≤ (n + 127) / 128 * 128 := by omega
    exact_mod_cast this

theorem update_trace (deltaTime : α) (w : World α) :
    (ParticleSystem.update deltaTime w).gl.trace = w.gl.trace ++ updateCommands deltaTime w := by
  simp [ParticleSystem.update, World.emit, updateCommands]

/-- C3 as stated fails at the largest `unsigned int`: with
`maxParticles = 4294967295` the sum `maxParticles + 128 - 1` wraps to 126 and
`update` dispatches 0 work-groups, which is not `ceil(maxParticles / 128)` and
covers no particle. -/
theorem update_dispatch_wraps :
    (4294967295 : Nat) < 2 ^ 32
      ∧ ∃ w, ParticleSystem.ParticleSystem (realPlatform 32767 Real.sqrt) noneMapped ⟨1⟩ ⟨2⟩
            (demoModel ℝ) 4294967295 (freshContext ℝ) (constantRand 5) = some w
          ∧ w.self.maxParticles = 4294967295
          ∧ (ParticleSystem.update (1 / 60) w).gl.trace = w.gl.trace ++
              [ .UseProgram 2, .Uniform1f 2 "deltaTime" (1 / 60),
                .Uniform3fv 2 "modelCenter" ⟨4, 5, 6⟩,
                .DispatchCompute 0 1 1, .MemoryBarrier GL_SHADER_STORAGE_BARRIER_BIT ]
          ∧ ¬ (w.self.maxParticles ≤ 0 * 128)
          ∧ (0 : Nat) ≠ ⌈(4294967295 : ℚ) / 128⌉₊ := by
  refine ⟨by norm_num, ?_⟩
  obtain ⟨w, hw, hn, hm, -, hcs, -⟩ :=
    construct_spec (realPlatform 32767 Real.sqrt) noneMapped ⟨1⟩ ⟨2⟩ (demoModel ℝ) 4294967295
      (freshContext ℝ) (constantRand 5) (fun h => by simp [noneMapped] at h)
      (fun h => by simp [noneMapped] at h)
  have hg : dispatchGroups 4294967295 = 0 := by decide
  refine ⟨w, hw, hn, ?_, by rw [hn]; norm_num, ?_⟩
  · rw [update_trace]
    simp [updateCommands, hn, hm, hcs, hg, demoModel]
  · intro hc
    have h := ceil_div_128 4294967295
    rw [show ((4294967295 : ℕ) : ℚ) = 4294967295 by norm_num, ← hc] at h
    omega

/-- C3, amended: for every `maxParticles ≤ 2 ^ 32 - 128`, `update` dispatches
`groups = (maxParticles + 128 - 1) / 128` work-groups in x and 1 in y and z,
where the unsigned computation does not wrap, `groups = ceil(maxParticles / 128)`,
`groups * 128 ≥ maxParticles` and `groups * 128 - maxParticles < 128`. -/
theorem update_dispatch_groups (deltaTime : α) (w : World α)
    (h : w.self.maxParticles ≤ 2 ^ 32 - 128) :
    ∃ groups, (ParticleSystem.update deltaTime w).gl.trace = w.gl.trace ++
          [ .UseProgram w.self.cShader.ID,
            .Uniform1f w.self.cShader.ID "deltaTime" deltaTime,
            .Uniform3fv w.self.cShader.ID "modelCenter" w.self.model.modelCenter,
            .DispatchCompute groups 1 1,
            .MemoryBarrier GL_SHADER_STORAGE_BARRIER_BIT ]
      ∧ groups = dispatchGroups w.self.maxParticles
      ∧ groups = (w.self.maxParticles + 128 - 1) / 128
      ∧ groups = ⌈(w.self.maxParticles : ℚ) / 128⌉₊
      ∧ w.self.maxParticles ≤ groups * 128
      ∧ groups * 128 - w.self.maxParticles < 128 := by
  refine ⟨dispatchGroups w.self.maxParticles, ?_, rfl, ?_, ?_, ?_, ?_⟩
  · rw [update_trace]; rfl
  · rw [dispatchGroups_eq _ h]; omega
  · rw [dispatchGroups_eq _ h, ceil_div_128]
  · rw [dispatchGroups_eq _ h]; omega
  · rw [dispatchGroups_eq _ h]; omega

/-- C3, amended, at `maxParticles = 300`: three work-groups. -/
theorem update_dispatch_groups_witness :
    (demoWorld ℝ 300).self.maxParticles ≤ 2 ^ 32 - 128
      ∧ (ParticleSystem.update (1 / 60) (demoWorld ℝ 300)).gl.trace =
          [ .UseProgram 2, .Uniform1f 2 "deltaTime" (1 / 60),
            .Uniform3fv 2 "modelCenter" ⟨4, 5, 6⟩,
            .DispatchCompute 3 1 1, .MemoryBarrier GL_SHADER_STORAGE_BARRIER_BIT ] := by
  have hcap : (demoWorld ℝ 300).self.maxParticles ≤ 2 ^ 32 - 128 := by
    show 300 ≤ 2 ^ 32 - 128
    norm_num
  obtain ⟨groups, htrace, -, hg, -⟩ := update_dispatch_groups (1 / 60 : ℝ) (demoWorld ℝ 300) hcap
  refine ⟨hcap, ?_⟩
  have h3 : groups = 3 := by
    rw [hg]
    show (300 + 128 - 1) / 128 = 3
    norm_num
  rw [htrace, h3]
  rfl

/-- C7. For every `deltaTime` and every state, `update(deltaTime)` issues
exactly these five calls, in this order, and changes nothing else: activate the
compute program; set uniform "deltaTime"; set uniform "modelCenter" to
`model.modelCenter`; one compute dispatch; one memory barrier with the
shader-storage bit. Two of the calls publish a uniform, one is a dispatch, and
the barrier is the last call, right after the dispatch. -/
theorem update_commands (deltaTime : α) (w : World α) :
    (ParticleSystem.update deltaTime w).gl.trace = w.gl.trace ++
        [ .UseProgram w.self.cShader.ID,
          .Uniform1f w.self.cShader.ID "deltaTime" deltaTime,
          .Uniform3fv w.self.cShader.ID "modelCenter" w.self.model.modelCenter,
          .DispatchCompute (dispatchGroups w.self.maxParticles) 1 1,
          .MemoryBarrier GL_SHADER_STORAGE_BARRIER_BIT ]
      ∧ (updateCommands deltaTime w).length = 5
      ∧ (updateCommands deltaTime w).countP GLCmd.isUniform = 2
      ∧ (updateCommands deltaTime w)[3]?
          = some (.DispatchCompute (dispatchGroups w.self.maxParticles) 1 1)
      ∧ (updateCommands deltaTime w).getLast?
          = some (.MemoryBarrier GL_SHADER_STORAGE_BARRIER_BIT)
      ∧ (ParticleSystem.update deltaTime w).self = w.self
      ∧ (ParticleSystem.update deltaTime w).rng = w.rng
      ∧ (ParticleSystem.update deltaTime w).store = w.store
      ∧ (ParticleSystem.update deltaTime w).gl.nextName = w.gl.nextName := by
  refine ⟨by rw [update_trace]; rfl, rfl, rfl, rfl, rfl, rfl, rfl, rfl, rfl⟩

theorem draw_trace (particle_size : α) (projection view : Mat4 α) (w : World α) :
    (ParticleSystem.draw particle_size projection view w).gl.trace = w.gl.trace ++
      [ .UseProgram w.self.vfShader.ID,
        .BindVertexArray w.self.VAO,
        .UniformMatrix4fv w.self.vfShader.ID "proj" projection,
        .UniformMatrix4fv w.self.vfShader.ID "view" view,
        .PointSize particle_size,
        .DrawArrays GL_POINTS 0 (toGLsizei w.self.maxParticles) ] := by
  simp [ParticleSystem.draw, World.emit]

theorem toGLsizei_eq (n : Nat) (h : n < 2 ^ 31) : toGLsizei n = (n : Int) := by
  unfold toGLsizei
  norm_num at h
  have h1 : n % 2 ^ 32 = n := Nat.mod_eq_of_lt (by omega)
  rw [h1, if_pos (by omega)]

/-- C8 as stated fails in the upper half of `unsigned int`: with
`maxParticles = 2147483648` the `GLsizei` count that `glDrawArrays` receives is
`-2147483648`, not `maxParticles`. -/
theorem draw_count_wraps :
    (2147483648 : Nat) < 2 ^ 32
      ∧ ∃ w, ParticleSystem.ParticleSystem (realPlatform 32767 Real.sqrt) noneMapped ⟨1⟩ ⟨2⟩
            (demoModel ℝ) 2147483648 (freshContext ℝ) (constantRand 5) = some w
          ∧ w.self.maxParticles = 2147483648
          ∧ (ParticleSystem.draw 2 (fun _ => ⟨0, 0, 0, 0⟩) (fun _ => ⟨0, 0, 0, 0⟩) w).gl.trace
              = w.gl.trace ++
                [ .UseProgram 1, .BindVertexArray w.self.VAO,
                  .UniformMatrix4fv 1 "proj" (fun _ => ⟨0, 0, 0, 0⟩),
                  .UniformMatrix4fv 1 "view" (fun _ => ⟨0, 0, 0, 0⟩),
                  .PointSize 2, .DrawArrays GL_POINTS 0 (-2147483648) ]
          ∧ (-2147483648 : Int) ≠ ((w.self.maxParticles : Nat) : Int) := by
  refine ⟨by norm_num, ?_⟩
  obtain ⟨w, hw, hn, -, hvf, -⟩ :=
    construct_spec (realPlatform 32767 Real.sqrt) noneMapped ⟨1⟩ ⟨2⟩ (demoModel ℝ) 2147483648
      (freshContext ℝ) (constantRand 5) (fun h => by simp [noneMapped] at h)
      (fun h => by simp [noneMapped] at h)
  have hg : toGLsizei 2147483648 = -2147483648 := by decide
  refine ⟨w, hw, hn, ?_, by rw [hn]; norm_num⟩
  rw [draw_trace, hn, hvf, hg]

/-- C8, amended: for every `maxParticles < 2 ^ 31`, `draw` issues exactly these
six calls: activate the render program, bind the VAO, publish "proj" and
"view", set the point size, and one `glDrawArrays(GL_POINTS, 0, count)` with
`count` equal to `maxParticles`; the calls are the same whatever the buffers
(the active array among them) contain. -/
theorem draw_commands (particle_size : α) (projection view : Mat4 α) (w : World α)
    (h : w.self.maxParticles < 2 ^ 31) :
    (ParticleSystem.draw particle_size projection view w).gl.trace = w.gl.trace ++
        [ .UseProgram w.self.vfShader.ID,
          .BindVertexArray w.self.VAO,
          .UniformMatrix4fv w.self.vfShader.ID "proj" projection,
          .UniformMatrix4fv w.self.vfShader.ID "view" view,
          .PointSize particle_size,
          .DrawArrays GL_POINTS 0 (w.self.maxParticles : Int) ]
      ∧ ((ParticleSystem.draw particle_size projection view w).gl.trace.drop
            w.gl.trace.length).countP GLCmd.isDraw = 1
      ∧ ∀ store : Store α,
          (ParticleSystem.draw particle_size projection view { w with store := store }).gl.trace
            = (ParticleSystem.draw particle_size projection view w).gl.trace := by
  refine ⟨by rw [draw_trace, toGLsizei_eq _ h], ?_, fun store => ?_⟩
  · rw [draw_trace, List.drop_left]
    rfl
  · rw [draw_trace, draw_trace]

/-- C8, amended, at `maxParticles = 3`: one draw of three points. -/
theorem draw_commands_witness :
    (demoWorld ℝ 3).self.maxParticles < 2 ^ 31
      ∧ (ParticleSystem.draw 2 (fun _ => ⟨0, 0, 0, 0⟩) (fun _ => ⟨0, 0, 0, 0⟩)
            (demoWorld ℝ 3)).gl.trace =
          [ .UseProgram 1, .BindVertexArray 6,
            .UniformMatrix4fv 1 "proj" (fun _ => ⟨0, 0, 0, 0⟩),
            .UniformMatrix4fv 1 "view" (fun _ => ⟨0, 0, 0, 0⟩),
            .PointSize 2, .DrawArrays GL_POINTS 0 3 ] := by
  have hcap : (demoWorld ℝ 3).self.maxParticles < 2 ^ 31 := by
    show 3 < 2 ^ 31
    norm_num
  refine ⟨hcap, ?_⟩
  rw [(draw_commands (2 : ℝ) (fun _ => ⟨0, 0, 0, 0⟩) (fun _ => ⟨0, 0, 0, 0⟩)
    (demoWorld ℝ 3) hcap).1]
  rfl

/-- In exact arithmetic the dot product of a non-zero vector with itself is
positive. -/
theorem dot_self_pos (v : Vec4 ℝ) (hv : v ≠ ⟨0, 0, 0, 0⟩) : 0 < dot v v := by
  obtain ⟨x, y, z, t⟩ := v
  have hne : ¬ (x = 0 ∧ y = 0 ∧ z = 0 ∧ t = 0) := by
    rintro ⟨rfl, rfl, rfl, rfl⟩
    exact hv rfl
  simp only [dot]
  by_contra hle
  push_neg at hle
  have hx : x = 0 := by nlinarith [sq_nonneg x, sq_nonneg y, sq_nonneg z, sq_nonneg t]
  have hy : y = 0 := by nlinarith [sq_nonneg x, sq_nonneg y, sq_nonneg z, sq_nonneg t]
  have hz : z = 0 := by nlinarith [sq_nonneg x, sq_nonneg y, sq_nonneg z, sq_nonneg t]
  have ht : t = 0 := by nlinarith [sq_nonneg x, sq_nonneg y, sq_nonneg z, sq_nonneg t]
  exact hne ⟨hx, hy, hz, ht⟩

/-- In exact arithmetic `normalize` of a non-zero vector has length exactly 1. -/
theorem length_normalize (RAND_MAX : Nat) (v : Vec4 ℝ) (hv : v ≠ ⟨0, 0, 0, 0⟩) :
    length (realPlatform RAND_MAX Real.sqrt) (normalize (realPlatform RAND_MAX Real.sqrt) v)
      = 1 := by
  have hd : 0 < dot v v := dot_self_pos v hv
  have hs : 0 < Real.sqrt (dot v v) := Real.sqrt_pos.mpr hd
  have hsq : Real.sqrt (dot v v) * Real.sqrt (dot v v) = dot v v :=
    Real.mul_self_sqrt hd.le
  have hdot : dot (normalize (realPlatform RAND_MAX Real.sqrt) v)
      (normalize (realPlatform RAND_MAX Real.sqrt) v) = 1 := by
    simp only [normalize, inversesqrt, realPlatform]
    have : dot { x := v.x * (1 / Real.sqrt (dot v v)), y := v.y * (1 / Real.sqrt (dot v v)),
                 z := v.z * (1 / Real.sqrt (dot v v)), w := v.w * (1 / Real.sqrt (dot v v)) }
             { x := v.x * (1 / Real.sqrt (dot v v)), y := v.y * (1 / Real.sqrt (dot v v)),
               z := v.z * (1 / Real.sqrt (dot v v)), w := v.w * (1 / Real.sqrt (dot v v)) }
           = dot v v / (Real.sqrt (dot v v) * Real.sqrt (dot v v)) := by
      simp only [dot]
      field_simp
    rw [this, hsq, div_self hd.ne.symm]
  simp only [length]
  rw [hdot]
  simp [realPlatform]

/-- In exact arithmetic the sample `x = 2 r / RAND_MAX - 1` is not 0 for any
odd `RAND_MAX`. -/
theorem rawDirection_x_ne_zero_of_odd (RAND_MAX r1 r2 r3 : Nat) (hodd : RAND_MAX % 2 = 1) :
    (ParticleSystem.rawDirection (realPlatform RAND_MAX Real.sqrt) r1 r2 r3).x ≠ 0 := by
  have h1 : ¬ ((1 : ℝ) < -1) := by norm_num
  have hRne : (RAND_MAX : ℝ) ≠ 0 := by
    have : RAND_MAX ≠ 0 := by omega
    exact_mod_cast this
  simp only [ParticleSystem.rawDirection, randomfValue_of_not_lt _ _ _ h1, realPlatform]
  intro hx
  have h2 : (r1 : ℝ) * 2 = (RAND_MAX : ℝ) := by
    field_simp at hx
    linarith
  have h3 : r1 * 2 = RAND_MAX := by exact_mod_cast h2
  omega

theorem roundHalfEven_floor_le (q : ℚ) : ⌊q⌋ ≤ roundHalfEven q := by
  unfold roundHalfEven
  split_ifs <;> omega

theorem roundHalfEven_le_floor_succ (q : ℚ) : roundHalfEven q ≤ ⌊q⌋ + 1 := by
  unfold roundHalfEven
  split_ifs <;> omega

theorem roundHalfEven_intCast (m : ℤ) : roundHalfEven (m : ℚ) = m := by
  unfold roundHalfEven
  simp

theorem roundHalfEven_mono {p q : ℚ} (h : p ≤ q) : roundHalfEven p ≤ roundHalfEven q := by
  have hfl : ⌊p⌋ ≤ ⌊q⌋ := Int.floor_mono h
  rcases hfl.lt_or_eq with hlt | heq
  · calc roundHalfEven p ≤ ⌊p⌋ + 1 := roundHalfEven_le_floor_succ p
      _ ≤ ⌊q⌋ := hlt
      _ ≤ roundHalfEven q := roundHalfEven_floor_le q
  · unfold roundHalfEven
    rw [heq]
    split_ifs <;> first | omega | linarith

theorem two_zpow_pos (k : ℤ) : (0 : ℚ) < 2 ^ k := zpow_pos (by norm_num) k

theorem binary32Pos_eq (x : ℚ) (e : ℤ) (hx : 0 < x) (h1 : (2 : ℚ) ^ e ≤ x)
    (h2 : x < (2 : ℚ) ^ (e + 1)) :
    binary32Pos x = (roundHalfEven (x / 2 ^ (e - 23)) : ℚ) * 2 ^ (e - 23) := by
  have hlog : Int.log 2 x = e := by
    apply le_antisymm
    · have := (Int.lt_zpow_iff_log_lt (R := ℚ) (b := 2) (by norm_num) hx).mp (by exact_mod_cast h2)
      omega
    · exact (Int.zpow_le_iff_le_log (R := ℚ) (b := 2) (by norm_num) hx).mp (by exact_mod_cast h1)
  unfold binary32Pos
  rw [hlog]

theorem binary32Pos_bounds (x : ℚ) (hx : 0 < x) :
    (2 : ℚ) ^ (Int.log 2 x) ≤ binary32Pos x ∧ binary32Pos x ≤ (2 : ℚ) ^ (Int.log 2 x + 1) := by
  have h1 : (2 : ℚ) ^ (Int.log 2 x) ≤ x := by
    have := Int.zpow_log_le_self (R := ℚ) (b := 2) (by norm_num) hx
    exact_mod_cast this
  have h2 : x < (2 : ℚ) ^ (Int.log 2 x + 1) := by
    have := Int.lt_zpow_succ_log_self (R := ℚ) (b := 2) (by norm_num) x
    exact_mod_cast this
  set e := Int.log 2 x with he
  have hu : (0 : ℚ) < 2 ^ (e - 23) := two_zpow_pos _
  have e1 : (2 : ℚ) ^ e = 2 ^ (23 : ℕ) * 2 ^ (e - 23) := by
    rw [← zpow_natCast, ← zpow_add₀ (by norm_num : (2 : ℚ) ≠ 0)]
    congr 1
    omega
  have e2 : (2 : ℚ) ^ (e + 1) = 2 ^ (24 : ℕ) * 2 ^ (e - 23) := by
    rw [← zpow_natCast, ← zpow_add₀ (by norm_num : (2 : ℚ) ≠ 0)]
    congr 1
    omega
  have hq1 : (((2 ^ 23 : ℤ)) : ℚ) ≤ x / 2 ^ (e - 23) := by
    have hc : (((2 ^ 23 : ℤ)) : ℚ) = 2 ^ (23 : ℕ) := by norm_num
    rw [le_div_iff₀ hu, hc, ← e1]
    exact h1
  have hq2 : x / 2 ^ (e - 23) ≤ (((2 ^ 24 : ℤ)) : ℚ) := by
    have hc : (((2 ^ 24 : ℤ)) : ℚ) = 2 ^ (24 : ℕ) := by norm_num
    rw [div_le_iff₀ hu, hc, ← e2]
    exact h2.le
  have hr1 := roundHalfEven_mono hq1
  have hr2 := roundHalfEven_mono hq2
  rw [roundHalfEven_intCast] at hr1 hr2
  have hr1q : ((2 : ℚ) ^ (23 : ℕ)) ≤ (roundHalfEven (x / 2 ^ (e - 23)) : ℚ) := by
    exact_mod_cast hr1
  have hr2q : (roundHalfEven (x / 2 ^ (e - 23)) : ℚ) ≤ ((2 : ℚ) ^ (24 : ℕ)) := by
    exact_mod_cast hr2
  unfold binary32Pos
  rw [← he, e1, e2]
  exact ⟨mul_le_mul_of_nonneg_right hr1q hu.le, mul_le_mul_of_nonneg_right hr2q hu.le⟩

theorem binary32Pos_zero : binary32Pos 0 = 0 := by
  unfold binary32Pos
  simp [roundHalfEven]

theorem binary32Pos_pos (x : ℚ) (hx : 0 < x) : 0 < binary32Pos x :=
  lt_of_lt_of_le (two_zpow_pos _) (binary32Pos_bounds x hx).1

theorem binary32Pos_mono {x y : ℚ} (hx : 0 ≤ x) (h : x ≤ y) : binary32Pos x ≤ binary32Pos y := by
  rcases hx.lt_or_eq with hx0 | hx0
  · have hy0 : 0 < y := lt_of_lt_of_le hx0 h
    have hlog : Int.log 2 x ≤ Int.log 2 y := Int.log_mono_right hx0 h
    rcases hlog.lt_or_eq with hlt | heq
    · calc binary32Pos x ≤ (2 : ℚ) ^ (Int.log 2 x + 1) := (binary32Pos_bounds x hx0).2
        _ ≤ (2 : ℚ) ^ (Int.log 2 y) := zpow_le_zpow_right₀ (by norm_num) hlt
        _ ≤ binary32Pos y := (binary32Pos_bounds y hy0).1
    · unfold binary32Pos
      rw [heq]
      have hu : (0 : ℚ) < 2 ^ (Int.log 2 y - 23) := two_zpow_pos _
      apply mul_le_mul_of_nonneg_right _ hu.le
      have : roundHalfEven (x / 2 ^ (Int.log 2 y - 23))
          ≤ roundHalfEven (y / 2 ^ (Int.log 2 y - 23)) :=
        roundHalfEven_mono (div_le_div_of_nonneg_right h hu.le)
      exact_mod_cast this
  · rw [← hx0, binary32Pos_zero]
    rcases (hx0 ▸ h : (0 : ℚ) ≤ y).lt_or_eq with hy | hy
    · exact (binary32Pos_pos y hy).le
    · rw [← hy, binary32Pos_zero]

theorem binary32_of_nonneg {x : ℚ} (hx : 0 ≤ x) : binary32 x = binary32Pos x := by
  unfold binary32
  rw [if_pos hx]

theorem binary32_zero : binary32 0 = 0 := by
  rw [binary32_of_nonneg le_rfl, binary32Pos_zero]

theorem binary32_neg (x : ℚ) : binary32 (-x) = -binary32 x := by
  rcases lt_trichotomy x 0 with h | h | h
  · unfold binary32
    rw [if_pos (by linarith), if_neg (by linarith), neg_neg]
  · subst h
    simp [binary32_zero]
  · unfold binary32
    rw [if_neg (by linarith), if_pos h.le, neg_neg]

theorem binary32_nonneg {x : ℚ} (hx : 0 ≤ x) : 0 ≤ binary32 x := by
  rw [binary32_of_nonneg hx]
  rcases hx.lt_or_eq with h | h
  · exact (binary32Pos_pos x h).le
  · rw [← h, binary32Pos_zero]

theorem binary32_pos {x : ℚ} (hx : 0 < x) : 0 < binary32 x := by
  rw [binary32_of_nonneg hx.le]
  exact binary32Pos_pos x hx

theorem binary32_mono {x y : ℚ} (h : x ≤ y) : binary32 x ≤ binary32 y := by
  rcases le_or_lt 0 x with hx | hx
  · rw [binary32_of_nonneg hx, binary32_of_nonneg (hx.trans h)]
    exact binary32Pos_mono hx h
  · rcases le_or_lt 0 y with hy | hy
    · have h1 : binary32 x ≤ 0 := by
        have := binary32_nonneg (x := -x) (by linarith)
        rw [binary32_neg] at this
        linarith
      exact h1.trans (binary32_nonneg hy)
    · have h1 := binary32Pos_mono (x := -y) (y := -x) (by linarith) (by linarith)
      have hx2 : binary32 x = -binary32Pos (-x) := by
        unfold binary32
        rw [if_neg (by linarith)]
      have hy2 : binary32 y = -binary32Pos (-y) := by
        unfold binary32
        rw [if_neg (by linarith)]
      rw [hx2, hy2]
      linarith

theorem binary32_nonpos {x : ℚ} (hx : x ≤ 0) : binary32 x ≤ 0 := by
  have := binary32_mono hx
  rwa [binary32_zero] at this

/-- A number `m * 2 ^ (e - 23)` with a 24-bit integer `m` is a `float`. -/
theorem binary32_of_mantissa (m e : ℤ) (h1 : 2 ^ 23 ≤ m) (h2 : m < 2 ^ 24) :
    binary32 ((m : ℚ) * 2 ^ (e - 23)) = (m : ℚ) * 2 ^ (e - 23) := by
  have hu : (0 : ℚ) < 2 ^ (e - 23) := two_zpow_pos _
  have hm : (0 : ℚ) < (m : ℚ) := by
    have : (0 : ℤ) < m := by omega
    exact_mod_cast this
  have hx : (0 : ℚ) < (m : ℚ) * 2 ^ (e - 23) := mul_pos hm hu
  have e1 : (2 : ℚ) ^ e = 2 ^ (23 : ℕ) * 2 ^ (e - 23) := by
    rw [← zpow_natCast, ← zpow_add₀ (by norm_num : (2 : ℚ) ≠ 0)]
    congr 1
    omega
  have e2 : (2 : ℚ) ^ (e + 1) = 2 ^ (24 : ℕ) * 2 ^ (e - 23) := by
    rw [← zpow_natCast, ← zpow_add₀ (by norm_num : (2 : ℚ) ≠ 0)]
    congr 1
    omega
  rw [binary32_of_nonneg hx.le, binary32Pos_eq _ e hx, mul_div_assoc, div_self hu.ne.symm,
    mul_one, roundHalfEven_intCast]
  · rw [e1]
    apply mul_le_mul_of_nonneg_right _ hu.le
    exact_mod_cast h1
  · rw [e2]
    apply mul_lt_mul_of_pos_right _ hu
    exact_mod_cast h2

theorem binary32_one : binary32 1 = 1 := by
  have := binary32_of_mantissa (2 ^ 23) 0 (by norm_num) (by norm_num)
  norm_num at this
  exact this

theorem binary32_two : binary32 2 = 2 := by
  have := binary32_of_mantissa (2 ^ 23) 1 (by norm_num) (by norm_num)
  norm_num at this
  exact this

theorem binary32_half : binary32 (1 / 2) = 1 / 2 := by
  have := binary32_of_mantissa (2 ^ 23) (-1) (by norm_num) (by norm_num)
  norm_num at this
  exact this

theorem binary32_neg_one : binary32 (-1) = -1 := by
  rw [binary32_neg, binary32_one]

theorem binary32_two_pow_30 : binary32 1073741824 = 1073741824 := by
  have := binary32_of_mantissa (2 ^ 23) 30 (by norm_num) (by norm_num)
  norm_num at this
  exact this

theorem binary32_int_max : binary32 2147483647 = 2147483648 := by
  rw [binary32_of_nonneg (by norm_num), binary32Pos_eq _ 30 (by norm_num) (by norm_num)
    (by norm_num)]
  have hq : (2147483647 : ℚ) / 2 ^ ((30 : ℤ) - 23) = 16777215 + 127 / 128 := by norm_num
  have hfl : ⌊(16777215 + 127 / 128 : ℚ)⌋ = 16777215 := by
    rw [Int.floor_eq_iff]
    norm_num
  rw [hq]
  unfold roundHalfEven
  rw [hfl]
  norm_num

theorem randomf32_of_not_lt (RAND_MAX : Nat) (min max : ℚ) (h : ¬ max < min) (g : RandState) :
    ParticleSystem.randomf32 RAND_MAX min max g
      = (binary32 (binary32 (binary32 (binary32 (g.outputs g.calls : ℚ)
            / binary32 (RAND_MAX : ℚ)) * binary32 (max - min)) + min),
          { outputs := g.outputs, calls := g.calls + 1 }) := by
  simp [ParticleSystem.randomf32, rand, h]

theorem directionSample32_eq (RAND_MAX : Nat) (g : RandState) :
    ParticleSystem.directionSample32 RAND_MAX g
      = ({ x := (ParticleSystem.randomf32 RAND_MAX (-1) 1 g).1,
           y := (ParticleSystem.randomf32 RAND_MAX (-1) 1
                  { outputs := g.outputs, calls := g.calls + 1 }).1,
           z := (ParticleSystem.randomf32 RAND_MAX (-1) 0
                  { outputs := g.outputs, calls := g.calls + 2 }).1,
           w := 0 },
         { outputs := g.outputs, calls := g.calls + 3 }) := by
  have h1 : ¬ ((1 : ℚ) < -1) := by norm_num
  have h0 : ¬ ((0 : ℚ) < -1) := by norm_num
  simp [ParticleSystem.directionSample32, randomf32_of_not_lt _ _ _ h1,
    randomf32_of_not_lt _ _ _ h0]

theorem directionLoop32_getElem? (RAND_MAX : Nat) (sqrt : ℚ → ℚ) (n : Nat) (g : RandState)
    (i : Nat) (hi : i < n) :
    (ParticleSystem.directionLoop32 RAND_MAX sqrt n g)[i]?
      = some (normalize32 sqrt (ParticleSystem.directionSample32 RAND_MAX
          { outputs := g.outputs, calls := g.calls + 3 * i }).1) := by
  revert g i
  induction n with
  | zero => intro g i hi; omega
  | succ n ih =>
    intro g i hi
    cases i with
    | zero => simp [ParticleSystem.directionLoop32]
    | succ i =>
      have hg : (ParticleSystem.directionSample32 RAND_MAX g).2
          = { outputs := g.outputs, calls := g.calls + 3 } := by
        rw [directionSample32_eq]
      simp only [ParticleSystem.directionLoop32, List.getElem?_cons_succ]
      rw [ih _ i (by omega), hg]
      have hc : g.calls + 3 + 3 * i = g.calls + 3 * (i + 1) := by omega
      simp only [hc]

theorem binary32_le_one {x : ℚ} (h : x ≤ 1) : binary32 x ≤ 1 := by
  have := binary32_mono h
  rwa [binary32_one] at this

/-- The sample of `randomf(-1, 0)` is at most 0. -/
theorem randomf32_z_nonpos (RAND_MAX : Nat) (g : RandState) (hR : 0 < RAND_MAX)
    (hr : g.outputs g.calls ≤ RAND_MAX) :
    (ParticleSystem.randomf32 RAND_MAX (-1) 0 g).1 ≤ 0 := by
  have h0 : ¬ ((0 : ℚ) < -1) := by norm_num
  rw [randomf32_of_not_lt _ _ _ h0]
  simp only
  have hRq : (1 : ℚ) ≤ (RAND_MAX : ℚ) := by exact_mod_cast hR
  have hR1 : (1 : ℚ) ≤ binary32 (RAND_MAX : ℚ) := by
    have := binary32_mono hRq
    rwa [binary32_one] at this
  have hrR : binary32 (g.outputs g.calls : ℚ) ≤ binary32 (RAND_MAX : ℚ) :=
    binary32_mono (by exact_mod_cast hr)
  have hq : binary32 (g.outputs g.calls : ℚ) / binary32 (RAND_MAX : ℚ) ≤ 1 := by
    rw [div_le_one (by linarith)]
    exact hrR
  have hn : binary32 (binary32 (g.outputs g.calls : ℚ) / binary32 (RAND_MAX : ℚ)) ≤ 1 :=
    binary32_le_one hq
  have hrange : binary32 ((0 : ℚ) - -1) = 1 := by
    rw [show ((0 : ℚ) - -1) = 1 by norm_num, binary32_one]
  rw [hrange, mul_one]
  apply binary32_nonpos
  have := binary32_le_one hn
  linarith

theorem dot32_self_pos (v : Vec4 ℚ) (hv : v ≠ ⟨0, 0, 0, 0⟩) : 0 < dot32 v v := by
  obtain ⟨x, y, z, t⟩ := v
  have hx := binary32_nonneg (mul_self_nonneg x)
  have hy := binary32_nonneg (mul_self_nonneg y)
  have hz := binary32_nonneg (mul_self_nonneg z)
  have ht := binary32_nonneg (mul_self_nonneg t)
  have hxy := binary32_nonneg (add_nonneg hx hy)
  have hzt := binary32_nonneg (add_nonneg hz ht)
  simp only [dot32]
  apply binary32_pos
  by_contra hle
  have hxy0 : binary32 (binary32 (x * x) + binary32 (y * y)) = 0 := by linarith
  have hzt0 : binary32 (binary32 (z * z) + binary32 (t * t)) = 0 := by linarith
  have hpos : ∀ a : ℚ, 0 ≤ a → binary32 a = 0 → a = 0 := by
    intro a ha h
    by_contra hne
    have := binary32_pos (lt_of_le_of_ne ha (Ne.symm hne))
    linarith
  have hxy1 := hpos _ (add_nonneg hx hy) hxy0
  have hzt1 := hpos _ (add_nonneg hz ht) hzt0
  have hx0 : x * x = 0 := hpos _ (mul_self_nonneg x) (by linarith)
  have hy0 : y * y = 0 := hpos _ (mul_self_nonneg y) (by linarith)
  have hz0 : z * z = 0 := hpos _ (mul_self_nonneg z) (by linarith)
  have ht0 : t * t = 0 := hpos _ (mul_self_nonneg t) (by linarith)
  apply hv
  rw [mul_self_eq_zero] at hx0 hy0 hz0 ht0
  subst hx0 hy0 hz0 ht0
  rfl

theorem normalize32_zero (sqrt : ℚ → ℚ) (h0 : sqrt 0 = 0) :
    dot32 (⟨0, 0, 0, 0⟩ : Vec4 ℚ) ⟨0, 0, 0, 0⟩ = 0
      ∧ inversesqrt32 sqrt (dot32 (⟨0, 0, 0, 0⟩ : Vec4 ℚ) ⟨0, 0, 0, 0⟩) = none
      ∧ normalize32 sqrt ⟨0, 0, 0, 0⟩ = none := by
  have hd : dot32 (⟨0, 0, 0, 0⟩ : Vec4 ℚ) ⟨0, 0, 0, 0⟩ = 0 := by
    simp [dot32, binary32_zero]
  have hi : inversesqrt32 sqrt (dot32 (⟨0, 0, 0, 0⟩ : Vec4 ℚ) ⟨0, 0, 0, 0⟩) = none := by
    rw [hd]
    simp only [inversesqrt32, h0, if_true]
  refine ⟨hd, hi, ?_⟩
  rw [normalize32, hi]
  rfl

/-- On a vector that is not zero, `normalize` does not divide by zero and
returns a vector of numbers, each component the rounded product with the
rounded inverse square root. -/
theorem normalize32_of_ne_zero (sqrt : ℚ → ℚ) (hsqrt : ∀ x, 0 < x → 0 < sqrt x) (v : Vec4 ℚ)
    (hv : v ≠ ⟨0, 0, 0, 0⟩) :
    sqrt (dot32 v v) ≠ 0
      ∧ 0 ≤ binary32 (1 / sqrt (dot32 v v))
      ∧ normalize32 sqrt v = some
          { x := binary32 (v.x * binary32 (1 / sqrt (dot32 v v))),
            y := binary32 (v.y * binary32 (1 / sqrt (dot32 v v))),
            z := binary32 (v.z * binary32 (1 / sqrt (dot32 v v))),
            w := binary32 (v.w * binary32 (1 / sqrt (dot32 v v))) } := by
  have hd : 0 < sqrt (dot32 v v) := hsqrt _ (dot32_self_pos v hv)
  have hs : 0 ≤ binary32 (1 / sqrt (dot32 v v)) := binary32_nonneg (by positivity)
  have hi : inversesqrt32 sqrt (dot32 v v) = some (binary32 (1 / sqrt (dot32 v v))) := by
    simp only [inversesqrt32, if_neg hd.ne.symm]
  refine ⟨hd.ne.symm, hs, ?_⟩
  rw [normalize32, hi]
  rfl

theorem sqrt32_zero : sqrt32 0 = 0 := by
  simp [sqrt32, binary32_zero]

theorem sqrt32_pos (x : ℚ) (hx : 0 < x) : 0 < sqrt32 x := by
  unfold sqrt32
  apply binary32_pos
  have hnum : 0 < x.num := Rat.num_pos.mpr hx
  have hden : 0 < x.den := x.den_pos
  have hprod : 0 < x.num.toNat * x.den * 4 ^ 64 := by
    have : 0 < x.num.toNat := by omega
    positivity
  have hs : 0 < Nat.sqrt (x.num.toNat * x.den * 4 ^ 64) := Nat.sqrt_pos.mpr hprod
  have hsq : (0 : ℚ) < (Nat.sqrt (x.num.toNat * x.den * 4 ^ 64) : ℚ) := by exact_mod_cast hs
  have hdq : (0 : ℚ) < (x.den : ℚ) := by exact_mod_cast hden
  positivity

theorem directionSample32_glibc :
    (ParticleSystem.directionSample32 2147483647 glibcZeroDirection).1 = ⟨0, 0, 0, 0⟩ := by
  have h1 : ¬ ((1 : ℚ) < -1) := by norm_num
  have h0 : ¬ ((0 : ℚ) < -1) := by norm_num
  rw [directionSample32_eq]
  simp only [randomf32_of_not_lt _ _ _ h1, randomf32_of_not_lt _ _ _ h0, glibcZeroDirection]
  norm_num [binary32_two_pow_30, binary32_int_max, binary32_half, binary32_one, binary32_two,
    binary32_zero]

theorem binary32_neg_of_neg {x : ℚ} (hx : x < 0) : binary32 x < 0 := by
  have := binary32_pos (x := -x) (by linarith)
  rw [binary32_neg] at this
  linarith

/-- Every integer below `2 ^ 24` is a `float`. -/
theorem binary32_natCast (n : ℕ) (h : n < 2 ^ 24) : binary32 (n : ℚ) = n := by
  rcases Nat.eq_zero_or_pos n with h0 | hpos
  · subst h0
    simp [binary32_zero]
  · have hne : n ≠ 0 := by omega
    have he : Nat.log 2 n < 24 := Nat.log_lt_of_lt_pow hne h
    have hlo : 2 ^ Nat.log 2 n ≤ n := Nat.pow_log_le_self 2 hne
    have hhi : n < 2 ^ (Nat.log 2 n + 1) := Nat.lt_pow_succ_log_self (by norm_num) n
    set e := Nat.log 2 n with hedef
    have hsplit : 2 ^ 23 = 2 ^ e * 2 ^ (23 - e) := by
      rw [← pow_add]
      congr 1
      omega
    have hsplit2 : 2 ^ 24 = 2 ^ (e + 1) * 2 ^ (23 - e) := by
      rw [← pow_add]
      congr 1
      omega
    have hk : 0 < 2 ^ (23 - e) := by positivity
    have hm1 : (2 : ℤ) ^ 23 ≤ ((n * 2 ^ (23 - e) : ℕ) : ℤ) := by
      have : 2 ^ 23 ≤ n * 2 ^ (23 - e) := by
        rw [hsplit]
        exact Nat.mul_le_mul_right _ hlo
      exact_mod_cast this
    have hm2 : ((n * 2 ^ (23 - e) : ℕ) : ℤ) < (2 : ℤ) ^ 24 := by
      have : n * 2 ^ (23 - e) < 2 ^ 24 := by
        rw [hsplit2]
        exact Nat.mul_lt_mul_of_pos_right hhi hk
      exact_mod_cast this
    have hval : (((n * 2 ^ (23 - e) : ℕ) : ℤ) : ℚ) * 2 ^ ((e : ℤ) - 23) = (n : ℚ) := by
      have h2 : ((2 : ℚ) ^ (23 - e)) * 2 ^ ((e : ℤ) - 23) = 1 := by
        rw [← zpow_natCast, ← zpow_add₀ (by norm_num : (2 : ℚ) ≠ 0)]
        have : ((23 - e : ℕ) : ℤ) + ((e : ℤ) - 23) = 0 := by omega
        rw [this, zpow_zero]
      push_cast
      rw [mul_assoc, h2, mul_one]
    have := binary32_of_mantissa ((n * 2 ^ (23 - e) : ℕ) : ℤ) (e : ℤ) hm1 hm2
    rw [hval] at this
    exact this

theorem roundHalfEven_of_half_lt (m : ℤ) (q : ℚ) (h : (m : ℚ) + 1 / 2 < q) :
    m + 1 ≤ roundHalfEven q := by
  have hfl : m ≤ ⌊q⌋ := by
    rw [Int.le_floor]
    linarith
  rcases hfl.lt_or_eq with hlt | heq
  · exact le_trans hlt (roundHalfEven_floor_le q)
  · unfold roundHalfEven
    rw [← heq]
    have h1 : ¬ (q - (m : ℚ) < 1 / 2) := by linarith
    have h2 : 1 / 2 < q - (m : ℚ) := by linarith
    rw [if_neg h1, if_pos h2]

/-- A number above the midpoint of two neighbouring floats rounds to the upper
one or higher. -/
theorem binary32_of_half_lt (m e : ℤ) (h1 : 2 ^ 23 ≤ m) (h2 : m + 1 < 2 ^ 24) (x : ℚ)
    (hx : ((m : ℚ) + 1 / 2) * 2 ^ (e - 23) < x) :
    ((m : ℚ) + 1) * 2 ^ (e - 23) ≤ binary32 x := by
  have hu : (0 : ℚ) < 2 ^ (e - 23) := two_zpow_pos _
  have hrep : binary32 (((m + 1 : ℤ) : ℚ) * 2 ^ (e - 23)) = ((m + 1 : ℤ) : ℚ) * 2 ^ (e - 23) :=
    binary32_of_mantissa (m + 1) e (by omega) h2
  push_cast at hrep
  rcases le_or_lt (((m : ℚ) + 1) * 2 ^ (e - 23)) x with hge | hlt
  · have := binary32_mono hge
    rwa [hrep] at this
  · have hm : (0 : ℚ) < (m : ℚ) := by
      have : (0 : ℤ) < m := by omega
      exact_mod_cast this
    have hxpos : 0 < x := lt_trans (mul_pos (by linarith) hu) hx
    have e1 : (2 : ℚ) ^ e = 2 ^ (23 : ℕ) * 2 ^ (e - 23) := by
      rw [← zpow_natCast, ← zpow_add₀ (by norm_num : (2 : ℚ) ≠ 0)]
      congr 1
      omega
    have e2 : (2 : ℚ) ^ (e + 1) = 2 ^ (24 : ℕ) * 2 ^ (e - 23) := by
      rw [← zpow_natCast, ← zpow_add₀ (by norm_num : (2 : ℚ) ≠ 0)]
      congr 1
      omega
    have hmq1 : ((2 : ℚ) ^ (23 : ℕ)) ≤ (m : ℚ) := by exact_mod_cast h1
    have hmq2 : (m : ℚ) + 1 ≤ ((2 : ℚ) ^ (24 : ℕ)) := by
      have : m + 1 ≤ 2 ^ 24 := by omega
      exact_mod_cast this
    have hlo : (2 : ℚ) ^ e ≤ x := by
      rw [e1]
      have : (2 : ℚ) ^ (23 : ℕ) * 2 ^ (e - 23) ≤ ((m : ℚ) + 1 / 2) * 2 ^ (e - 23) :=
        mul_le_mul_of_nonneg_right (by linarith) hu.le
      linarith
    have hhi : x < (2 : ℚ) ^ (e + 1) := by
      rw [e2]
      have : ((m : ℚ) + 1) * 2 ^ (e - 23) ≤ (2 : ℚ) ^ (24 : ℕ) * 2 ^ (e - 23) :=
        mul_le_mul_of_nonneg_right hmq2 hu.le
      linarith
    rw [binary32_of_nonneg hxpos.le, binary32Pos_eq x e hxpos hlo hhi]
    apply mul_le_mul_of_nonneg_right _ hu.le
    have hq : (m : ℚ) + 1 / 2 < x / 2 ^ (e - 23) := by
      rw [lt_div_iff₀ hu]
      exact hx
    have := roundHalfEven_of_half_lt m _ hq
    exact_mod_cast this

/-- The sample of `randomf(-1, 1)` is not 0 when `RAND_MAX` is odd and below
`2 ^ 24`. -/
theorem randomf32_x_ne_zero (RAND_MAX : Nat) (g : RandState) (hodd : RAND_MAX % 2 = 1)
    (hsmall : RAND_MAX < 2 ^ 24) (hr : g.outputs g.calls ≤ RAND_MAX) :
    (ParticleSystem.randomf32 RAND_MAX (-1) 1 g).1 ≠ 0 := by
  have h1 : ¬ ((1 : ℚ) < -1) := by norm_num
  rw [randomf32_of_not_lt _ _ _ h1]
  simp only
  set r := g.outputs g.calls with hrdef
  rw [binary32_natCast r (by omega), binary32_natCast RAND_MAX hsmall,
    show ((1 : ℚ) - -1) = 2 by norm_num, binary32_two]
  have hRpos : (0 : ℚ) < (RAND_MAX : ℚ) := by
    have : 0 < RAND_MAX := by omega
    exact_mod_cast this
  have hRlt : (RAND_MAX : ℚ) < 16777216 := by exact_mod_cast hsmall
  have hinv : (1 : ℚ) / 16777216 < 1 / (RAND_MAX : ℚ) :=
    one_div_lt_one_div_of_lt hRpos hRlt
  rcases Nat.lt_or_ge (2 * r) RAND_MAX with hlt | hge
  · -- below one half
    have hq : (r : ℚ) / (RAND_MAX : ℚ) ≤ 16777215 / 33554432 := by
      rw [div_le_iff₀ hRpos]
      have h2 : (2 : ℚ) * r + 1 ≤ RAND_MAX := by exact_mod_cast hlt
      nlinarith
    have hc1 : binary32 (16777215 / 33554432) = 16777215 / 33554432 := by
      have := binary32_of_mantissa 16777215 (-2) (by norm_num) (by norm_num)
      norm_num at this
      exact this
    have hn := binary32_mono hq
    rw [hc1] at hn
    have hc2 : binary32 (16777215 / 16777216) = 16777215 / 16777216 := by
      have := binary32_of_mantissa 16777215 (-1) (by norm_num) (by norm_num)
      norm_num at this
      exact this
    have hn2 : binary32 (binary32 ((r : ℚ) / (RAND_MAX : ℚ)) * 2) ≤ 16777215 / 16777216 := by
      have := binary32_mono (show binary32 ((r : ℚ) / (RAND_MAX : ℚ)) * 2
        ≤ 16777215 / 16777216 by linarith)
      rwa [hc2] at this
    exact (binary32_neg_of_neg (by linarith)).ne
  · -- above one half
    have hgt : RAND_MAX < 2 * r := by omega
    have hq : ((8388608 : ℤ) + 1 / 2 : ℚ) * 2 ^ ((-1 : ℤ) - 23) < (r : ℚ) / (RAND_MAX : ℚ) := by
      rw [lt_div_iff₀ hRpos]
      have h2 : (RAND_MAX : ℚ) + 1 ≤ 2 * r := by exact_mod_cast hgt
      norm_num
      nlinarith
    have hn := binary32_of_half_lt 8388608 (-1) (by norm_num) (by norm_num) _ hq
    norm_num at hn
    have hc2 : binary32 (8388609 / 8388608) = 8388609 / 8388608 := by
      have := binary32_of_mantissa 8388609 0 (by norm_num) (by norm_num)
      norm_num at this
      exact this
    have hn2 : 8388609 / 8388608 ≤ binary32 (binary32 ((r : ℚ) / (RAND_MAX : ℚ)) * 2) := by
      have := binary32_mono (show (8388609 / 8388608 : ℚ)
        ≤ binary32 ((r : ℚ) / (RAND_MAX : ℚ)) * 2 by linarith)
      rwa [hc2] at this
    exact (binary32_pos (by linarith)).ne.symm

theorem binary32_four : binary32 4 = 4 := by
  have := binary32_natCast 4 (by norm_num)
  exact_mod_cast this

theorem binary32_neg_five : binary32 (-5) = -5 := by
  have h := binary32_natCast 5 (by norm_num)
  rw [binary32_neg]
  have h5 : binary32 5 = 5 := by exact_mod_cast h
  rw [h5]

/-- The value of `randomf(-5.0f, -1.0f)` in `float` arithmetic lies in the
closed range from -5 to -1; it is -5 when `rand()` returns 0 and -1 when it
returns `RAND_MAX`. -/
theorem randomf32_speed_range (RAND_MAX : Nat) (g : RandState) (hR : 0 < RAND_MAX)
    (hr : g.outputs g.calls ≤ RAND_MAX) :
    -5 ≤ (ParticleSystem.randomf32 RAND_MAX (-5) (-1) g).1
      ∧ (ParticleSystem.randomf32 RAND_MAX (-5) (-1) g).1 ≤ -1
      ∧ (g.outputs g.calls = 0 → (ParticleSystem.randomf32 RAND_MAX (-5) (-1) g).1 = -5)
      ∧ (g.outputs g.calls = RAND_MAX
          → (ParticleSystem.randomf32 RAND_MAX (-5) (-1) g).1 = -1) := by
  have h : ¬ ((-1 : ℚ) < -5) := by norm_num
  rw [randomf32_of_not_lt _ _ _ h]
  simp only
  have hRq : (1 : ℚ) ≤ (RAND_MAX : ℚ) := by exact_mod_cast hR
  have hR1 : (1 : ℚ) ≤ binary32 (RAND_MAX : ℚ) := by
    have := binary32_mono hRq
    rwa [binary32_one] at this
  have hr0 : 0 ≤ binary32 (g.outputs g.calls : ℚ) := binary32_nonneg (Nat.cast_nonneg _)
  have hrR : binary32 (g.outputs g.calls : ℚ) ≤ binary32 (RAND_MAX : ℚ) :=
    binary32_mono (by exact_mod_cast hr)
  have hq0 : 0 ≤ binary32 (g.outputs g.calls : ℚ) / binary32 (RAND_MAX : ℚ) :=
    div_nonneg hr0 (by linarith)
  have hq1 : binary32 (g.outputs g.calls : ℚ) / binary32 (RAND_MAX : ℚ) ≤ 1 := by
    rw [div_le_one (by linarith)]
    exact hrR
  have hn0 := binary32_nonneg hq0
  have hn1 := binary32_le_one hq1
  have hrange : binary32 ((-1 : ℚ) - -5) = 4 := by
    rw [show ((-1 : ℚ) - -5) = 4 by norm_num, binary32_four]
  rw [hrange]
  have hp0 : 0 ≤ binary32 (binary32 (binary32 (g.outputs g.calls : ℚ)
      / binary32 (RAND_MAX : ℚ)) * 4) := binary32_nonneg (by linarith)
  have hp4 : binary32 (binary32 (binary32 (g.outputs g.calls : ℚ)
      / binary32 (RAND_MAX : ℚ)) * 4) ≤ 4 := by
    have := binary32_mono (show binary32 (binary32 (g.outputs g.calls : ℚ)
      / binary32 (RAND_MAX : ℚ)) * 4 ≤ 4 by linarith)
    rwa [binary32_four] at this
  refine ⟨?_, ?_, ?_, ?_⟩
  · have := binary32_mono (show (-5 : ℚ) ≤ binary32 (binary32 (binary32 (g.outputs g.calls : ℚ)
      / binary32 (RAND_MAX : ℚ)) * 4) + -5 by linarith)
    rwa [binary32_neg_five] at this
  · have := binary32_mono (show binary32 (binary32 (binary32 (g.outputs g.calls : ℚ)
      / binary32 (RAND_MAX : ℚ)) * 4) + -5 ≤ (-1 : ℚ) by linarith)
    rwa [binary32_neg_one] at this
  · intro h0
    rw [h0]
    simp [binary32_zero, binary32_neg_five]
  · intro hmax
    rw [hmax, div_self (by linarith : binary32 (RAND_MAX : ℚ) ≠ 0), binary32_one, one_mul,
      binary32_four]
    norm_num [binary32_neg_one]

/-- With `RAND_MAX = 2 ^ 31 - 1` the value of `randomf(-5.0f, -1.0f)` in `float`
arithmetic is exactly -5 also when `rand()` returns 1: the sum `4 / 2 ^ 31 - 5`
rounds to -5. -/
theorem randomf32_speed_of_one :
    (ParticleSystem.randomf32 2147483647 (-5) (-1) (constantRand 1)).1 = -5 := by
  have h : ¬ ((-1 : ℚ) < -5) := by norm_num
  rw [randomf32_of_not_lt _ _ _ h]
  simp only [constantRand]
  have hq : binary32 (1 / 2147483648) = 1 / 2147483648 := by
    have := binary32_of_mantissa (2 ^ 23) (-31) (by norm_num) (by norm_num)
    norm_num at this
    exact this
  have hp : binary32 (1 / 536870912) = 1 / 536870912 := by
    have := binary32_of_mantissa (2 ^ 23) (-29) (by norm_num) (by norm_num)
    norm_num at this
    exact this
  have hlow : (5 : ℚ) ≤ binary32 (2684354559 / 536870912) := by
    have := binary32_of_half_lt 10485759 2 (by norm_num) (by norm_num) (2684354559 / 536870912)
      (by norm_num)
    norm_num at this
    exact this
  have hhigh : binary32 (2684354559 / 536870912) ≤ 5 := by
    have := binary32_mono (show (2684354559 / 536870912 : ℚ) ≤ 5 by norm_num)
    have h5 : binary32 5 = 5 := by
      have h := binary32_natCast 5 (by norm_num)
      exact_mod_cast h
    rwa [h5] at this
  have hval : binary32 (2684354559 / 536870912) = 5 := le_antisymm hhigh hlow
  norm_num [binary32_one, binary32_int_max, binary32_four, hq, hp, binary32_neg, hval]

theorem randomfValue_speed [LinearOrderedField α] (P : Platform α) (r : Nat) :
    ParticleSystem.randomfValue P (-5) (-1) r = (r : α) / (P.RAND_MAX : α) * 4 - 5 := by
  have h : ¬ ((-1 : α) < -5) := by norm_num
  rw [randomfValue_of_not_lt P _ _ h]
  ring

theorem speed_bounds [LinearOrderedField α] (R r : Nat) (hR : 0 < R) (hr : r ≤ R) :
    (-5 : α) ≤ (r : α) / (R : α) * 4 - 5 ∧ (r : α) / (R : α) * 4 - 5 ≤ -1
      ∧ ((-5 : α) < (r : α) / (R : α) * 4 - 5 ↔ 0 < r)
      ∧ ((r : α) / (R : α) * 4 - 5 < -1 ↔ r < R) := by
  have hRpos : (0 : α) < (R : α) := by exact_mod_cast hR
  have hq0 : (0 : α) ≤ (r : α) / (R : α) := div_nonneg (Nat.cast_nonneg r) hRpos.le
  have hq1 : (r : α) / (R : α) ≤ 1 := by
    rw [div_le_one hRpos]
    exact_mod_cast hr
  have hpos : (0 : α) < (r : α) / (R : α) ↔ 0 < r := by
    rw [div_pos_iff_of_pos_right hRpos]
    exact Nat.cast_pos
  have hlt : (r : α) / (R : α) < 1 ↔ r < R := by
    rw [div_lt_one hRpos]
    exact Nat.cast_lt
  refine ⟨by linarith, by linarith, ?_, ?_⟩
  · rw [← hpos]
    constructor <;> intro h <;> linarith
  · rw [← hlt]
    constructor <;> intro h <;> linarith

/-- C4 as stated fails at the ends of the range of `rand()`: when `rand()`
returns 0 the speed written is exactly -5, which is not strictly above -5. -/
theorem init_speed_at_lower_bound :
    (constantRand 0).outputs 0 ≤ (realPlatform 32767 Real.sqrt).RAND_MAX
      ∧ ∃ w, ∃ v : ℝ,
          ParticleSystem.ParticleSystem (realPlatform 32767 Real.sqrt) allMapped ⟨1⟩ ⟨2⟩
            (demoModel ℝ) 1 (freshContext ℝ) (constantRand 0) = some w
          ∧ w.store.speed[0]? = some (some v)
          ∧ v = -5
          ∧ ¬ (-5 < v ∧ v < -1) := by
  refine ⟨Nat.zero_le _, ?_⟩
  obtain ⟨w, hw, -, -, -, -, -, -, -, -, -, hspd, -⟩ :=
    construct_spec (realPlatform 32767 Real.sqrt) allMapped ⟨1⟩ ⟨2⟩ (demoModel ℝ) 1
      (freshContext ℝ) (constantRand 0)
      (fun _ => by simp [sourcePool, demoModel, demoMeshA, demoMeshB])
      (fun _ _ => by simp [demoModel])
  have hv : ParticleSystem.randomfValue (realPlatform 32767 Real.sqrt) (-5) (-1)
      ((constantRand 0).outputs ((constantRand 0).calls + dirCalls allMapped 1 + 0)) = -5 := by
    rw [randomfValue_speed]
    simp [constantRand]
  refine ⟨w, _, hw, ?_, hv, ?_⟩
  · rw [hspd]
    simp only [allMapped, if_true]
    rw [writeAll_replicate_getElem? _ _ _ (by norm_num)]
  · rw [hv]
    norm_num

theorem speed_value_bounds [LinearOrderedField α] (P : Platform α) (r : Nat)
    (hR : 0 < P.RAND_MAX) (hr : r ≤ P.RAND_MAX) :
    -5 ≤ ParticleSystem.randomfValue P (-5) (-1) r
      ∧ ParticleSystem.randomfValue P (-5) (-1) r ≤ -1
      ∧ (r = 0 → ParticleSystem.randomfValue P (-5) (-1) r = -5)
      ∧ (r = P.RAND_MAX → ParticleSystem.randomfValue P (-5) (-1) r = -1) := by
  obtain ⟨h1, h2, -, -⟩ := speed_bounds (α := α) P.RAND_MAX r hR hr
  have hRne : (P.RAND_MAX : α) ≠ 0 := by
    have : P.RAND_MAX ≠ 0 := by omega
    exact_mod_cast this
  rw [randomfValue_speed]
  refine ⟨h1, h2, ?_, ?_⟩
  · intro h0
    rw [h0]
    simp
  · intro hmax
    rw [hmax, div_self hRne]
    norm_num

/-- C4, amended: with `RAND_MAX > 0`, every `rand()` output in `[0, RAND_MAX]`
and a successful speed mapping, the speed block of `init()` (ParticleSystem.cpp
66-79) returns from every state it is entered in, and every speed cell
`i < maxParticles` it writes lies in the closed range `-5 ≤ speed[i] ≤ -1`; the
cell is exactly -5 when its call of `rand()` returned 0 and exactly -1 when it
returned `RAND_MAX`.  The same holds of the speed cells of every store that the
constructor returns. -/
theorem init_speed_range [LinearOrderedField α] (P : Platform α) (o : MapOutcomes)
    (vf cs : Shader) (model : Model α) (maxParticles : Nat) (gl : GLContext α)
    (rng : RandState) (hmap : o.speed = true) (hR : 0 < P.RAND_MAX)
    (hout : ∀ k, rng.outputs k ≤ P.RAND_MAX) :
    (∀ w0 : World α, w0.rng = rng →
        ∃ w1, ParticleSystem.initSpeeds P o w0 = some w1
          ∧ ∀ i, i < w0.self.maxParticles →
              ∃ r v, r = rng.outputs (rng.calls + i)
                ∧ w1.store.speed[i]? = some (some v)
                ∧ -5 ≤ v ∧ v ≤ -1 ∧ (r = 0 → v = -5) ∧ (r = P.RAND_MAX → v = -1))
      ∧ ∀ w, ParticleSystem.ParticleSystem P o vf cs model maxParticles gl rng = some w →
          ∀ i, i < maxParticles →
            ∃ r v, r = rng.outputs (rng.calls + dirCalls o maxParticles + i)
              ∧ w.store.speed[i]? = some (some v)
              ∧ -5 ≤ v ∧ v ≤ -1 ∧ (r = 0 → v = -5) ∧ (r = P.RAND_MAX → v = -1) := by
  constructor
  · intro w0 hw0
    refine ⟨_, initSpeeds_eq P o w0, fun i hi => ?_⟩
    obtain ⟨h1, h2, h3, h4⟩ := speed_value_bounds P (rng.outputs (rng.calls + i)) hR (hout _)
    refine ⟨_, _, rfl, ?_, h1, h2, h3, h4⟩
    show (if o.speed = true then _ else _)[i]? = _
    rw [if_pos hmap, writeAll_replicate_getElem? _ _ _ hi, hw0]
  · intro w hw i hi
    have hsome : (ParticleSystem.ParticleSystem P o vf cs model maxParticles gl rng).isSome
        = true := by
      rw [hw]
      rfl
    obtain ⟨hpos, hcol⟩ := (construct_isSome_iff P o vf cs model maxParticles gl rng).mp hsome
    obtain ⟨w2, hw2, -, -, -, -, -, -, -, -, -, hspd, -⟩ :=
      construct_spec P o vf cs model maxParticles gl rng hpos hcol
    have hww : w = w2 := by
      rw [hw] at hw2
      exact Option.some.inj hw2
    subst hww
    obtain ⟨h1, h2, h3, h4⟩ := speed_value_bounds P
      (rng.outputs (rng.calls + dirCalls o maxParticles + i)) hR (hout _)
    refine ⟨_, _, rfl, ?_, h1, h2, h3, h4⟩
    rw [hspd, hmap, if_pos rfl, writeAll_replicate_getElem? _ _ _ hi]

/-- C4, amended, at the demo model with `RAND_MAX = 32767` and every `rand()`
returning 32767: the constructor returns and the three speeds are exactly -1,
the upper end of the range. -/
theorem init_speed_range_witness :
    allMapped.speed = true
      ∧ 0 < (realPlatform 32767 Real.sqrt).RAND_MAX
      ∧ (∀ k, (constantRand 32767).outputs k ≤ (realPlatform 32767 Real.sqrt).RAND_MAX)
      ∧ ∃ w, ParticleSystem.ParticleSystem (realPlatform 32767 Real.sqrt) allMapped ⟨1⟩ ⟨2⟩
            (demoModel ℝ) 3 (freshContext ℝ) (constantRand 32767) = some w
          ∧ ∀ i, i < 3 →
              ∃ v : ℝ, w.store.speed[i]? = some (some v) ∧ v = -1 := by
  have hR : 0 < (realPlatform 32767 Real.sqrt).RAND_MAX := by
    show 0 < 32767
    norm_num
  have hout : ∀ k, (constantRand 32767).outputs k
      ≤ (realPlatform 32767 Real.sqrt).RAND_MAX := fun _ => le_refl _
  obtain ⟨w, hw, -⟩ :=
    construct_spec (realPlatform 32767 Real.sqrt) allMapped ⟨1⟩ ⟨2⟩ (demoModel ℝ) 3
      (freshContext ℝ) (constantRand 32767)
      (fun _ => by simp [sourcePool, demoModel, demoMeshA, demoMeshB])
      (fun _ _ => by simp [demoModel])
  refine ⟨rfl, hR, hout, w, hw, fun i hi => ?_⟩
  obtain ⟨r, v, hr, hv, -, -, -, hmax⟩ :=
    (init_speed_range (realPlatform 32767 Real.sqrt) allMapped ⟨1⟩ ⟨2⟩ (demoModel ℝ) 3
      (freshContext ℝ) (constantRand 32767) rfl hR hout).2 w hw i hi
  exact ⟨v, hv, hmax hr⟩

theorem processVertices_length [LinearOrder α] [Zero α] (mesh : aiMesh α) (k : Nat)
    (s t : Vec3 α × Vec3 α × List (Vertex α))
    (h : Model.processVertices mesh k s = some t) :
    t.2.2.length = s.2.2.length + k
      ∧ t.2.2.map (fun v => v.Position) = s.2.2.map (fun v => v.Position) ++ mesh.mVertices.take k := by
  induction k generalizing t with
  | zero =>
    simp only [Model.processVertices, Option.some.injEq] at h
    subst h
    simp
  | succ k ih =>
    simp only [Model.processVertices, Option.bind_eq_bind, Option.bind_eq_some] at h
    obtain ⟨⟨minB, maxB, vertices⟩, hprev, p, hp, nrm, -, tex, -, ht⟩ := h
    simp only [Option.some.injEq] at ht
    subst ht
    obtain ⟨h1, h2⟩ := ih _ hprev
    simp only at h1 h2
    refine ⟨by simp [h1]; omega, ?_⟩
    have hk : k < mesh.mVertices.length := by
      by_contra hge
      rw [List.getElem?_eq_none (by omega)] at hp
      cases hp
    rw [List.getElem?_eq_getElem hk] at hp
    cases hp
    rw [List.map_append, h2, List.take_succ, List.getElem?_eq_getElem hk, List.append_assoc]
    rfl

theorem processMesh_spec [LinearOrder α] [Zero α] (mesh : aiMesh α) (scene : aiScene α)
    (self self1 : Model α) (m : Mesh α)
    (h : Model.processMesh mesh scene self = some (m, self1)) :
    m.vertices.length = mesh.mNumVertices
      ∧ self1.totalVertices = (self.totalVertices + mesh.mNumVertices) % 2 ^ 32
      ∧ self1.meshes = self.meshes := by
  simp only [Model.processMesh, Option.pure_def, Option.bind_eq_bind, Option.bind_eq_some] at h
  obtain ⟨⟨minB, maxB, vertices⟩, hv, material, -, hres⟩ := h
  simp only [Option.some.injEq, Prod.mk.injEq] at hres
  obtain ⟨hm, hs⟩ := hres
  subst hm hs
  have hlen := (processVertices_length mesh _ _ _ hv).1
  simp only [List.length_nil, Nat.zero_add] at hlen
  exact ⟨hlen, rfl, rfl⟩

theorem totalTracksPool_push [LinearOrder α] [Zero α] (g : Nat) (mesh : aiMesh α)
    (scene : aiScene α) (self self1 : Model α) (m : Mesh α)
    (hinv : totalTracksPool g self)
    (h : Model.processMesh mesh scene self = some (m, self1)) :
    totalTracksPool g { self1 with meshes := self1.meshes ++ [m] } := by
  obtain ⟨hlen, htot, hmeshes⟩ := processMesh_spec mesh scene self self1 m h
  unfold totalTracksPool at hinv ⊢
  simp only [sourcePool, hmeshes, List.flatMap_append, List.flatMap_cons, List.flatMap_nil,
    List.append_nil, List.length_append, List.length_map, hlen] at hinv ⊢
  rw [htot, hinv]
  omega

theorem processNodeMeshes_inv [LinearOrder α] [Zero α] (g : Nat) (scene : aiScene α)
    (idxs : List Nat) (self self1 : Model α) (hinv : totalTracksPool g self)
    (h : Model.processNodeMeshes scene idxs self = some self1) :
    totalTracksPool g self1 := by
  induction idxs generalizing self with
  | nil =>
    simp only [Model.processNodeMeshes, Option.some.injEq] at h
    subst h
    exact hinv
  | cons idx rest ih =>
    simp only [Model.processNodeMeshes, Option.bind_eq_bind, Option.bind_eq_some] at h
    obtain ⟨mesh, -, ⟨m, s1⟩, hpm, hrest⟩ := h
    exact ih _ (totalTracksPool_push g mesh scene self s1 m hinv hpm) hrest

mutual
theorem processNode_inv [LinearOrder α] [Zero α] (g : Nat) (scene : aiScene α) :
    ∀ (node : aiNode) (self self1 : Model α), totalTracksPool g self →
      Model.processNode scene node self = some self1 → totalTracksPool g self1
  | .mk mMeshes mChildren, self, self1, hinv, h => by
    simp only [Model.processNode, Option.bind_eq_bind, Option.bind_eq_some] at h
    obtain ⟨s1, h1, h2⟩ := h
    exact processChildren_inv g scene mChildren s1 self1
      (processNodeMeshes_inv g scene mMeshes self s1 hinv h1) h2
theorem processChildren_inv [LinearOrder α] [Zero α] (g : Nat) (scene : aiScene α) :
    ∀ (children : List aiNode) (self self1 : Model α), totalTracksPool g self →
      Model.processChildren scene children self = some self1 → totalTracksPool g self1
  | [], self, self1, hinv, h => by
    simp only [Model.processChildren, Option.some.injEq] at h
    subst h
    exact hinv
  | c :: cs, self, self1, hinv, h => by
    simp only [Model.processChildren, Option.bind_eq_bind, Option.bind_eq_some] at h
    obtain ⟨s1, h1, h2⟩ := h
    exact processChildren_inv g scene cs s1 self1 (processNode_inv g scene c self s1 hinv h1) h2
end

/-- What the constructor of `Model` leaves in `totalVertices`: the value the
member held before (`garbageTotal`) plus the length of the source pool, in
`unsigned int`. -/
theorem Model_totalVertices [LinearOrderedField α] (FLT_MAX : α) (garbageTotal : Nat)
    (garbageCenter : Vec3 α) (scene : Option (aiScene α)) (m : Model α)
    (h : Model.Model FLT_MAX garbageTotal garbageCenter scene = some m) :
    m.totalVertices = (garbageTotal + (sourcePool m).length) % 2 ^ 32 := by
  unfold Model.Model Model.loadModel at h
  cases scene with
  | none =>
    simp only [Option.some.injEq] at h
    subst h
    simp [sourcePool]
  | some sc =>
    simp only [Option.bind_eq_bind, Option.bind_eq_some, Option.some.injEq] at h
    obtain ⟨s1, h1, h2⟩ := h
    have hinv := processNode_inv garbageTotal sc sc.mRootNode _ s1
      (by simp [totalTracksPool, sourcePool]) h1
    subst h2
    simpa [totalTracksPool, sourcePool] using hinv

theorem triangleScene_meshes (garbageTotal : Nat) (garbageCenter : Vec3 ℝ) :
    ∃ m, Model.Model (FLT_MAX ℝ) garbageTotal garbageCenter (some (triangleScene ℝ)) = some m
      ∧ m.meshes.map (fun mesh => mesh.vertices.map fun v => v.Position)
          = [[⟨0, 0, 0⟩, ⟨1, 0, 0⟩, ⟨0, 1, 0⟩]] := by
  simp [Model.Model, Model.loadModel, Model.processNode, Model.processChildren,
    Model.processNodeMeshes, Model.processMesh, Model.processVertices, triangleScene,
    aiMesh.mNumVertices, Model.texCoords, aiMaterial.Get]

theorem sourcePool_length (model : Model α) :
    (sourcePool model).length = (model.meshes.map fun mesh => mesh.vertices.length).sum := by
  simp [sourcePool, List.flatMap_def, List.length_flatten, Function.comp_def]

/-- C6 at a failing input. `Model` never initialises `totalVertices`, so
`processMesh` adds the vertex counts to whatever the member held. With the
triangle scene and the member holding 7 when the constructor starts, the loaded
model has one mesh of three vertices (pool length 3), `totalVertices` is 10,
and the store that `main` builds with that capacity reads `verticesTotal[3]`,
outside the pool. -/
theorem main_capacity_exceeds_pool :
    ∃ m, Model.Model (FLT_MAX ℝ) 7 ⟨0, 0, 0⟩ (some (triangleScene ℝ)) = some m
      ∧ (m.meshes.map fun mesh => mesh.vertices.length).sum = 3
      ∧ (sourcePool m).length = 3
      ∧ m.totalVertices = 10
      ∧ ParticleSystem.ParticleSystem (realPlatform 32767 Real.sqrt) allMapped ⟨1⟩ ⟨2⟩ m
          m.totalVertices (freshContext ℝ) (constantRand 5) = none
      ∧ main.particleSystem (realPlatform 32767 Real.sqrt) allMapped (FLT_MAX ℝ) 7 ⟨0, 0, 0⟩
          (some (triangleScene ℝ)) ⟨1⟩ ⟨2⟩ (freshContext ℝ) (constantRand 5) = none := by
  obtain ⟨m, hm, hmesh⟩ := triangleScene_meshes 7 ⟨0, 0, 0⟩
  have hpool : (sourcePool m).length = 3 := by
    have : sourcePool m = (m.meshes.map fun mesh => mesh.vertices.map fun v => v.Position).flatten := by
      simp [sourcePool, List.flatMap_def]
    rw [this, hmesh]
    rfl
  have htot : m.totalVertices = 10 := by
    rw [Model_totalVertices _ _ _ _ _ hm, hpool]
    norm_num
  have hnone : ParticleSystem.ParticleSystem (realPlatform 32767 Real.sqrt) allMapped ⟨1⟩ ⟨2⟩ m
      m.totalVertices (freshContext ℝ) (constantRand 5) = none := by
    rw [← Option.not_isSome_iff_eq_none, construct_isSome_iff]
    intro hc
    have := hc.1 rfl
    omega
  refine ⟨m, hm, ?_, hpool, htot, hnone, ?_⟩
  · rw [← sourcePool_length, hpool]
  · simp only [main.particleSystem, hm, Option.bind_eq_bind, Option.some_bind, hnone,
      Option.none_bind]

/-- C11. With `RAND_MAX > 0`, every `rand()` output in `[0, RAND_MAX]`, the pool
long enough for `init()` to return and a successful speed mapping, every speed
cell `i < maxParticles` satisfies `-5 ≤ speed[i] ≤ -1`, and so is negative. -/
theorem init_speed_closed_range [LinearOrderedField α] (P : Platform α) (o : MapOutcomes)
    (vf cs : Shader) (model : Model α) (maxParticles : Nat) (gl : GLContext α)
    (rng : RandState) (hcap : maxParticles ≤ (sourcePool model).length)
    (hmap : o.speed = true) (hR : 0 < P.RAND_MAX) (hout : ∀ k, rng.outputs k ≤ P.RAND_MAX) :
    ∃ w, ParticleSystem.ParticleSystem P o vf cs model maxParticles gl rng = some w
      ∧ ∀ i, i < maxParticles →
          ∃ v, w.store.speed[i]? = some (some v) ∧ -5 ≤ v ∧ v ≤ -1 ∧ v < 0 := by
  obtain ⟨w, hw, -, -, -, -, -, -, -, -, -, hspd, -⟩ :=
    construct_spec P o vf cs model maxParticles gl rng
      (fun _ => hcap) (fun _ hn => sourcePool_ne_nil_of_pos model maxParticles hn hcap)
  refine ⟨w, hw, fun i hi => ?_⟩
  obtain ⟨h1, h2, -, -⟩ := speed_bounds (α := α) P.RAND_MAX
    (rng.outputs (rng.calls + dirCalls o maxParticles + i)) hR (hout _)
  refine ⟨_, ?_, h1, h2, by linarith⟩
  rw [hspd, hmap, if_pos rfl, writeAll_replicate_getElem? _ _ _ hi, randomfValue_speed]

/-- C11 at the demo model with `RAND_MAX = 32767` and every `rand()` returning
32767: the three speeds are within `[-5, -1]` (here exactly -1). -/
theorem init_speed_closed_range_witness :
    3 ≤ (sourcePool (demoModel ℝ)).length ∧ allMapped.speed = true
      ∧ 0 < (realPlatform 32767 Real.sqrt).RAND_MAX
      ∧ (∀ k, (constantRand 32767).outputs k ≤ (realPlatform 32767 Real.sqrt).RAND_MAX)
      ∧ ∃ w, ParticleSystem.ParticleSystem (realPlatform 32767 Real.sqrt) allMapped ⟨1⟩ ⟨2⟩
            (demoModel ℝ) 3 (freshContext ℝ) (constantRand 32767) = some w
          ∧ ∀ i, i < 3 →
              ∃ v : ℝ, w.store.speed[i]? = some (some v) ∧ -5 ≤ v ∧ v ≤ -1 ∧ v < 0 :=
  ⟨by simp [sourcePool, demoModel, demoMeshA, demoMeshB], rfl,
    by show 0 < 32767; norm_num, fun _ => le_refl _,
    init_speed_closed_range (realPlatform 32767 Real.sqrt) allMapped ⟨1⟩ ⟨2⟩ (demoModel ℝ) 3
      (freshContext ℝ) (constantRand 32767)
      (by simp [sourcePool, demoModel, demoMeshA, demoMeshB]) rfl
      (by show 0 < 32767; norm_num) (fun _ => le_refl _)⟩

/-- C12. Two stores constructed over the same model with the same capacity, both
with successful position and colour mappings, in any two OpenGL contexts and
from any two states of the random generator, hold the same position array and
the same colour array, every cell below `maxParticles` being written. -/
theorem init_position_color_ignore_rand [LinearOrderedField α] (P : Platform α)
    (o : MapOutcomes) (vf cs : Shader) (model : Model α) (maxParticles : Nat)
    (gl1 gl2 : GLContext α) (rng1 rng2 : RandState)
    (hcap : maxParticles ≤ (sourcePool model).length)
    (hpos : o.pos = true) (hcol : o.color = true) :
    ∃ w1 w2, ParticleSystem.ParticleSystem P o vf cs model maxParticles gl1 rng1 = some w1
      ∧ ParticleSystem.ParticleSystem P o vf cs model maxParticles gl2 rng2 = some w2
      ∧ w1.store.position = w2.store.position
      ∧ w1.store.color = w2.store.color
      ∧ ∀ i, i < maxParticles →
          (∃ p, w1.store.position[i]? = some (some p))
            ∧ (∃ c, w1.store.color[i]? = some (some c)) := by
  obtain ⟨w1, hw1, -, -, -, -, -, -, -, hp1, -, -, hc1, -⟩ :=
    construct_spec P o vf cs model maxParticles gl1 rng1
      (fun _ => hcap) (fun _ hn => sourcePool_ne_nil_of_pos model maxParticles hn hcap)
  obtain ⟨w2, hw2, -, -, -, -, -, -, -, hp2, -, -, hc2, -⟩ :=
    construct_spec P o vf cs model maxParticles gl2 rng2
      (fun _ => hcap) (fun _ hn => sourcePool_ne_nil_of_pos model maxParticles hn hcap)
  refine ⟨w1, w2, hw1, hw2, by rw [hp1, hp2], by rw [hc1, hc2], fun i hi => ⟨?_, ?_⟩⟩
  · have hlt : i < (sourcePool model).length := by omega
    refine ⟨{ x := ((sourcePool model)[i]).x, y := ((sourcePool model)[i]).y,
              z := ((sourcePool model)[i]).z, w := 1 }, ?_⟩
    rw [hp1, hpos, if_pos rfl, writeAll_replicate_getElem? _ _ _ hi,
      List.getElem?_eq_getElem hlt]
    rfl
  · have hne := sourcePool_ne_nil_of_pos model maxParticles (by omega) hcap
    obtain ⟨m, ms, hm⟩ := List.exists_cons_of_ne_nil hne
    refine ⟨{ x := m.material.diffuse.x, y := m.material.diffuse.y,
              z := m.material.diffuse.z, w := 1 }, ?_⟩
    rw [hc1, hcol, if_pos rfl, writeAll_replicate_getElem? _ _ _ hi]
    simp [hm]

/-- C12 at the demo model with capacity 3: a generator that always returns 5 and
one that always returns 32767, in two different contexts. -/
theorem init_position_color_ignore_rand_witness :
    3 ≤ (sourcePool (demoModel ℝ)).length ∧ allMapped.pos = true ∧ allMapped.color = true
      ∧ ∃ w1 w2, ParticleSystem.ParticleSystem (realPlatform 32767 Real.sqrt) allMapped ⟨1⟩ ⟨2⟩
            (demoModel ℝ) 3 (freshContext ℝ) (constantRand 5) = some w1
          ∧ ParticleSystem.ParticleSystem (realPlatform 32767 Real.sqrt) allMapped ⟨1⟩ ⟨2⟩
            (demoModel ℝ) 3 { trace := [], nextName := 40 } (constantRand 32767) = some w2
          ∧ w1.store.position = w2.store.position
          ∧ w1.store.color = w2.store.color
          ∧ ∀ i, i < 3 →
              (∃ p, w1.store.position[i]? = some (some p))
                ∧ (∃ c, w1.store.color[i]? = some (some c)) :=
  ⟨by simp [sourcePool, demoModel, demoMeshA, demoMeshB], rfl, rfl,
    init_position_color_ignore_rand (realPlatform 32767 Real.sqrt) allMapped ⟨1⟩ ⟨2⟩
      (demoModel ℝ) 3 (freshContext ℝ) { trace := [], nextName := 40 } (constantRand 5)
      (constantRand 32767) (by simp [sourcePool, demoModel, demoMeshA, demoMeshB]) rfl rfl⟩

/-- C13. With `maxParticles = 0`, for every model (one without meshes included)
and every combination of mapping outcomes: the constructor returns, so no pool
entry and no `model.meshes[0]` was read; its five `glBufferData` calls ask for
0 bytes and its five mappings for length 0; the five stores have no cell; no
`rand()` call was made; `update` dispatches 0 work-groups; and `draw` issues a
draw of 0 points. -/
theorem zero_capacity [LinearOrderedField α] (P : Platform α) (o : MapOutcomes)
    (vf cs : Shader) (model : Model α) (gl : GLContext α) (rng : RandState)
    (deltaTime particle_size : α) (projection view : Mat4 α) :
    ∃ w, ParticleSystem.ParticleSystem P o vf cs model 0 gl rng = some w
      ∧ (w.gl.trace.drop gl.trace.length).filterMap GLCmd.bufferDataSize = [0, 0, 0, 0, 0]
      ∧ (w.gl.trace.drop gl.trace.length).filterMap GLCmd.mapLength = [0, 0, 0, 0, 0]
      ∧ w.store.position = [] ∧ w.store.direction = [] ∧ w.store.speed = []
      ∧ w.store.color = [] ∧ w.store.active = []
      ∧ w.rng = rng
      ∧ (ParticleSystem.update deltaTime w).gl.trace = w.gl.trace ++
          [ .UseProgram cs.ID, .Uniform1f cs.ID "deltaTime" deltaTime,
            .Uniform3fv cs.ID "modelCenter" model.modelCenter,
            .DispatchCompute 0 1 1, .MemoryBarrier GL_SHADER_STORAGE_BARRIER_BIT ]
      ∧ (ParticleSystem.draw particle_size projection view w).gl.trace = w.gl.trace ++
          [ .UseProgram vf.ID, .BindVertexArray w.self.VAO,
            .UniformMatrix4fv vf.ID "proj" projection,
            .UniformMatrix4fv vf.ID "view" view,
            .PointSize particle_size, .DrawArrays GL_POINTS 0 0 ] := by
  obtain ⟨w, hw, hn, hm, hvf, hcs, -, hgl, hrng, hposn, hdir, hspd, hcolr, hact⟩ :=
    construct_spec P o vf cs model 0 gl rng (fun _ => Nat.zero_le _)
      (fun _ h => absurd h (Nat.lt_irrefl 0))
  have hg : dispatchGroups 0 = 0 := by decide
  have hz : toGLsizei 0 = 0 := by decide
  refine ⟨w, hw, ?_, ?_, ?_, ?_, ?_, ?_, ?_, ?_, ?_, ?_⟩
  · rw [hgl, initContext_trace, List.drop_left]
    simp [initCommands, initContext, mapPhase, bindingTrace, GLCmd.bufferDataSize, byteSize]
  · rw [hgl, initContext_trace, List.drop_left]
    simp [initCommands, initContext, mapPhase, bindingTrace, GLCmd.mapLength, byteSize]
  · rw [hposn]; cases o.pos <;> simp [writeAll]
  · rw [hdir]; cases o.dir <;> simp [writeAll]
  · rw [hspd]; cases o.speed <;> simp [writeAll]
  · rw [hcolr]; cases o.color <;> simp [writeAll]
  · rw [hact]; cases o.active <;> simp [writeAll]
  · rw [hrng]
    cases o.dir <;> cases o.speed <;> simp [dirCalls]
  · rw [update_trace]
    simp [updateCommands, hn, hm, hcs, hg]
  · rw [draw_trace, hn, hvf, hz]

theorem directionSample32_of_zero (RAND_MAX : Nat) (g : RandState)
    (h : ∀ k, g.outputs k = 0) :
    (ParticleSystem.directionSample32 RAND_MAX g).1 = ⟨-1, -1, -1, 0⟩ := by
  have h1 : ¬ ((1 : ℚ) < -1) := by norm_num
  have h0 : ¬ ((0 : ℚ) < -1) := by norm_num
  rw [directionSample32_eq]
  simp only [randomf32_of_not_lt _ _ _ h1, randomf32_of_not_lt _ _ _ h0, h]
  norm_num [binary32_zero, binary32_neg_one]

/-- C16.  In the `float` arithmetic of the compiled code, with `RAND_MAX > 0`,
every `rand()` output in `[0, RAND_MAX]` and a library square root that is
positive at positive arguments: for every `i < maxParticles` whose
pre-normalisation vector `v` (ParticleSystem.cpp 58-62, built from the outputs
`3 i`, `3 i + 1`, `3 i + 2` of `rand()`) is not the zero vector, what the
direction loop stores in `dir_array[i]` is a vector of numbers with `w`
component exactly 0 and `z` component at most 0. -/
theorem init_direction_w_zero_z_nonpos (RAND_MAX : Nat) (sqrt : ℚ → ℚ) (maxParticles : Nat)
    (g : RandState) (hR : 0 < RAND_MAX) (hout : ∀ k, g.outputs k ≤ RAND_MAX)
    (hsqrt : ∀ x, 0 < x → 0 < sqrt x) :
    ∀ i, i < maxParticles →
      (ParticleSystem.directionSample32 RAND_MAX
          { outputs := g.outputs, calls := g.calls + 3 * i }).1 ≠ ⟨0, 0, 0, 0⟩ →
        ∃ d, (ParticleSystem.directionLoop32 RAND_MAX sqrt maxParticles g)[i]? = some (some d)
          ∧ d.w = 0 ∧ d.z ≤ 0 := by
  intro i hi hne
  have hz : (ParticleSystem.directionSample32 RAND_MAX
      { outputs := g.outputs, calls := g.calls + 3 * i }).1.z ≤ 0 := by
    rw [directionSample32_eq]
    exact randomf32_z_nonpos RAND_MAX _ hR (hout _)
  have hw : (ParticleSystem.directionSample32 RAND_MAX
      { outputs := g.outputs, calls := g.calls + 3 * i }).1.w = 0 := by
    rw [directionSample32_eq]
  obtain ⟨-, hs, hd⟩ := normalize32_of_ne_zero sqrt hsqrt _ hne
  refine ⟨_, by rw [directionLoop32_getElem? _ _ _ _ _ hi, hd], ?_, ?_⟩
  · simp only [hw, zero_mul, binary32_zero]
  · exact binary32_nonpos (mul_nonpos_of_nonpos_of_nonneg hz hs)

/-- C16 with `RAND_MAX = 2 ^ 31 - 1` and every `rand()` returning 0: the vector
before normalisation is `(-1, -1, -1, 0)`, and the direction stored has `w = 0`
and `z ≤ 0`. -/
theorem init_direction_w_zero_z_nonpos_witness :
    0 < 2147483647 ∧ (∀ k, (constantRand 0).outputs k ≤ 2147483647)
      ∧ (∀ x, 0 < x → 0 < sqrt32 x)
      ∧ (ParticleSystem.directionSample32 2147483647 (constantRand 0)).1 = ⟨-1, -1, -1, 0⟩
      ∧ ∃ d, (ParticleSystem.directionLoop32 2147483647 sqrt32 1 (constantRand 0))[0]?
            = some (some d)
          ∧ d.w = 0 ∧ d.z ≤ 0 := by
  have hout : ∀ k, (constantRand 0).outputs k ≤ 2147483647 := fun _ => Nat.zero_le _
  refine ⟨by norm_num, hout, sqrt32_pos, directionSample32_of_zero _ _ (fun _ => rfl), ?_⟩
  refine init_direction_w_zero_z_nonpos 2147483647 sqrt32 1 (constantRand 0) (by norm_num)
    hout sqrt32_pos 0 (by norm_num) ?_
  rw [directionSample32_of_zero _ _ (fun _ => rfl)]
  intro h
  have hx := congrArg Vec4.x h
  norm_num at hx

/-- C17 as stated fails on the compiled code: `RAND_MAX = 2 ^ 31 - 1` is odd,
yet with `rand()` returning `2 ^ 30`, `2 ^ 30`, `2 ^ 31 - 1` the vector passed
to `normalize` is the zero vector in `float` arithmetic (`(float)RAND_MAX` is
`2 ^ 31`, so `x = (2 ^ 30 / 2 ^ 31) * 2 - 1 = 0`), and `inversesqrt` divides by
`sqrt(0) = 0`. -/
theorem init_direction_zero_of_odd :
    2147483647 % 2 = 1
      ∧ (∀ k, glibcZeroDirection.outputs k ≤ 2147483647)
      ∧ binary32 2147483647 = 2147483648
      ∧ (ParticleSystem.directionSample32 2147483647 glibcZeroDirection).1 = ⟨0, 0, 0, 0⟩
      ∧ sqrt32 (dot32 (ParticleSystem.directionSample32 2147483647 glibcZeroDirection).1
          (ParticleSystem.directionSample32 2147483647 glibcZeroDirection).1) = 0
      ∧ inversesqrt32 sqrt32
          (dot32 (ParticleSystem.directionSample32 2147483647 glibcZeroDirection).1
            (ParticleSystem.directionSample32 2147483647 glibcZeroDirection).1) = none := by
  obtain ⟨hd, hi, -⟩ := normalize32_zero sqrt32 sqrt32_zero
  refine ⟨by norm_num, ?_, binary32_int_max, directionSample32_glibc, ?_, ?_⟩
  · intro k
    simp only [glibcZeroDirection]
    split <;> norm_num
  · rw [directionSample32_glibc, hd, sqrt32_zero]
  · rw [directionSample32_glibc, hi]

/-- C17, amended: if `RAND_MAX` is odd and below `2 ^ 24` (so that
`(float)rand()` and `(float)RAND_MAX` are exact), every `rand()` output is in
`[0, RAND_MAX]` and the library square root is positive at positive arguments,
then for every `i < maxParticles` the vector `v` that the direction loop
passes to `normalize` is not the zero vector in `float` arithmetic, its `x`
component being not 0; so `sqrt(dot(v, v))`, by which `normalize` divides, is
not 0, and what is stored in `dir_array[i]` is a vector of numbers. -/
theorem init_direction_never_zero_of_odd (RAND_MAX : Nat) (sqrt : ℚ → ℚ) (maxParticles : Nat)
    (g : RandState) (hodd : RAND_MAX % 2 = 1) (hsmall : RAND_MAX < 2 ^ 24)
    (hout : ∀ k, g.outputs k ≤ RAND_MAX) (hsqrt : ∀ x, 0 < x → 0 < sqrt x) :
    ∀ i, i < maxParticles →
      ∃ v d, v = (ParticleSystem.directionSample32 RAND_MAX
                    { outputs := g.outputs, calls := g.calls + 3 * i }).1
        ∧ v.x ≠ 0
        ∧ v ≠ ⟨0, 0, 0, 0⟩
        ∧ sqrt (dot32 v v) ≠ 0
        ∧ (ParticleSystem.directionLoop32 RAND_MAX sqrt maxParticles g)[i]? = some (some d) := by
  intro i hi
  have hx : (ParticleSystem.directionSample32 RAND_MAX
      { outputs := g.outputs, calls := g.calls + 3 * i }).1.x ≠ 0 := by
    rw [directionSample32_eq]
    exact randomf32_x_ne_zero RAND_MAX _ hodd hsmall (hout _)
  have hne : (ParticleSystem.directionSample32 RAND_MAX
      { outputs := g.outputs, calls := g.calls + 3 * i }).1 ≠ ⟨0, 0, 0, 0⟩ :=
    fun h => hx (congrArg Vec4.x h)
  obtain ⟨hs, -, hd⟩ := normalize32_of_ne_zero sqrt hsqrt _ hne
  exact ⟨_, _, rfl, hx, hne, hs, by rw [directionLoop32_getElem? _ _ _ _ _ hi, hd]⟩

/-- C17, amended, with `RAND_MAX = 32767` and every `rand()` returning 5: the
vector passed to `normalize` is not zero and a vector of numbers is stored. -/
theorem init_direction_never_zero_of_odd_witness :
    32767 % 2 = 1 ∧ 32767 < 2 ^ 24 ∧ (∀ k, (constantRand 5).outputs k ≤ 32767)
      ∧ (∀ x, 0 < x → 0 < sqrt32 x)
      ∧ (ParticleSystem.directionSample32 32767 (constantRand 5)).1 ≠ ⟨0, 0, 0, 0⟩
      ∧ ∃ d, (ParticleSystem.directionLoop32 32767 sqrt32 1 (constantRand 5))[0]?
          = some (some d) := by
  have hout : ∀ k, (constantRand 5).outputs k ≤ 32767 := by
    intro k
    show 5 ≤ 32767
    norm_num
  obtain ⟨v, d, hv, -, hne, -, hd⟩ :=
    init_direction_never_zero_of_odd 32767 sqrt32 1 (constantRand 5) (by norm_num)
      (by norm_num) hout sqrt32_pos 0 (by norm_num)
  refine ⟨by norm_num, by norm_num, hout, sqrt32_pos, ?_, d, hd⟩
  rw [hv] at hne
  exact hne

/-- For an odd `RAND_MAX` the bound `RAND_MAX < 2 ^ 24` of `randomf32_x_ne_zero`
is the largest possible: the next odd number, `2 ^ 24 + 1`, is rounded to `2 ^ 24` by
`(float)RAND_MAX` (a tie, which goes to the even significand), and with `rand()`
returning `2 ^ 23`, `2 ^ 23`, `2 ^ 24 + 1` the vector passed to `normalize` is
the zero vector. -/
theorem directionSample32_zero_above_bound :
    16777217 % 2 = 1
      ∧ (∀ k, tieZeroDirection.outputs k ≤ 16777217)
      ∧ binary32 16777217 = 16777216
      ∧ (ParticleSystem.directionSample32 16777217 tieZeroDirection).1 = ⟨0, 0, 0, 0⟩ := by
  have hR : binary32 16777217 = 16777216 := by
    rw [binary32_of_nonneg (by norm_num), binary32Pos_eq _ 24 (by norm_num) (by norm_num)
      (by norm_num)]
    have hq : (16777217 : ℚ) / 2 ^ ((24 : ℤ) - 23) = 8388608 + 1 / 2 := by norm_num
    have hfl : ⌊(8388608 + 1 / 2 : ℚ)⌋ = 8388608 := by
      rw [Int.floor_eq_iff]
      norm_num
    rw [hq]
    unfold roundHalfEven
    rw [hfl]
    norm_num
  have hr : binary32 8388608 = 8388608 := by
    have h := binary32_natCast 8388608 (by norm_num)
    exact_mod_cast h
  have h1 : ¬ ((1 : ℚ) < -1) := by norm_num
  have h0 : ¬ ((0 : ℚ) < -1) := by norm_num
  refine ⟨by norm_num, ?_, hR, ?_⟩
  · intro k
    simp only [tieZeroDirection]
    split <;> norm_num
  · rw [directionSample32_eq]
    simp only [randomf32_of_not_lt _ _ _ h1, randomf32_of_not_lt _ _ _ h0, tieZeroDirection]
    norm_num [hR, hr, binary32_half, binary32_one, binary32_two, binary32_zero]

theorem foldl_apply_initCommands (gl : GLContext α) (n : Nat) (o : MapOutcomes)
    (g0 : GLBindings) :
    ((initCommands gl n o).foldl GLBindings.apply g0).shaderStorageIndexed 4 = gl.nextName
      ∧ ((initCommands gl n o).foldl GLBindings.apply g0).shaderStorageIndexed 5
          = gl.nextName + 1
      ∧ ((initCommands gl n o).foldl GLBindings.apply g0).shaderStorageIndexed 6
          = gl.nextName + 3
      ∧ ((initCommands gl n o).foldl GLBindings.apply g0).shaderStorageIndexed 7
          = gl.nextName + 2
      ∧ ((initCommands gl n o).foldl GLBindings.apply g0).shaderStorageIndexed 8
          = gl.nextName + 4
      ∧ ((initCommands gl n o).foldl GLBindings.apply g0).attrib (gl.nextName + 5) 0
          = { enabled := true, size := 4, type := GL_FLOAT, buffer := gl.nextName }
      ∧ ((initCommands gl n o).foldl GLBindings.apply g0).attrib (gl.nextName + 5) 1
          = { enabled := true, size := 4, type := GL_FLOAT, buffer := gl.nextName + 3 } := by
  simp [initCommands, initContext, mapPhase, bindingTrace, GLBindings.apply, Nat.add_assoc]

/-- C15. When `init()` returns, replaying the calls it issued on any prior
binding state leaves the shader-storage binding points 4, 5, 6, 7 and 8 bound to
the position, direction, colour, speed and active buffers respectively; these
are the five buffers `init` generated, with pairwise different names; and
attributes 0 and 1 of the vertex array object of the store are enabled
4-component `GL_FLOAT` attributes sourced from the position buffer and the
colour buffer respectively. -/
theorem init_binding_points [LinearOrderedField α] (P : Platform α) (o : MapOutcomes)
    (vf cs : Shader) (model : Model α) (maxParticles : Nat) (gl : GLContext α)
    (rng : RandState)
    (hpos : o.pos = true → maxParticles ≤ (sourcePool model).length)
    (hcol : o.color = true → 0 < maxParticles → model.meshes ≠ [])
    (g0 : GLBindings) :
    ∃ w g, ParticleSystem.ParticleSystem P o vf cs model maxParticles gl rng = some w
      ∧ g = (w.gl.trace.drop gl.trace.length).foldl GLBindings.apply g0
      ∧ g.shaderStorageIndexed 4 = w.self.pos_ssbo
      ∧ g.shaderStorageIndexed 5 = w.self.dir_ssbo
      ∧ g.shaderStorageIndexed 6 = w.self.color_ssbo
      ∧ g.shaderStorageIndexed 7 = w.self.speed_ssbo
      ∧ g.shaderStorageIndexed 8 = w.self.active_ssbo
      ∧ (w.gl.trace.drop gl.trace.length).filterMap GLCmd.generatedBuffer
          = [w.self.pos_ssbo, w.self.dir_ssbo, w.self.speed_ssbo, w.self.color_ssbo,
              w.self.active_ssbo]
      ∧ [w.self.pos_ssbo, w.self.dir_ssbo, w.self.color_ssbo, w.self.speed_ssbo,
          w.self.active_ssbo].Nodup
      ∧ g.attrib w.self.VAO 0
          = { enabled := true, size := 4, type := GL_FLOAT, buffer := w.self.pos_ssbo }
      ∧ g.attrib w.self.VAO 1
          = { enabled := true, size := 4, type := GL_FLOAT, buffer := w.self.color_ssbo } := by
  obtain ⟨w, hw, -, -, -, -, ⟨hb1, hb2, hb3, hb4, hb5, hb6⟩, hgl, -⟩ :=
    construct_spec P o vf cs model maxParticles gl rng hpos hcol
  obtain ⟨h4, h5, h6, h7, h8, ha0, ha1⟩ := foldl_apply_initCommands gl maxParticles o g0
  have hdrop : w.gl.trace.drop gl.trace.length = initCommands gl maxParticles o := by
    rw [hgl, initContext_trace, List.drop_left]
  refine ⟨w, _, hw, rfl, ?_, ?_, ?_, ?_, ?_, ?_, ?_, ?_, ?_⟩
  · rw [hdrop, hb1, h4]
  · rw [hdrop, hb2, h5]
  · rw [hdrop, hb4, h6]
  · rw [hdrop, hb3, h7]
  · rw [hdrop, hb5, h8]
  · rw [hdrop, hb1, hb2, hb3, hb4, hb5]
    simp [initCommands, initContext, mapPhase, bindingTrace, GLCmd.generatedBuffer,
      Nat.add_assoc]
  · rw [hb1, hb2, hb3, hb4, hb5]
    simp
  · rw [hdrop, hb6, hb1, ha0]
  · rw [hdrop, hb6, hb4, ha1]

/-- C15 at the demo model with capacity 3 in a fresh context. -/
theorem init_binding_points_witness :
    (allMapped.pos = true → 3 ≤ (sourcePool (demoModel ℝ)).length)
      ∧ (allMapped.color = true → 0 < 3 → (demoModel ℝ).meshes ≠ [])
      ∧ ∃ w g, ParticleSystem.ParticleSystem (realPlatform 32767 Real.sqrt) allMapped ⟨1⟩ ⟨2⟩
            (demoModel ℝ) 3 (freshContext ℝ) (constantRand 5) = some w
          ∧ g = (w.gl.trace.drop (freshContext ℝ).trace.length).foldl GLBindings.apply
                  initialBindings
          ∧ g.shaderStorageIndexed 4 = w.self.pos_ssbo
          ∧ g.shaderStorageIndexed 5 = w.self.dir_ssbo
          ∧ g.shaderStorageIndexed 6 = w.self.color_ssbo
          ∧ g.shaderStorageIndexed 7 = w.self.speed_ssbo
          ∧ g.shaderStorageIndexed 8 = w.self.active_ssbo
          ∧ (w.gl.trace.drop (freshContext ℝ).trace.length).filterMap GLCmd.generatedBuffer
              = [w.self.pos_ssbo, w.self.dir_ssbo, w.self.speed_ssbo, w.self.color_ssbo,
                  w.self.active_ssbo]
          ∧ [w.self.pos_ssbo, w.self.dir_ssbo, w.self.color_ssbo, w.self.speed_ssbo,
              w.self.active_ssbo].Nodup
          ∧ g.attrib w.self.VAO 0
              = { enabled := true, size := 4, type := GL_FLOAT, buffer := w.self.pos_ssbo }
          ∧ g.attrib w.self.VAO 1
              = { enabled := true, size := 4, type := GL_FLOAT, buffer := w.self.color_ssbo } :=
  ⟨fun _ => by simp [sourcePool, demoModel, demoMeshA, demoMeshB],
    fun _ _ => by simp [demoModel],
    init_binding_points (realPlatform 32767 Real.sqrt) allMapped ⟨1⟩ ⟨2⟩ (demoModel ℝ) 3
      (freshContext ℝ) (constantRand 5)
      (fun _ => by simp [sourcePool, demoModel, demoMeshA, demoMeshB])
      (fun _ _ => by simp [demoModel]) initialBindings⟩

theorem startup_eq [LinearOrderedField α] (P : Platform α) (o : MapOutcomes) (FLT_MAX : α)
    (garbageTotal : Nat) (garbageCenter : Vec3 α) (scene : Option (aiScene α))
    (particleShader cShader : Shader) (gl : GLContext α)
    (randSequence : Nat → Nat → Nat) (time : Nat) :
    main.startup P o FLT_MAX garbageTotal garbageCenter scene particleShader cShader gl
        randSequence time
      = (main.particleSystem P o FLT_MAX garbageTotal garbageCenter scene particleShader
          cShader gl (defaultRand randSequence)).map fun r =>
            (r.1, { ((r.2.emit (.Enable GL_DEPTH_TEST)).emit (.Enable GL_MULTISAMPLE)) with
                    rng := srand randSequence time }) := by
  unfold main.startup
  cases main.particleSystem P o FLT_MAX garbageTotal garbageCenter scene particleShader
      cShader gl (defaultRand randSequence) with
  | none => rfl
  | some r => rfl

/-- C18. In `main` the particle system is constructed, from the state the
generator has at program start, before `std::srand(std::time(nullptr))` runs.
So the five arrays of the store after the start-up are those of a store
constructed from the default generator state, whatever the time; for any two
values of the time the direction arrays are equal and the speed arrays are
equal (and the start-up returns for one exactly when it returns for the other);
only the generator state left for later calls depends on the time. -/
theorem startup_store_ignores_time [LinearOrderedField α] (P : Platform α) (o : MapOutcomes)
    (FLT_MAX : α) (garbageTotal : Nat) (garbageCenter : Vec3 α) (scene : Option (aiScene α))
    (particleShader cShader : Shader) (gl : GLContext α)
    (randSequence : Nat → Nat → Nat) (time1 time2 : Nat) :
    (main.startup P o FLT_MAX garbageTotal garbageCenter scene particleShader cShader gl
          randSequence time1).map (fun r => r.2.store)
        = (main.particleSystem P o FLT_MAX garbageTotal garbageCenter scene particleShader
            cShader gl (defaultRand randSequence)).map (fun r => r.2.store)
      ∧ (main.startup P o FLT_MAX garbageTotal garbageCenter scene particleShader cShader gl
            randSequence time1).map (fun r => (r.2.store.direction, r.2.store.speed))
          = (main.startup P o FLT_MAX garbageTotal garbageCenter scene particleShader cShader gl
              randSequence time2).map (fun r => (r.2.store.direction, r.2.store.speed))
      ∧ (main.startup P o FLT_MAX garbageTotal garbageCenter scene particleShader cShader gl
            randSequence time1).isSome
          = (main.startup P o FLT_MAX garbageTotal garbageCenter scene particleShader cShader gl
              randSequence time2).isSome
      ∧ (main.startup P o FLT_MAX garbageTotal garbageCenter scene particleShader cShader gl
            randSequence time1).map (fun r => r.2.rng)
          = (main.particleSystem P o FLT_MAX garbageTotal garbageCenter scene particleShader
              cShader gl (defaultRand randSequence)).map
                (fun _ => srand randSequence time1) := by
  rw [startup_eq, startup_eq]
  cases main.particleSystem P o FLT_MAX garbageTotal garbageCenter scene particleShader
      cShader gl (defaultRand randSequence) with
  | none => exact ⟨rfl, rfl, rfl, rfl⟩
  | some r => exact ⟨rfl, rfl, rfl, rfl⟩

theorem inputStep_counter (isPressed : Bool) (t : InputTracker)
    (h : 0 ≤ t.buttonPressCounter ∧ t.buttonPressCounter ≤ 5) :
    0 ≤ (main.inputStep isPressed t).buttonPressCounter
      ∧ (main.inputStep isPressed t).buttonPressCounter ≤ 5 := by
  obtain ⟨c, wp, thr⟩ := t
  simp only at h
  by_cases hc : c > 4
  · simp only [main.inputStep, main.thresholdCheck, processInput, hc, if_true, Bool.not_true,
      Bool.and_false, Bool.false_eq_true, if_false]
    exact h
  · simp only [main.inputStep, main.thresholdCheck, processInput, hc, if_false]
    split <;> omega

theorem inputStep_latched (isPressed : Bool) (t : InputTracker)
    (h : t.inputThresholdReached = true) :
    (main.inputStep isPressed t).inputThresholdReached = true
      ∧ (main.inputStep isPressed t).buttonPressCounter = t.buttonPressCounter := by
  obtain ⟨c, wp, thr⟩ := t
  simp only at h
  subst h
  by_cases hc : c > 4 <;> simp [main.inputStep, main.thresholdCheck, processInput, hc]

theorem inputLoop_counter (samples : List Bool) (t : InputTracker)
    (h : 0 ≤ t.buttonPressCounter ∧ t.buttonPressCounter ≤ 5) :
    0 ≤ (main.inputLoop samples t).buttonPressCounter
      ∧ (main.inputLoop samples t).buttonPressCounter ≤ 5 := by
  induction samples generalizing t with
  | nil => exact h
  | cons p rest ih => exact ih _ (inputStep_counter p t h)

theorem inputLoop_latched (samples : List Bool) (t : InputTracker)
    (h : t.inputThresholdReached = true) :
    (main.inputLoop samples t).inputThresholdReached = true
      ∧ (main.inputLoop samples t).buttonPressCounter = t.buttonPressCounter := by
  induction samples generalizing t with
  | nil => exact ⟨h, rfl⟩
  | cons p rest ih =>
    obtain ⟨h1, h2⟩ := inputStep_latched p t h
    obtain ⟨h3, h4⟩ := ih _ h1
    exact ⟨h3, h4.trans h2⟩

theorem inputLoop_append (xs ys : List Bool) (t : InputTracker) :
    main.inputLoop (xs ++ ys) t = main.inputLoop ys (main.inputLoop xs t) := by
  simp [main.inputLoop, List.foldl_append]

theorem frame_input [LinearOrderedField α] (inp : FrameInput α) (s : MainState α) :
    (main.frame inp s).input = main.inputStep inp.leftButtonPressed s.input
      ∧ (main.frame inp s).vgfShader = s.vgfShader := by
  unfold main.frame main.render
  split <;> exact ⟨rfl, rfl⟩

theorem loop_input [LinearOrderedField α] (inputs : List (FrameInput α)) (s : MainState α) :
    (main.loop inputs s).input
      = main.inputLoop (inputs.map fun inp => inp.leftButtonPressed) s.input := by
  induction inputs generalizing s with
  | nil => rfl
  | cons inp rest ih =>
    have h := ih (main.frame inp s)
    rw [(frame_input inp s).1] at h
    exact h

/-- C19. For every sequence of frames of the render loop, started from
`buttonPressCounter = 0`, `wasPressed = false`, `inputThresholdReached = false`:
the input tracker after the frames is the one obtained by running, per frame,
the threshold check followed by `processInput` on the left-button samples; the
counter is between 0 and 5; and if `inputThresholdReached` is true after these
frames, then after any further frames it is still true and the counter has the
same value. -/
theorem loop_counter_bounded_and_latched [LinearOrderedField α] (vgfShader : Shader)
    (particleSystem : World α) (inputs more : List (FrameInput α)) :
    (main.loop inputs (main.initial vgfShader particleSystem)).input
        = main.inputLoop (inputs.map fun inp => inp.leftButtonPressed) InputTracker.initial
      ∧ 0 ≤ (main.loop inputs (main.initial vgfShader particleSystem)).input.buttonPressCounter
      ∧ (main.loop inputs (main.initial vgfShader particleSystem)).input.buttonPressCounter ≤ 5
      ∧ ((main.loop inputs (main.initial vgfShader particleSystem)).input.inputThresholdReached
            = true →
          (main.loop (inputs ++ more)
              (main.initial vgfShader particleSystem)).input.inputThresholdReached = true
            ∧ (main.loop (inputs ++ more)
                (main.initial vgfShader particleSystem)).input.buttonPressCounter
              = (main.loop inputs
                  (main.initial vgfShader particleSystem)).input.buttonPressCounter) := by
  have h0 : 0 ≤ InputTracker.initial.buttonPressCounter
      ∧ InputTracker.initial.buttonPressCounter ≤ 5 := by
    constructor <;> decide
  have hl := loop_input inputs (main.initial vgfShader particleSystem)
  have hl2 := loop_input (inputs ++ more) (main.initial vgfShader particleSystem)
  have hb := inputLoop_counter (inputs.map fun inp => inp.leftButtonPressed)
    InputTracker.initial h0
  refine ⟨hl, ?_, ?_, ?_⟩
  · rw [hl]; exact hb.1
  · rw [hl]; exact hb.2
  · intro hthr
    rw [hl2, hl, List.map_append, inputLoop_append]
    rw [hl] at hthr
    exact inputLoop_latched _ _ hthr

/-- C19 on five clicks followed by one frame, then two more clicks: the
threshold is reached with the counter at 5, and both stay. -/
theorem loop_counter_bounded_and_latched_witness :
    (main.loop (demoClicks ℝ 5 ++ [demoFrame ℝ false])
        (main.initial ⟨3⟩ (demoWorld ℝ 3))).input
        = { buttonPressCounter := 5, wasPressed := false, inputThresholdReached := true }
      ∧ (main.loop ((demoClicks ℝ 5 ++ [demoFrame ℝ false]) ++ demoClicks ℝ 2)
            (main.initial ⟨3⟩ (demoWorld ℝ 3))).input.inputThresholdReached = true
      ∧ (main.loop ((demoClicks ℝ 5 ++ [demoFrame ℝ false]) ++ demoClicks ℝ 2)
            (main.initial ⟨3⟩ (demoWorld ℝ 3))).input.buttonPressCounter = 5 := by
  obtain ⟨hl, -, -, hlatch⟩ :=
    loop_counter_bounded_and_latched (⟨3⟩ : Shader) (demoWorld ℝ 3)
      (demoClicks ℝ 5 ++ [demoFrame ℝ false]) (demoClicks ℝ 2)
  have hsamples : ((demoClicks ℝ 5 ++ [demoFrame ℝ false]).map fun inp => inp.leftButtonPressed)
      = [true, false, true, false, true, false, true, false, true, false, false] := rfl
  have hval : main.inputLoop
      [true, false, true, false, true, false, true, false, true, false, false]
      InputTracker.initial
      = { buttonPressCounter := 5, wasPressed := false, inputThresholdReached := true } := by
    decide
  rw [hsamples, hval] at hl
  have hthr : (main.loop (demoClicks ℝ 5 ++ [demoFrame ℝ false])
      (main.initial ⟨3⟩ (demoWorld ℝ 3))).input.inputThresholdReached = true := by
    rw [hl]
  obtain ⟨h1, h2⟩ := hlatch hthr
  refine ⟨hl, h1, ?_⟩
  rw [h2, hl]

theorem storageScan_append (p : Bool) (a b : List (GLCmd α)) :
    storageScan p (a ++ b) = (storageScan p a).bind fun q => storageScan q b := by
  induction a generalizing p with
  | nil => simp [storageScan]
  | cons c rest ih =>
    cases c <;> cases p <;> simp [storageScan, ih]

theorem storageScan_neutral (p : Bool) (cmds : List (GLCmd α))
    (h : ∀ c ∈ cmds, c.isNeutral = true) : storageScan p cmds = some p := by
  induction cmds generalizing p with
  | nil => rfl
  | cons c rest ih =>
    have hc := h c (List.mem_cons_self _ _)
    have hrest : ∀ d ∈ rest, d.isNeutral = true := fun d hd => h d (List.mem_cons_of_mem _ hd)
    cases c <;>
      simp [GLCmd.isNeutral, GLCmd.isDispatch, GLCmd.isBarrier, GLCmd.isDraw] at hc <;>
      simp only [storageScan] <;> exact ih p hrest

theorem drawTextures_trace [NatCast α] (shader : Shader) (texs : List Texture) (i : Nat)
    (t : TextureLoop α) :
    ∃ cmds, (Mesh.drawTextures shader texs i t).world.gl.trace = t.world.gl.trace ++ cmds
      ∧ (∀ c ∈ cmds, c.isNeutral = true)
      ∧ (Mesh.drawTextures shader texs i t).world.self = t.world.self := by
  induction texs generalizing i t with
  | nil => exact ⟨[], by simp [Mesh.drawTextures], by simp, rfl⟩
  | cons tex rest ih =>
    obtain ⟨cmds, h1, h2, h3⟩ := ih (i + 1) (Mesh.drawTexture shader i tex t)
    refine ⟨[.ActiveTexture (GL_TEXTURE0 + i),
        .Uniform1f shader.ID ("material." ++ tex.type ++
          (if tex.type = "texture_diffuse" then toString t.diffuseNr
            else if tex.type = "texture_specular" then toString t.specularNr else ""))
          (i : α),
        .BindTexture tex.id] ++ cmds, ?_, ?_, ?_⟩
    · rw [Mesh.drawTextures, h1]
      simp only [Mesh.drawTexture, Shader.setFloat, World.emit]
      split <;> [skip; split] <;> simp
    · intro c hc
      rcases List.mem_append.mp hc with hc | hc
      · simp only [List.mem_cons, List.mem_singleton, List.not_mem_nil, or_false] at hc
        rcases hc with rfl | rfl | rfl <;> rfl
      · exact h2 c hc
    · rw [Mesh.drawTextures, h3]
      simp only [Mesh.drawTexture, Shader.setFloat, World.emit]

theorem Mesh_Draw_trace [NatCast α] (shader : Shader) (mesh : Mesh α) (w : World α) :
    ∃ cmds, (Mesh.Draw shader mesh w).gl.trace = w.gl.trace ++ cmds
      ∧ (∀ c ∈ cmds, c.isNeutral = true)
      ∧ (Mesh.Draw shader mesh w).self = w.self
      ∧ GLCmd.DrawElements GL_TRIANGLES (toGLsizei mesh.indices.length) ∈ cmds := by
  obtain ⟨cmds, h1, h2, h3⟩ := drawTextures_trace shader mesh.textures 0
    { diffuseNr := 1, specularNr := 1, hasDiffuse := false, hasSpecular := false, world := w }
  refine ⟨cmds ++ [.ActiveTexture GL_TEXTURE0,
      .Uniform3fv shader.ID "material.ambient" mesh.material.ambient,
      .Uniform3fv shader.ID "material.diffuse" mesh.material.diffuse,
      .Uniform3fv shader.ID "material.specular" mesh.material.specular,
      .Uniform1f shader.ID "material.shininess" mesh.material.shininess,
      .Uniform1i shader.ID "hasDiffuseTex"
        (if (Mesh.drawTextures shader mesh.textures 0
          { diffuseNr := 1, specularNr := 1, hasDiffuse := false, hasSpecular := false,
            world := w }).hasDiffuse then 1 else 0),
      .Uniform1i shader.ID "hasSpecularTex"
        (if (Mesh.drawTextures shader mesh.textures 0
          { diffuseNr := 1, specularNr := 1, hasDiffuse := false, hasSpecular := false,
            world := w }).hasSpecular then 1 else 0),
      .BindVertexArray mesh.VAO,
      .DrawElements GL_TRIANGLES (toGLsizei mesh.indices.length),
      .BindVertexArray 0], ?_, ?_, ?_, ?_⟩
  · simp only [Mesh.Draw, Shader.setVec3, Shader.setFloat, Shader.setBool, World.emit, h1]
    simp
  · intro c hc
    rcases List.mem_append.mp hc with hc | hc
    · exact h2 c hc
    · simp only [List.mem_cons, List.mem_singleton, List.not_mem_nil, or_false] at hc
      rcases hc with rfl | rfl | rfl | rfl | rfl | rfl | rfl | rfl | rfl | rfl <;> rfl
  · simp only [Mesh.Draw, Shader.setVec3, Shader.setFloat, Shader.setBool, World.emit, h3]
  · simp

theorem foldl_Mesh_Draw_trace [NatCast α] (shader : Shader) (meshes : List (Mesh α))
    (w : World α) :
    ∃ cmds, (meshes.foldl (fun w mesh => Mesh.Draw shader mesh w) w).gl.trace
          = w.gl.trace ++ cmds
      ∧ (∀ c ∈ cmds, c.isNeutral = true)
      ∧ (meshes.foldl (fun w mesh => Mesh.Draw shader mesh w) w).self = w.self
      ∧ (∀ mesh ∈ meshes,
          GLCmd.DrawElements GL_TRIANGLES (toGLsizei mesh.indices.length) ∈ cmds) := by
  induction meshes generalizing w with
  | nil => exact ⟨[], by simp, by simp, rfl, by simp⟩
  | cons m rest ih =>
    obtain ⟨c1, h1, h2, h3, h4⟩ := Mesh_Draw_trace shader m w
    obtain ⟨c2, k1, k2, k3, k4⟩ := ih (Mesh.Draw shader m w)
    refine ⟨c1 ++ c2, ?_, ?_, ?_, ?_⟩
    · rw [List.foldl_cons, k1, h1, List.append_assoc]
    · intro c hc
      rcases List.mem_append.mp hc with hc | hc
      · exact h2 c hc
      · exact k2 c hc
    · rw [List.foldl_cons, k3, h3]
    · intro mesh hmesh
      rcases List.mem_cons.mp hmesh with rfl | hmesh
      · exact List.mem_append_left _ h4
      · exact List.mem_append_right _ (k4 mesh hmesh)

theorem Model_Draw_trace [NatCast α] (shader : Shader) (model : Model α) (w : World α) :
    ∃ cmds, (Model.Draw shader model w).gl.trace = w.gl.trace ++ cmds
      ∧ (∀ c ∈ cmds, c.isNeutral = true)
      ∧ (Model.Draw shader model w).self = w.self
      ∧ (∀ mesh ∈ model.meshes,
          GLCmd.DrawElements GL_TRIANGLES (toGLsizei mesh.indices.length) ∈ cmds) := by
  obtain ⟨cmds, h1, h2, h3, h4⟩ := foldl_Mesh_Draw_trace shader model.meshes w
  refine ⟨cmds ++ [.Uniform3fv shader.ID "modelCenter" model.modelCenter], ?_, ?_, ?_, ?_⟩
  · simp only [Model.Draw, Shader.setVec3, World.emit, h1, List.append_assoc]
  · intro c hc
    rcases List.mem_append.mp hc with hc | hc
    · exact h2 c hc
    · simp only [List.mem_singleton] at hc
      subst hc
      rfl
  · simp only [Model.Draw, Shader.setVec3, World.emit, h3]
  · intro mesh hmesh
    exact List.mem_append_left _ (h4 mesh hmesh)

theorem clearAndCamera_trace [LinearOrderedField α] (inp : FrameInput α) (s : MainState α) :
    (main.clearAndCamera inp s).gl.trace
        = s.particleSystem.gl.trace ++ clearCommands inp s.vgfShader
      ∧ (main.clearAndCamera inp s).self = s.particleSystem.self := by
  simp [main.clearAndCamera, Shader.setMat4, World.emit, clearCommands]

theorem clearCommands_neutral [LinearOrderedField α] (inp : FrameInput α) (vgfShader : Shader) :
    ∀ c ∈ clearCommands inp vgfShader, c.isNeutral = true := by
  intro c hc
  simp only [clearCommands, List.mem_cons, List.mem_singleton, List.not_mem_nil,
    or_false] at hc
  rcases hc with rfl | rfl | rfl | rfl <;> rfl

theorem meshPath_trace [LinearOrderedField α] (inp : FrameInput α) (s : MainState α)
    (w : World α) :
    ∃ cmds, (main.meshPath inp s w).gl.trace = w.gl.trace ++ cmds
      ∧ (∀ c ∈ cmds, c.isNeutral = true)
      ∧ (main.meshPath inp s w).self = w.self
      ∧ GLCmd.UseProgram s.vgfShader.ID ∈ cmds
      ∧ GLCmd.Uniform1i s.vgfShader.ID "implosionCounter" s.input.buttonPressCounter ∈ cmds
      ∧ (∀ mesh ∈ w.self.model.meshes,
          GLCmd.DrawElements GL_TRIANGLES (toGLsizei mesh.indices.length) ∈ cmds) := by
  have hw8 : ∃ w8 : World α, main.meshPath inp s w = Model.Draw s.vgfShader w8.self.model w8
      ∧ w8.self = w.self
      ∧ w8.gl.trace = w.gl.trace ++
          [.UseProgram s.vgfShader.ID,
            .Uniform1i s.vgfShader.ID "implosionCounter" s.input.buttonPressCounter,
            .Uniform3fv s.vgfShader.ID "cameraPos" inp.cameraPos,
            .Uniform3f s.vgfShader.ID "dirLight.direction" (-(1 / 10)) (-(2 / 10)) (-(9 / 10)),
            .Uniform3f s.vgfShader.ID "dirLight.ambient" (33 / 100) (33 / 100) (33 / 100),
            .Uniform3f s.vgfShader.ID "dirLight.diffuse" 1 1 1,
            .Uniform3f s.vgfShader.ID "dirLight.specular" 1 (6 / 10) (3 / 10),
            .UniformMatrix4fv s.vgfShader.ID "model"
              (scale (translate mat4Identity ⟨0, 0, 0⟩) ⟨1, 1, 1⟩)] :=
    ⟨_, rfl, rfl, by
      simp [Shader.use, Shader.setInt, Shader.setVec3, Shader.setVec3f, Shader.setMat4,
        World.emit]⟩
  obtain ⟨w8, hpath, hself, htrace⟩ := hw8
  obtain ⟨cmds, h1, h2, h3, h4⟩ := Model_Draw_trace s.vgfShader w8.self.model w8
  refine ⟨[.UseProgram s.vgfShader.ID,
      .Uniform1i s.vgfShader.ID "implosionCounter" s.input.buttonPressCounter,
      .Uniform3fv s.vgfShader.ID "cameraPos" inp.cameraPos,
      .Uniform3f s.vgfShader.ID "dirLight.direction" (-(1 / 10)) (-(2 / 10)) (-(9 / 10)),
      .Uniform3f s.vgfShader.ID "dirLight.ambient" (33 / 100) (33 / 100) (33 / 100),
      .Uniform3f s.vgfShader.ID "dirLight.diffuse" 1 1 1,
      .Uniform3f s.vgfShader.ID "dirLight.specular" 1 (6 / 10) (3 / 10),
      .UniformMatrix4fv s.vgfShader.ID "model"
        (scale (translate mat4Identity ⟨0, 0, 0⟩) ⟨1, 1, 1⟩)] ++ cmds, ?_, ?_, ?_, ?_, ?_, ?_⟩
  · rw [hpath, h1, htrace, List.append_assoc]
  · intro c hc
    rcases List.mem_append.mp hc with hc | hc
    · simp only [List.mem_cons, List.mem_singleton, List.not_mem_nil, or_false] at hc
      rcases hc with rfl | rfl | rfl | rfl | rfl | rfl | rfl | rfl <;> rfl
    · exact h2 c hc
  · rw [hpath, h3, hself]
  · simp
  · simp
  · intro mesh hmesh
    rw [← hself] at hmesh
    exact List.mem_append_right _ (h4 mesh hmesh)

theorem particlePath_trace [LinearOrderedField α] (inp : FrameInput α) (w : World α) :
    (main.particlePath inp w).gl.trace
        = w.gl.trace ++ (updateCommands inp.deltaTime w
            ++ drawCommands 2 inp.projection inp.view w)
      ∧ (main.particlePath inp w).self = w.self := by
  constructor
  · rw [main.particlePath, draw_trace, update_trace, List.append_assoc]
    rfl
  · rfl

theorem storageScan_particle (p : Bool) (deltaTime particle_size : α)
    (projection view : Mat4 α) (w : World α) :
    storageScan p (updateCommands deltaTime w ++ drawCommands particle_size projection view w)
      = some false := by
  have hbit : GL_SHADER_STORAGE_BARRIER_BIT &&& GL_SHADER_STORAGE_BARRIER_BIT ≠ 0 := by decide
  have hne : GL_SHADER_STORAGE_BARRIER_BIT ≠ 0 := by decide
  simp [updateCommands, drawCommands, storageScan, hbit, hne]

theorem frame_particle [LinearOrderedField α] (inp : FrameInput α) (s : MainState α)
    (hpath : (main.inputStep inp.leftButtonPressed s.input).inputThresholdReached = true) :
    (main.frame inp s).particleSystem
        = main.particlePath inp (main.clearAndCamera inp
            { s with input := main.inputStep inp.leftButtonPressed s.input })
      ∧ (main.frame inp s).particleSystem.gl.trace
          = s.particleSystem.gl.trace ++ (clearCommands inp s.vgfShader
              ++ (updateCommands inp.deltaTime s.particleSystem
                ++ drawCommands 2 inp.projection inp.view s.particleSystem)) := by
  have h1 : (main.frame inp s).particleSystem
      = main.particlePath inp (main.clearAndCamera inp
          { s with input := main.inputStep inp.leftButtonPressed s.input }) := by
    simp [main.frame, main.render, hpath]
  refine ⟨h1, ?_⟩
  rw [h1, (particlePath_trace _ _).1, (clearAndCamera_trace _ _).1, List.append_assoc]
  rfl

theorem frame_mesh [LinearOrderedField α] (inp : FrameInput α) (s : MainState α)
    (hpath : (main.inputStep inp.leftButtonPressed s.input).inputThresholdReached = false) :
    (main.frame inp s).particleSystem
        = main.meshPath inp { s with input := main.inputStep inp.leftButtonPressed s.input }
            (main.clearAndCamera inp
              { s with input := main.inputStep inp.leftButtonPressed s.input })
      ∧ ∃ cmds, (main.frame inp s).particleSystem.gl.trace
            = s.particleSystem.gl.trace ++ (clearCommands inp s.vgfShader ++ cmds)
          ∧ (∀ c ∈ cmds, c.isNeutral = true)
          ∧ GLCmd.UseProgram s.vgfShader.ID ∈ cmds
          ∧ GLCmd.Uniform1i s.vgfShader.ID "implosionCounter"
              (main.inputStep inp.leftButtonPressed s.input).buttonPressCounter ∈ cmds
          ∧ (∀ mesh ∈ s.particleSystem.self.model.meshes,
              GLCmd.DrawElements GL_TRIANGLES (toGLsizei mesh.indices.length) ∈ cmds) := by
  have h1 : (main.frame inp s).particleSystem
      = main.meshPath inp { s with input := main.inputStep inp.leftButtonPressed s.input }
          (main.clearAndCamera inp
            { s with input := main.inputStep inp.leftButtonPressed s.input }) := by
    simp [main.frame, main.render, hpath]
  refine ⟨h1, ?_⟩
  obtain ⟨cmds, k1, k2, -, k4, k5, k6⟩ :=
    meshPath_trace inp { s with input := main.inputStep inp.leftButtonPressed s.input }
      (main.clearAndCamera inp
        { s with input := main.inputStep inp.leftButtonPressed s.input })
  refine ⟨cmds, ?_, k2, k4, k5, ?_⟩
  · rw [h1, k1, (clearAndCamera_trace _ _).1, List.append_assoc]
  · intro mesh hmesh
    apply k6
    rw [(clearAndCamera_trace _ _).2]
    exact hmesh

theorem frame_scan [LinearOrderedField α] (inp : FrameInput α) (s : MainState α) :
    ∃ cmds, (main.frame inp s).particleSystem.gl.trace = s.particleSystem.gl.trace ++ cmds
      ∧ ∀ p, ∃ q, storageScan p cmds = some q ∧ (p = false → q = false) := by
  cases hthr : (main.inputStep inp.leftButtonPressed s.input).inputThresholdReached with
  | true =>
    refine ⟨_, (frame_particle inp s hthr).2, fun p => ⟨false, ?_, fun _ => rfl⟩⟩
    rw [storageScan_append, storageScan_neutral p _ (clearCommands_neutral inp s.vgfShader),
      Option.some_bind]
    exact storageScan_particle p inp.deltaTime 2 inp.projection inp.view s.particleSystem
  | false =>
    obtain ⟨-, cmds, h1, h2, -⟩ := frame_mesh inp s hthr
    refine ⟨_, h1, fun p => ⟨p, ?_, fun h => h⟩⟩
    apply storageScan_neutral
    intro c hc
    rcases List.mem_append.mp hc with hc | hc
    · exact clearCommands_neutral inp s.vgfShader c hc
    · exact h2 c hc

theorem loop_scan [LinearOrderedField α] (inputs : List (FrameInput α)) (s : MainState α) :
    ∃ cmds, (main.loop inputs s).particleSystem.gl.trace = s.particleSystem.gl.trace ++ cmds
      ∧ ∀ p, ∃ q, storageScan p cmds = some q ∧ (p = false → q = false) := by
  induction inputs generalizing s with
  | nil => exact ⟨[], by simp [main.loop], fun p => ⟨p, rfl, fun h => h⟩⟩
  | cons inp rest ih =>
    obtain ⟨c1, h1, k1⟩ := frame_scan inp s
    obtain ⟨c2, h2, k2⟩ := ih (main.frame inp s)
    refine ⟨c1 ++ c2, ?_, fun p => ?_⟩
    · show (main.loop rest (main.frame inp s)).particleSystem.gl.trace = _
      rw [h2, h1, List.append_assoc]
    · obtain ⟨q1, e1, f1⟩ := k1 p
      obtain ⟨q2, e2, f2⟩ := k2 q1
      refine ⟨q2, ?_, fun hp => f2 (f1 hp)⟩
      rw [storageScan_append, e1, Option.some_bind]
      exact e2

/-- C14. In a frame of the render loop that takes the particle path (the
threshold flag is set after the input step), the frame issues, after the clear
and the two matrices of the mesh shader, exactly the calls of one `update`
(ending in dispatch, then storage barrier) followed by exactly the calls of one
`draw`: one dispatch, one barrier, one `glDrawArrays`, in this order. Over the
calls of any number of frames from any state, no `glDrawArrays` is issued while
a dispatch is pending without a storage barrier after it, whatever was pending
before the loop; and if nothing was pending before, nothing is pending after. -/
theorem frame_update_completes_before_draw [LinearOrderedField α] (inp : FrameInput α)
    (s : MainState α) (inputs : List (FrameInput α)) (s0 : MainState α)
    (hpath : (main.inputStep inp.leftButtonPressed s.input).inputThresholdReached = true) :
    (main.frame inp s).particleSystem
        = ParticleSystem.draw 2 inp.projection inp.view
            (ParticleSystem.update inp.deltaTime (main.clearAndCamera inp
              { s with input := main.inputStep inp.leftButtonPressed s.input }))
      ∧ (main.frame inp s).particleSystem.gl.trace = s.particleSystem.gl.trace ++
          [ .ClearColor (5 / 100) (5 / 100) (5 / 100) 1,
            .Clear (GL_COLOR_BUFFER_BIT ||| GL_DEPTH_BUFFER_BIT),
            .UniformMatrix4fv s.vgfShader.ID "projection" inp.projection,
            .UniformMatrix4fv s.vgfShader.ID "view" inp.view,
            .UseProgram s.particleSystem.self.cShader.ID,
            .Uniform1f s.particleSystem.self.cShader.ID "deltaTime" inp.deltaTime,
            .Uniform3fv s.particleSystem.self.cShader.ID "modelCenter"
              s.particleSystem.self.model.modelCenter,
            .DispatchCompute (dispatchGroups s.particleSystem.self.maxParticles) 1 1,
            .MemoryBarrier GL_SHADER_STORAGE_BARRIER_BIT,
            .UseProgram s.particleSystem.self.vfShader.ID,
            .BindVertexArray s.particleSystem.self.VAO,
            .UniformMatrix4fv s.particleSystem.self.vfShader.ID "proj" inp.projection,
            .UniformMatrix4fv s.particleSystem.self.vfShader.ID "view" inp.view,
            .PointSize 2,
            .DrawArrays GL_POINTS 0 (toGLsizei s.particleSystem.self.maxParticles) ]
      ∧ ((main.frame inp s).particleSystem.gl.trace.drop
            s.particleSystem.gl.trace.length).countP GLCmd.isDispatch = 1
      ∧ ((main.frame inp s).particleSystem.gl.trace.drop
            s.particleSystem.gl.trace.length).countP GLCmd.isBarrier = 1
      ∧ ((main.frame inp s).particleSystem.gl.trace.drop
            s.particleSystem.gl.trace.length).countP GLCmd.isDraw = 1
      ∧ (∀ p, (storageScan p ((main.loop inputs s0).particleSystem.gl.trace.drop
            s0.particleSystem.gl.trace.length)).isSome = true)
      ∧ storageScan false ((main.loop inputs s0).particleSystem.gl.trace.drop
            s0.particleSystem.gl.trace.length) = some false := by
  obtain ⟨h1, h2⟩ := frame_particle inp s hpath
  obtain ⟨cmds, hl, hscan⟩ := loop_scan inputs s0
  have htrace : (main.frame inp s).particleSystem.gl.trace = s.particleSystem.gl.trace ++
      [ .ClearColor (5 / 100) (5 / 100) (5 / 100) 1,
        .Clear (GL_COLOR_BUFFER_BIT ||| GL_DEPTH_BUFFER_BIT),
        .UniformMatrix4fv s.vgfShader.ID "projection" inp.projection,
        .UniformMatrix4fv s.vgfShader.ID "view" inp.view,
        .UseProgram s.particleSystem.self.cShader.ID,
        .Uniform1f s.particleSystem.self.cShader.ID "deltaTime" inp.deltaTime,
        .Uniform3fv s.particleSystem.self.cShader.ID "modelCenter"
          s.particleSystem.self.model.modelCenter,
        .DispatchCompute (dispatchGroups s.particleSystem.self.maxParticles) 1 1,
        .MemoryBarrier GL_SHADER_STORAGE_BARRIER_BIT,
        .UseProgram s.particleSystem.self.vfShader.ID,
        .BindVertexArray s.particleSystem.self.VAO,
        .UniformMatrix4fv s.particleSystem.self.vfShader.ID "proj" inp.projection,
        .UniformMatrix4fv s.particleSystem.self.vfShader.ID "view" inp.view,
        .PointSize 2,
        .DrawArrays GL_POINTS 0 (toGLsizei s.particleSystem.self.maxParticles) ] := by
    rw [h2]
    rfl
  refine ⟨h1, htrace, ?_, ?_, ?_, ?_, ?_⟩
  · rw [htrace, List.drop_left]; rfl
  · rw [htrace, List.drop_left]; rfl
  · rw [htrace, List.drop_left]; rfl
  · intro p
    obtain ⟨q, hq, -⟩ := hscan p
    rw [hl, List.drop_left, hq]
    rfl
  · obtain ⟨q, hq, hf⟩ := hscan false
    rw [hl, List.drop_left, hq, hf rfl]

/-- C14 on the demo store of three particles: a frame after the threshold, and
the whole loop over six clicks. -/
theorem frame_update_completes_before_draw_witness :
    (main.inputStep (demoFrame ℝ false).leftButtonPressed
        ({ buttonPressCounter := 5, wasPressed := false, inputThresholdReached := true }
          : InputTracker)).inputThresholdReached = true
      ∧ (main.frame (demoFrame ℝ false)
            { input := { buttonPressCounter := 5, wasPressed := false,
                         inputThresholdReached := true }
              vgfShader := ⟨3⟩, particleSystem := demoWorld ℝ 3 }).particleSystem.gl.trace =
          [ .ClearColor (5 / 100) (5 / 100) (5 / 100) 1,
            .Clear (GL_COLOR_BUFFER_BIT ||| GL_DEPTH_BUFFER_BIT),
            .UniformMatrix4fv 3 "projection" (fun _ => ⟨0, 0, 0, 0⟩),
            .UniformMatrix4fv 3 "view" (fun _ => ⟨0, 0, 0, 0⟩),
            .UseProgram 2, .Uniform1f 2 "deltaTime" (1 / 60),
            .Uniform3fv 2 "modelCenter" ⟨4, 5, 6⟩,
            .DispatchCompute 1 1 1, .MemoryBarrier GL_SHADER_STORAGE_BARRIER_BIT,
            .UseProgram 1, .BindVertexArray 6,
            .UniformMatrix4fv 1 "proj" (fun _ => ⟨0, 0, 0, 0⟩),
            .UniformMatrix4fv 1 "view" (fun _ => ⟨0, 0, 0, 0⟩),
            .PointSize 2, .DrawArrays GL_POINTS 0 3 ]
      ∧ storageScan false ((main.loop (demoClicks ℝ 6)
            (main.initial ⟨3⟩ (demoWorld ℝ 3))).particleSystem.gl.trace.drop
              (main.initial ⟨3⟩ (demoWorld ℝ 3)).particleSystem.gl.trace.length)
          = some false := by
  have hpath : (main.inputStep (demoFrame ℝ false).leftButtonPressed
      ({ buttonPressCounter := 5, wasPressed := false, inputThresholdReached := true }
        : InputTracker)).inputThresholdReached = true := rfl
  obtain ⟨-, htrace, -, -, -, -, hscan⟩ :=
    frame_update_completes_before_draw (demoFrame ℝ false)
      { input := { buttonPressCounter := 5, wasPressed := false,
                   inputThresholdReached := true }
        vgfShader := ⟨3⟩, particleSystem := demoWorld ℝ 3 }
      (demoClicks ℝ 6) (main.initial ⟨3⟩ (demoWorld ℝ 3)) hpath
  refine ⟨hpath, ?_, hscan⟩
  rw [htrace]
  have hg : dispatchGroups 3 = 1 := by decide
  have hz : toGLsizei 3 = 3 := by decide
  show ([] : List (GLCmd ℝ)) ++ _ = _
  simp only [demoWorld, demoModel, demoFrame, hg, hz, List.nil_append]

theorem frame_self [LinearOrderedField α] (inp : FrameInput α) (s : MainState α) :
    (main.frame inp s).particleSystem.self = s.particleSystem.self := by
  cases hthr : (main.inputStep inp.leftButtonPressed s.input).inputThresholdReached with
  | true =>
    rw [(frame_particle inp s hthr).1, (particlePath_trace _ _).2, (clearAndCamera_trace _ _).2]
  | false =>
    rw [(frame_mesh inp s hthr).1]
    obtain ⟨cmds, -, -, h3, -⟩ :=
      meshPath_trace inp { s with input := main.inputStep inp.leftButtonPressed s.input }
        (main.clearAndCamera inp
          { s with input := main.inputStep inp.leftButtonPressed s.input })
    rw [h3, (clearAndCamera_trace _ _).2]

theorem loop_self [LinearOrderedField α] (inputs : List (FrameInput α)) (s : MainState α) :
    (main.loop inputs s).particleSystem.self = s.particleSystem.self
      ∧ (main.loop inputs s).vgfShader = s.vgfShader := by
  induction inputs generalizing s with
  | nil => exact ⟨rfl, rfl⟩
  | cons inp rest ih =>
    obtain ⟨h1, h2⟩ := ih (main.frame inp s)
    exact ⟨h1.trans (frame_self inp s), h2.trans (frame_input inp s).2⟩

theorem countP_of_neutral (cmds : List (GLCmd α)) (h : ∀ c ∈ cmds, c.isNeutral = true) :
    cmds.countP GLCmd.isDispatch = 0 ∧ cmds.countP GLCmd.isDraw = 0 := by
  constructor
  · rw [List.countP_eq_zero]
    intro c hc
    have := h c hc
    simp only [GLCmd.isNeutral, Bool.and_eq_true, Bool.not_eq_true'] at this
    simp [this.1.1]
  · rw [List.countP_eq_zero]
    intro c hc
    have := h c hc
    simp only [GLCmd.isNeutral, Bool.and_eq_true, Bool.not_eq_true'] at this
    simp [this.2]

/-- C20 at a failing input: three clicks, then one more frame. At render time
of that frame `buttonPressCounter` is 3, which is not below 3, yet the frame
takes the mesh branch: it activates the mesh shader, publishes
"implosionCounter" = 3 and draws the meshes with `glDrawElements`, and issues
no compute dispatch and no `glDrawArrays`. The branch is chosen by
`inputThresholdReached`, which is set only when a frame starts with the counter
above 4. -/
theorem frame_mesh_path_at_three_hits :
    (main.loop (demoClicks ℝ 3) (main.initial ⟨3⟩ (demoWorld ℝ 3))).input
        = { buttonPressCounter := 3, wasPressed := false, inputThresholdReached := false }
      ∧ (main.frame (demoFrame ℝ false)
          (main.loop (demoClicks ℝ 3)
            (main.initial ⟨3⟩ (demoWorld ℝ 3)))).input.buttonPressCounter = 3
      ∧ ¬ ((main.frame (demoFrame ℝ false)
          (main.loop (demoClicks ℝ 3)
            (main.initial ⟨3⟩ (demoWorld ℝ 3)))).input.buttonPressCounter < 3)
      ∧ ∃ cmds, (main.frame (demoFrame ℝ false)
            (main.loop (demoClicks ℝ 3)
              (main.initial ⟨3⟩ (demoWorld ℝ 3)))).particleSystem.gl.trace
            = (main.loop (demoClicks ℝ 3)
                (main.initial ⟨3⟩ (demoWorld ℝ 3))).particleSystem.gl.trace ++ cmds
          ∧ GLCmd.UseProgram 3 ∈ cmds
          ∧ GLCmd.Uniform1i 3 "implosionCounter" 3 ∈ cmds
          ∧ GLCmd.DrawElements GL_TRIANGLES 0 ∈ cmds
          ∧ cmds.countP GLCmd.isDispatch = 0
          ∧ cmds.countP GLCmd.isDraw = 0 := by
  have hin : (main.loop (demoClicks ℝ 3) (main.initial ⟨3⟩ (demoWorld ℝ 3))).input
      = { buttonPressCounter := 3, wasPressed := false, inputThresholdReached := false } := by
    rw [loop_input]
    have hsamples : ((demoClicks ℝ 3).map fun inp => inp.leftButtonPressed)
        = [true, false, true, false, true, false] := rfl
    rw [hsamples]
    decide
  obtain ⟨hself, hvgf⟩ := loop_self (demoClicks ℝ 3) (main.initial ⟨3⟩ (demoWorld ℝ 3))
  have hstep : main.inputStep (demoFrame ℝ false).leftButtonPressed
      (main.loop (demoClicks ℝ 3) (main.initial ⟨3⟩ (demoWorld ℝ 3))).input
      = { buttonPressCounter := 3, wasPressed := false, inputThresholdReached := false } := by
    rw [hin]
    decide
  have hcount : (main.frame (demoFrame ℝ false)
      (main.loop (demoClicks ℝ 3)
        (main.initial ⟨3⟩ (demoWorld ℝ 3)))).input.buttonPressCounter = 3 := by
    rw [(frame_input _ _).1, hstep]
  obtain ⟨-, cmds, h1, h2, h3, h4, h5⟩ :=
    frame_mesh (demoFrame ℝ false)
      (main.loop (demoClicks ℝ 3) (main.initial ⟨3⟩ (demoWorld ℝ 3)))
      (by rw [hstep])
  rw [hvgf] at h1 h3 h4
  rw [hstep] at h4
  rw [hself] at h5
  have hneutral : ∀ c ∈ clearCommands (demoFrame ℝ false) (⟨3⟩ : Shader) ++ cmds,
      c.isNeutral = true := by
    intro c hc
    rcases List.mem_append.mp hc with hc | hc
    · exact clearCommands_neutral _ _ c hc
    · exact h2 c hc
  refine ⟨hin, hcount, by rw [hcount]; decide, _, h1, ?_, ?_, ?_,
    (countP_of_neutral _ hneutral).1, (countP_of_neutral _ hneutral).2⟩
  · exact List.mem_append_right _ h3
  · exact List.mem_append_right _ h4
  · apply List.mem_append_right
    have hm := h5 (demoMeshA ℝ) (by simp [main.initial, demoWorld, demoModel])
    have hz : toGLsizei (demoMeshA ℝ).indices.length = 0 := by decide
    rw [hz] at hm
    exact hm

/-- C18 on the triangle scene, with `totalVertices` starting at 0, for the times
1000 and 2000: the start-up returns, and both runs hold the same direction and
speed arrays. -/
theorem startup_store_ignores_time_witness :
    (main.startup (realPlatform 32767 Real.sqrt) allMapped (FLT_MAX ℝ) 0 ⟨0, 0, 0⟩
        (some (triangleScene ℝ)) ⟨1⟩ ⟨2⟩ (freshContext ℝ) demoRandSequence 1000).isSome = true
      ∧ (main.startup (realPlatform 32767 Real.sqrt) allMapped (FLT_MAX ℝ) 0 ⟨0, 0, 0⟩
            (some (triangleScene ℝ)) ⟨1⟩ ⟨2⟩ (freshContext ℝ) demoRandSequence 1000).map
            (fun r => (r.2.store.direction, r.2.store.speed))
          = (main.startup (realPlatform 32767 Real.sqrt) allMapped (FLT_MAX ℝ) 0 ⟨0, 0, 0⟩
              (some (triangleScene ℝ)) ⟨1⟩ ⟨2⟩ (freshContext ℝ) demoRandSequence 2000).map
              (fun r => (r.2.store.direction, r.2.store.speed)) := by
  refine ⟨?_, (startup_store_ignores_time (realPlatform 32767 Real.sqrt) allMapped (FLT_MAX ℝ) 0
    ⟨0, 0, 0⟩ (some (triangleScene ℝ)) ⟨1⟩ ⟨2⟩ (freshContext ℝ) demoRandSequence
    1000 2000).2.1⟩
  obtain ⟨m, hm, hmesh⟩ := triangleScene_meshes 0 ⟨0, 0, 0⟩
  have hpool : (sourcePool m).length = 3 := by
    have : sourcePool m
        = (m.meshes.map fun mesh => mesh.vertices.map fun v => v.Position).flatten := by
      simp [sourcePool, List.flatMap_def]
    rw [this, hmesh]
    rfl
  have htot : m.totalVertices = 3 := by
    rw [Model_totalVertices _ _ _ _ _ hm, hpool]
    norm_num
  have hps : (ParticleSystem.ParticleSystem (realPlatform 32767 Real.sqrt) allMapped ⟨1⟩ ⟨2⟩ m
      m.totalVertices (freshContext ℝ) (defaultRand demoRandSequence)).isSome = true := by
    rw [construct_isSome_iff]
    refine ⟨fun _ => by omega, fun _ hn => ?_⟩
    exact sourcePool_ne_nil_of_pos m m.totalVertices hn (by omega)
  obtain ⟨w, hw⟩ := Option.isSome_iff_exists.mp hps
  rw [startup_eq]
  simp only [main.particleSystem, hm, Option.bind_eq_bind, Option.some_bind, hw,
    Option.map_some', Option.isSome_some]

end MeshDestruction
